import Mathlib

/-!
# ServiceComb service-center: configuration, server start-up and the janitor

A shallow embedding of `server/config/config.go`, `server/server.go` and
`pkg/util/context_grpc.go`, with the registry and discovery operations
exercised by `datasource/instance_test.go`.

Conventions.
* Go `time.Duration` is a count of nanoseconds; it is an `Int` here.  The functions
  below only compare durations, so every statement proved for all integers holds
  for the 64-bit values in particular.
* Calls into other packages (logging, the lock, the datasource, the goroutine
  pool) are recorded as `Effect`s, in program order; what such a call returns is
  supplied by the environment.
-/

namespace ServiceCenter

/-! ## server/config/config.go -/

/-- Go `time.Duration`: nanoseconds. -/
abbrev Duration := Int

def Second : Duration := 1000000000
def Minute : Duration := 60 * Second
def Hour : Duration := 60 * Minute

def InitVersion : String := "0"

def defaultServiceClearInterval : Duration := 12 * Hour
def defaultServiceTTL : Duration := 24 * Hour

def minServiceClearInterval : Duration := 30 * Second
def minServiceTTL : Duration := 30 * Second
def minCacheTTL : Duration := 5 * Minute

def maxServiceClearInterval : Duration := 24 * Hour
def maxServiceTTL : Duration := 24 * 365 * Hour

def defaultCollectPeriod : Duration := 30 * Second

/-- The configuration that the `Get*` accessors read (archaius: memory source,
environment, `conf/app.yaml`).  For every key and value type it holds the
configured value, `none` when the key is not configured.  The environment
variable and stand-by key that `WithENV` / `WithStandby` attach to a key are
alternative spellings of that key and are resolved by the source. -/
structure Source where
  duration : String → Option Duration
  int64 : String → Option Int
  int : String → Option Int
  bool : String → Option Bool
  string : String → Option String

/-- A source in which nothing is configured. -/
def Source.unset : Source :=
  { duration := fun _ => none, int64 := fun _ => none, int := fun _ => none,
    bool := fun _ => none, string := fun _ => none }

/-- `GetDuration(key, def, opts...)`.  The accessor is declared in a file of
package config outside the given sources; it yields the configured value, and
`def` when there is none. -/
def GetDuration (s : Source) (key : String) (dflt : Duration) : Duration :=
  (s.duration key).getD dflt

/-- `GetInt64(key, def, opts...)`, see `GetDuration`. -/
def GetInt64 (s : Source) (key : String) (dflt : Int) : Int :=
  (s.int64 key).getD dflt

/-- `GetInt(key, def, opts...)`, see `GetDuration`. -/
def GetInt (s : Source) (key : String) (dflt : Int) : Int :=
  (s.int key).getD dflt

/-- `GetBool(key, def, opts...)`, see `GetDuration`. -/
def GetBool (s : Source) (key : String) (dflt : Bool) : Bool :=
  (s.bool key).getD dflt

/-- `GetString(key, def, opts...)`, see `GetDuration`. -/
def GetString (s : Source) (key : String) (dflt : String) : String :=
  (s.string key).getD dflt

/-- The fields of `ServerConfig` that `newInfo` fills in.  `Plugins` is the JSON
object of plugin settings, a list of key-value pairs here. -/
structure ServerConfig where
  MaxHeaderBytes : Int
  MaxBodyBytes : Int
  ReadHeaderTimeout : String
  ReadTimeout : String
  IdleTimeout : String
  WriteTimeout : String
  LimitTTLUnit : String
  LimitConnections : Int
  LimitIPLookup : String
  EnablePProf : Bool
  SslEnabled : Bool
  SslMinVersion : String
  SslVerifyPeer : Bool
  SslCiphers : String
  CompactIndexDelta : Int
  CompactInterval : Duration
  LogRotateSize : Int
  LogBackupCount : Int
  LogFilePath : String
  LogLevel : String
  LogFormat : String
  LogSys : Bool
  EnableAccessLog : Bool
  AccessLogFile : String
  PluginsDir : String
  Plugins : List (String × String)
  EnableCache : Bool
  CacheTTL : Duration
  SelfRegister : Bool
  ServiceClearEnabled : Bool
  ServiceClearInterval : Duration
  ServiceTTL : Duration
  GlobalVisible : String
  InstanceTTL : Int
  SchemaDisable : Bool
  SchemaEditable : Bool
  EnableRBAC : Bool
  MetricsInterval : Duration
  deriving DecidableEq, Repr

structure ServerInformation where
  Version : String
  Config : ServerConfig
  deriving DecidableEq, Repr

/-- `newInfo()`, reading the configuration `s`. -/
def newInfo (s : Source) : ServerInformation :=
  let serviceClearInterval :=
    GetDuration s "registry.service.clearInterval" defaultServiceClearInterval
  let serviceClearInterval :=
    if serviceClearInterval < minServiceClearInterval
        ∨ serviceClearInterval > maxServiceClearInterval then
      defaultServiceClearInterval
    else serviceClearInterval
  let serviceTTL := GetDuration s "registry.service.clearTTL" defaultServiceTTL
  let serviceTTL :=
    if serviceTTL < minServiceTTL ∨ serviceTTL > maxServiceTTL then defaultServiceTTL
    else serviceTTL
  let cacheTTL := GetDuration s "registry.cache.ttl" minCacheTTL
  let cacheTTL := if cacheTTL < minCacheTTL then minCacheTTL else cacheTTL
  let maxLogFileSize := GetInt64 s "log.rotateSize" 20
  let maxLogFileSize :=
    if maxLogFileSize ≤ 0 ∨ maxLogFileSize > 50 then 20 else maxLogFileSize
  let maxLogBackupCount := GetInt64 s "log.backupCount" 50
  let maxLogBackupCount :=
    if maxLogBackupCount < 0 ∨ maxLogBackupCount > 100 then 50 else maxLogBackupCount
  let accessLogFile := GetString s "log.accessFile" "./access.log"
  { Version := InitVersion
    Config :=
      { MaxHeaderBytes := GetInt64 s "server.request.maxHeaderBytes" 16384
        MaxBodyBytes := GetInt64 s "server.request.maxBodyBytes" 2097152
        ReadHeaderTimeout := GetString s "server.request.headerTimeout" "60s"
        ReadTimeout := GetString s "server.request.timeout" "60s"
        IdleTimeout := GetString s "server.idle.timeout" "60s"
        WriteTimeout := GetString s "server.response.timeout" "60s"
        LimitTTLUnit := GetString s "server.limit.unit" "s"
        LimitConnections := GetInt64 s "server.limit.connections" 0
        LimitIPLookup :=
          GetString s "server.limit.ipLookups" "RemoteAddr,X-Forwarded-For,X-Real-IP"
        EnablePProf := GetInt s "server.pprof.mode" 0 != 0
        SslEnabled := GetInt s "ssl.mode" 1 != 0
        SslMinVersion := GetString s "ssl.minVersion" "TLSv1.2"
        SslVerifyPeer := GetInt s "ssl.verifyClient" 1 != 0
        SslCiphers := GetString s "ssl.ciphers" ""
        CompactIndexDelta := GetInt64 s "registry.compact.indexDelta" 100
        CompactInterval := GetDuration s "registry.compact.interval" (12 * Hour)
        LogRotateSize := maxLogFileSize
        LogBackupCount := maxLogBackupCount
        LogFilePath := GetString s "log.file" ""
        LogLevel := GetString s "log.level" ""
        LogFormat := GetString s "log.format" "text"
        LogSys := GetBool s "log.system" false
        EnableAccessLog := GetBool s "log.accessEnable" false
        AccessLogFile := accessLogFile
        PluginsDir := GetString s "plugin.dir" "./plugins"
        Plugins := []
        EnableCache := GetInt s "registry.cache.mode" 1 != 0
        CacheTTL := cacheTTL
        SelfRegister := GetInt s "registry.selfRegister" 1 != 0
        ServiceClearEnabled := GetBool s "registry.service.clearEnable" false
        ServiceClearInterval := serviceClearInterval
        ServiceTTL := serviceTTL
        GlobalVisible := GetString s "registry.service.globalVisible" ""
        InstanceTTL := GetInt64 s "registry.instance.ttl" 0
        SchemaDisable := GetBool s "registry.schema.disable" false
        SchemaEditable := GetBool s "registry.schema.editable" true
        EnableRBAC := GetBool s "rbac.enable" false
        MetricsInterval := GetDuration s "metrics.interval" (30 * Second) } }

/-- `metric.Options`, the fields `initMetrics` sets; the type is declared in
package metric. -/
structure metric.Options where
  Interval : Duration
  InstanceName : String
  SysMetrics : List String
  deriving DecidableEq, Repr

/-- `tlsconf.Options`, the fields `initSSL` sets; the type is declared in package
tlsconf. -/
structure tlsconf.Options where
  Dir : String
  MinVersion : String
  ClientMinVersion : String
  VerifyPeer : Bool
  Ciphers : String
  ClientCiphers : String
  deriving DecidableEq, Repr

/-- The calls `initMetrics` and `initSSL` make into their collaborators. -/
inductive InitEffect
  /-- `metric.Init(options)` -/
  | metricInit (options : metric.Options)
  /-- `tlsconf.Init(options)` -/
  | tlsconfInit (options : tlsconf.Options)
  /-- `log.Fatal(msg, err)`: the message is logged and the process ends here -/
  | logFatal (msg : String)
  deriving DecidableEq, Repr

/-- What `initMetrics` and `initSSL` get from outside. -/
structure InitEnv where
  /-- `net.JoinHostPort` of the Go library -/
  joinHostPort : String → String → String
  /-- `metric.Init` returns an error -/
  metricInitErr : Bool
  /-- `tlsconf.Init` returns an error -/
  tlsconfInitErr : Bool

/-- `initMetrics()`, reading the configuration `s`: the effects of the call in
program order.  `log.Fatal` ends the process, so nothing follows it. -/
def initMetrics (s : Source) (env : InitEnv) : List InitEffect :=
  let interval := GetDuration s "metrics.interval" defaultCollectPeriod
  let interval := if interval ≤ Second then defaultCollectPeriod else interval
  let init (instanceName : String) : List InitEffect :=
    InitEffect.metricInit
        { Interval := interval
          InstanceName := instanceName
          SysMetrics :=
            ["process_resident_memory_bytes", "process_cpu_seconds_total", "go_threads",
             "go_goroutines"] } ::
      (if env.metricInitErr then [InitEffect.logFatal "init metrics failed"] else [])
  let restIP := GetString s "server.host" "127.0.0.1"
  let restPort := GetString s "server.port" "30100"
  if restIP.length > 0 then
    init (env.joinHostPort restIP restPort)
  else
    let rpcIP := GetString s "server.rpc.host" "127.0.0.1"
    let rpcPort := GetString s "server.rpc.port" "30100"
    if rpcIP.length > 0 then
      init (env.joinHostPort rpcIP rpcPort)
    else
      [InitEffect.logFatal "init metrics InstanceName failed"]

/-- `initSSL()`, reading the configuration `s`: the effects of the call in program
order.  `cfg` is what `GetSSL()` returns, the `ServerConfig` held by
`Configurations.Server`. -/
def initSSL (s : Source) (cfg : ServerConfig) (env : InitEnv) : List InitEffect :=
  if !cfg.SslEnabled then
    []
  else
    let options : tlsconf.Options :=
      { Dir := GetString s "ssl.dir" ""
        MinVersion := GetString s "ssl.minVersion" "TLSv1.2"
        ClientMinVersion := GetString s "ssl.client.minVersion" ""
        VerifyPeer := GetInt s "ssl.verifyClient" 1 != 0
        Ciphers := GetString s "ssl.ciphers" ""
        ClientCiphers := GetString s "ssl.client.ciphers" "" }
    let options :=
      if options.ClientMinVersion = "" then
        { options with ClientMinVersion := options.MinVersion }
      else options
    let options :=
      if options.ClientCiphers = "" then { options with ClientCiphers := options.Ciphers }
      else options
    InitEffect.tlsconfInit options ::
      (if env.tlsconfInitErr then [InitEffect.logFatal "init ssl failed"] else [])

/-! ## pkg/util/context_grpc.go -/

/-- `metadata.MD` of the gRPC library, `map[string][]string`: the value list
stored under each key, `none` for a key the map does not hold. -/
abbrev MD := String → Option (List String)

/-- What `FromMetadata` reads of a `context.Context`: the incoming metadata it
carries, `none` when it carries none. -/
structure IncomingContext where
  incoming : Option MD

/-- `metadata.FromIncomingContext(ctx)` of the gRPC library: the metadata and
whether there is one (the nil map, which holds no key, when there is none). -/
def FromIncomingContext (ctx : IncomingContext) : MD × Bool :=
  match ctx.incoming with
  | some md => (md, true)
  | none => (fun _ => none, false)

/-- `FromMetadata(ctx, key)`.  The result is `none` when the function panics: the
index expression `values[0]` panics on a list without a first element. -/
def FromMetadata (ctx : IncomingContext) (key : String) : Option String :=
  let (md, ok) := FromIncomingContext ctx
  if !ok then
    some ""
  else
    match md key with
    | some values => if values.length > 0 then values[0]? else some ""
    | none => some ""

/-! ## server/server.go -/

/-- The locks of package mux that the server takes. -/
inductive LockName
  | ServiceClearLock
  deriving DecidableEq, Repr

/-- The listener kinds handed to `AddListener`. -/
inductive ListenerKind
  | REST
  | RPC
  deriving DecidableEq, Repr

/-- The functions handed to the goroutine pool.  `janitor interval ttl` is the
function literal of `autoCleanUp`; it captures nothing but the two settings it
reads from the server configuration. -/
inductive Worker
  | janitor (interval ttl : Duration)
  deriving DecidableEq, Repr

/-- The calls the server makes into its collaborators, one constructor per call
site of `server.go`. -/
inductive Effect
  /-- `s.notifyService.Start()` -/
  | notifyStart
  /-- `plugin.LoadPlugins()` -/
  | loadPlugins
  /-- `rbac.Init()` -/
  | rbacInit
  /-- `datasource.Instance().UpgradeVersion(ctx)` -/
  | upgradeVersion
  /-- `os.Exit(code)`: the process ends here -/
  | exit (code : Int)
  /-- `s.cacheService.Run()` -/
  | cacheRun
  /-- `<-s.cacheService.Ready()` has delivered -/
  | cacheReady
  /-- `log.Infof` / `log.Info` -/
  | logInfo (msg : String)
  /-- `log.Errorf` / `log.Error` -/
  | logError (msg : String)
  /-- `s.goroutine.Do(f)` -/
  | goroutineDo (w : Worker)
  /-- `time.After(d)`, evaluated on entering the select -/
  | timeAfter (d : Duration)
  /-- `<-ctx.Done()` has delivered -/
  | ctxDone
  /-- `mux.Try(lock)` -/
  | muxTry (lock : LockName)
  /-- `datasource.Instance().ClearNoInstanceServices(ctx, ttl)` -/
  | clearNoInstanceServices (ttl : Duration)
  /-- `lock.Unlock()` -/
  | unlock
  /-- `os.Hostname()` -/
  | osHostname
  /-- `core.Instance.HostName = host` -/
  | setHostName (host : String)
  /-- `s.apiService.AddListener(kind, ip, port)` -/
  | addListener (kind : ListenerKind) (ip port : String)
  /-- `s.apiService.Start()` -/
  | apiStart
  deriving DecidableEq, Repr

/-- The cases of the select statement in the janitor loop. -/
inductive SelectCase
  /-- `case <-ctx.Done()` -/
  | done
  /-- `case <-time.After(interval)` -/
  | timer
  deriving DecidableEq, Repr

/-- What the environment does during one pass of the janitor's for loop. -/
structure Pass where
  /-- `ctx.Done()` is already closed when the select is entered -/
  doneAtEntry : Bool
  /-- the case taken when the select has a choice: both cases can proceed, or
  neither can on entry and this one becomes ready first -/
  choice : SelectCase
  /-- `mux.Try` returns an error -/
  tryErr : Bool
  /-- `ClearNoInstanceServices` returns an error -/
  clearErr : Bool
  /-- `lock.Unlock` returns an error -/
  unlockErr : Bool
  deriving DecidableEq, Repr

/-- The case a Go select takes in the janitor loop.  The timer channel is made by
`time.After(interval)` on entry to the select, so for a positive interval it
cannot deliver at that moment: if the context is done on entry, `ctx.Done()` is
the only case that can proceed.  In every other situation either case may be the
one taken (a cancellation may arrive while waiting, a timer of non-positive
duration fires at once), which is the choice of the environment. -/
def selectCase (interval : Duration) (p : Pass) : SelectCase :=
  if p.doneAtEntry = true ∧ 0 < interval then SelectCase.done else p.choice

/-- The body of `case <-time.After(...)`: one tick of the janitor. -/
def janitorTick (ttl : Duration) (p : Pass) : List Effect :=
  Effect.muxTry LockName.ServiceClearLock ::
    (if p.tryErr then
      -- err != nil: log and continue
      [Effect.logError "can not clear no instance services by this service center instance now"]
    else
      Effect.clearNoInstanceServices ttl :: Effect.unlock ::
        ((if p.unlockErr then [Effect.logError ""] else []) ++
          (if p.clearErr then
            -- err != nil: log and continue
            [Effect.logError "no-instance services cleanup failed"]
          else
            [Effect.logInfo "no-instance services cleanup succeed"])))

/-- A run of a loop against a finite schedule: the effects in order, and whether
the function returned (otherwise it is back at its select, waiting). -/
structure Run where
  effects : List Effect
  returned : Bool
  deriving DecidableEq, Repr

/-- The function literal handed to `s.goroutine.Do` in `autoCleanUp`:
`for { select { ... } }`, run against the passes the environment schedules. -/
def janitor (interval ttl : Duration) : List Pass → Run
  | [] => { effects := [], returned := false }
  | p :: ps =>
    match selectCase interval p with
    | SelectCase.done =>
      { effects := [Effect.timeAfter interval, Effect.ctxDone], returned := true }
    | SelectCase.timer =>
      let rest := janitor interval ttl ps
      { effects := Effect.timeAfter interval :: (janitorTick ttl p ++ rest.effects),
        returned := rest.returned }

/-- Running a submitted worker. -/
def Worker.run : Worker → List Pass → Run
  | Worker.janitor interval ttl, ps => ServiceCenter.janitor interval ttl ps

/-- `ServiceCenterServer.autoCleanUp`: the effects of the call itself. -/
def autoCleanUp (cfg : ServerConfig) : List Effect :=
  if !cfg.ServiceClearEnabled then
    []
  else
    [Effect.logInfo "service clear enabled, interval: %s, service TTL: %s",
     Effect.goroutineDo (Worker.janitor cfg.ServiceClearInterval cfg.ServiceTTL)]

/-- The workers submitted to the goroutine pool by a sequence of effects. -/
def spawned : List Effect → List Worker
  | [] => []
  | Effect.goroutineDo w :: es => w :: spawned es
  | _ :: es => spawned es

/-- Everything a call does, the pool included: its own effects followed by the
effects of each worker it submitted, every worker run against the schedule the
environment gives it (`sched k` for the k-th worker). -/
def withWorkers (own : List Effect) (sched : Nat → List Pass) : List Effect :=
  own ++ ((spawned own).enum.map (fun kw => (kw.2.run (sched kw.1)).effects)).flatten

/-- What `startServices` and `startAPIService` get from outside. -/
structure StartEnv where
  /-- `UpgradeVersion` returns an error -/
  upgradeErr : Bool
  /-- `beego.AppConfig.String("httpaddr")` -/
  httpaddr : String
  /-- `beego.AppConfig.String("httpport")` -/
  httpport : String
  /-- `beego.AppConfig.DefaultString("rpcaddr", "")` -/
  rpcaddr : String
  /-- `beego.AppConfig.DefaultString("rpcport", "")` -/
  rpcport : String
  /-- `os.Hostname()`: the host name, `none` when it returns an error -/
  hostname : Option String

/-- `ServiceCenterServer.startAPIService`. -/
def startAPIService (env : StartEnv) : List Effect :=
  let restIP := env.httpaddr
  let restPort := env.httpport
  let rpcIP := env.rpcaddr
  let rpcPort := env.rpcport
  Effect.osHostname ::
    ((match env.hostname with
      | some host => [Effect.setHostName host]
      | none => [Effect.logError "parse hostname failed", Effect.setHostName restIP]) ++
     [Effect.addListener ListenerKind.REST restIP restPort,
      Effect.addListener ListenerKind.RPC rpcIP rpcPort,
      Effect.apiStart])

/-- `ServiceCenterServer.startServices`: the effects of the call in program
order.  `os.Exit` ends the process, so nothing follows an `exit`. -/
def startServices (cfg : ServerConfig) (env : StartEnv) : List Effect :=
  let rest : List Effect :=
    [Effect.cacheRun, Effect.cacheReady] ++ autoCleanUp cfg ++ startAPIService env
  [Effect.notifyStart, Effect.loadPlugins, Effect.rbacInit] ++
    (if cfg.SelfRegister then
      Effect.upgradeVersion :: (if env.upgradeErr then [Effect.exit 1] else rest)
    else rest)

/-- The effects by which `startServices` schedules the janitor or opens the API:
a submission to the goroutine pool, a listener, the start of the API service. -/
def opensService : Effect → Bool
  | Effect.goroutineDo _ => true
  | Effect.addListener _ _ _ => true
  | Effect.apiStart => true
  | _ => false

/-! ## The registry behind `datasource.Instance()`

The datasource implementations are not among the sources; `instance_test.go`
drives them through `RegisterInstance` and `Heartbeat`.  The definitions of this
section follow the specification of the registry (data model and invariants,
Lease Manager, testable properties). -/

/-- Modelled from the spec: the response codes of the registry, "0 = success;
non-zero domain-specific (ErrServiceNotExists, ErrInstanceNotExists,
ErrInvalidParameter, ...)"; the type is declared outside the sources. -/
inductive Code
  | ResponseSuccess
  | ErrInvalidParams
  | ErrServiceNotExists
  | ErrServiceAlreadyExists
  | ErrInstanceNotExists
  | ErrPermissionDenied
  | ErrInternal
  /-- the service still has registered instances -/
  | ErrDeployedInstance
  deriving DecidableEq, Repr

/-- Modelled from the spec: the `healthCheck{mode, interval, times}` attribute of
an instance; the type is declared outside the sources. -/
structure HealthCheck where
  Mode : String
  Interval : Int
  Times : Int
  deriving DecidableEq, Repr

/-- Modelled from the spec: a service record, with the attributes of the Service
entity under the field names the tests use; the type is declared outside the
sources.  `Domain` and `Project` are the tenant it was registered under;
`DefaultTTL` is the "service default" of the lease TTL source order; `Tags` are
the tags attached to the service; `Timestamp` is its creation time; `ModRev` is
the store revision of its key (the indexer keeps each value "with its rev"). -/
structure MicroService where
  ServiceId : String
  Domain : String
  Project : String
  Environment : String
  AppId : String
  ServiceName : String
  Version : String
  Level : String
  Status : String
  Properties : List (String × String)
  DefaultTTL : Option Int
  Tags : List String := []
  Timestamp : Int := 0
  ModRev : Nat := 0
  deriving DecidableEq, Repr

/-- Modelled from the spec: an instance record, with the attributes of the
Instance entity under the field names the tests use; the type is declared
outside the sources.  It is what a `RegisterInstanceRequest` carries (with
`InstanceId` possibly empty) and what is stored. -/
structure MicroServiceInstance where
  InstanceId : String
  ServiceId : String
  Endpoints : List String
  HostName : String
  Status : String
  Properties : List (String × String)
  HealthCheck : Option HealthCheck
  deriving DecidableEq, Repr

/-- Modelled from the spec: the lease of a registered instance (the Lease entity;
its identity is that of the instance it is stored with).  A lease that is
stored is `Active`: "lease expiry deletes the instance atomically", and so does
unregistration. -/
structure Lease where
  ttlSeconds : Int
  deadline : Int
  deriving DecidableEq, Repr

/-- Modelled from the spec: a registered instance together with its lease and the
store revision of its key (the indexer keeps each value "with its rev"). -/
structure StoredInstance where
  inst : MicroServiceInstance
  lease : Lease
  modRev : Nat := 0
  deriving DecidableEq, Repr

/-- Modelled from the spec: the state of the registry, which the sources leave to
the datasource: the services, the registered instances and the store
revision. -/
structure Registry where
  services : List MicroService
  instances : List StoredInstance
  rev : Nat
  deriving DecidableEq, Repr

/-- Modelled from the spec: the lease TTL computation of the Lease Manager, which
is not among the sources.  "TTL source order: request-supplied
healthCheck.interval * (times+1), then service default, then global InstanceTTL,
then fallback 30 s.  Clamped to [30 s, 1 h]."  The global `InstanceTTL` is the
configured integer of `newInfo`, whose value when nothing is configured is 0;
that value counts as not supplied.  All values are seconds. -/
def leaseTTL (hc : Option HealthCheck) (serviceDefault : Option Int)
    (instanceTTL : Int) : Int :=
  let ttl : Int :=
    match hc with
    | some h => h.Interval * (h.Times + 1)
    | none =>
      match serviceDefault with
      | some d => d
      | none => if instanceTTL ≠ 0 then instanceTTL else 30
  max 30 (min ttl 3600)

/-- Modelled from the spec: the service with the given id exists. -/
def Registry.serviceExists (r : Registry) (serviceId : String) : Bool :=
  r.services.any (fun s => s.ServiceId == serviceId)

/-- Modelled from the spec: the service record with the given id. -/
def Registry.findService (r : Registry) (serviceId : String) : Option MicroService :=
  r.services.find? (fun s => s.ServiceId == serviceId)

/-- Modelled from the spec: the instance registered under
`(serviceId, instanceId)`. -/
def Registry.findInstance (r : Registry) (serviceId instanceId : String) :
    Option StoredInstance :=
  r.instances.find?
    (fun x => x.inst.ServiceId == serviceId && x.inst.InstanceId == instanceId)

/-- Modelled from the spec: the instance `instanceId` is registered under the
service `serviceId`. -/
def Registry.instanceRegistered (r : Registry) (serviceId instanceId : String) : Bool :=
  (r.findInstance serviceId instanceId).isSome

/-- Modelled from the spec: writing an instance under its key
`(serviceId, instanceId)` in the store; a put replaces what the key held and
advances the revision. -/
def Registry.putInstance (r : Registry) (x : StoredInstance) : Registry :=
  { r with
    instances :=
      r.instances.filter
        (fun y => !(y.inst.ServiceId == x.inst.ServiceId
          && y.inst.InstanceId == x.inst.InstanceId)) ++ [x]
    rev := r.rev + 1 }

/-- Modelled from the spec: what `Heartbeat` returns, the response code and the
Go error (always nil here: the store of this model does not fail). -/
structure HeartbeatResponse where
  code : Code
  err : Option String
  deriving DecidableEq, Repr

/-- Modelled from the spec: `Heartbeat` of the datasource, which is not among the
sources.  "Heartbeat(serviceId, instanceId) returns OK iff service and instance
exist and lease is Active"; "Heartbeat(S, I) fails with InstanceNotExists for
any (S, I) not currently present; succeeds otherwise"; "Heartbeat extends the
lease to now + ttlSeconds". -/
def Heartbeat (now : Int) (r : Registry) (serviceId instanceId : String) :
    Registry × HeartbeatResponse :=
  if r.serviceExists serviceId && r.instanceRegistered serviceId instanceId then
    ({ r with
        instances :=
          r.instances.map (fun x =>
            if x.inst.ServiceId == serviceId && x.inst.InstanceId == instanceId then
              { x with lease := { x.lease with deadline := now + x.lease.ttlSeconds } }
            else x)
        rev := r.rev + 1 },
      { code := Code.ResponseSuccess, err := none })
  else
    (r, { code := Code.ErrInstanceNotExists, err := none })

/-! ## Discovery

The Version Resolver and the Discovery Engine (`FindInstances`, `BatchFind`,
`GetInstance`, `GetInstances`) are not among the sources either;
`instance_test.go` drives them.  The definitions of this section follow the
specification (sections 3, 4.4, 4.5, 7 and 8); where the specification leaves
a choice open, the assertions of `TestInstance_Query` and `TestInstance_GetOne`
decide it. -/

/-- Modelled from the spec: the production environment of "provider environment
is production" (`pb.ENV_PROD` in the tests); the constant is declared outside
the sources. -/
def ENV_PROD : String := "production"

/-- Modelled from the spec: the property that marks a provider `allowCrossApp`
(`pb.PropAllowCrossApp` in the tests); the constant is declared outside the
sources. -/
def PropAllowCrossApp : String := "allowCrossApp"

/-- Modelled from the spec: "the designated default domain/project". -/
def defaultDomain : String := "default"

/-- Modelled from the spec: "the designated default domain/project". -/
def defaultProject : String := "default"

/-- Modelled from the spec: the provider "is marked allowCrossApp", that is, its
properties hold `allowCrossApp = true`. -/
def MicroService.allowCrossApp (s : MicroService) : Bool :=
  s.Properties.lookup PropAllowCrossApp == some "true"

/-- Splitting a list of characters at every occurrence of `c`. -/
def splitOnChar (c : Char) : List Char → List (List Char)
  | [] => [[]]
  | x :: xs =>
    if x = c then [] :: splitOnChar c xs
    else
      match splitOnChar c xs with
      | [] => [[x]]
      | p :: ps => (x :: p) :: ps

/-- Modelled from the spec: the global-visible set, "comma-list of globally
visible service names" held by `GlobalVisible` of the server configuration. -/
def globalVisibleNames (cfg : ServerConfig) : List (List Char) :=
  (splitOnChar ',' cfg.GlobalVisible.toList).filter (fun n => !n.isEmpty)

/-- Modelled from the spec: the provider name "matches the GlobalVisible set". -/
def isGlobalVisible (cfg : ServerConfig) (serviceName : String) : Bool :=
  (globalVisibleNames cfg).contains serviceName.toList

/-- The decimal number written by a non-empty list of digits. -/
def digitsToNat (cs : List Char) : Option Nat :=
  if cs.isEmpty then none
  else if cs.all Char.isDigit then
    some (cs.foldl (fun n c => 10 * n + (c.toNat - 48)) 0)
  else none

/-- Modelled from the spec: a version of the form `x.y.z` read as a semantic
version; `none` for any other string. -/
def parseSemver (v : String) : Option (Nat × Nat × Nat) :=
  match (splitOnChar '.' v.toList).map digitsToNat with
  | [some x, some y, some z] => some (x, y, z)
  | _ => none

/-- The character codes of a string: strings are compared lexicographically
through them. -/
def codes (s : String) : List Nat := s.toList.map Char.toNat

/-- Modelled from the spec: what versions are ordered by, "semver ..., fallback
lexicographic".  A semantic version is ordered by its three numbers; any other
string is ordered lexicographically and comes below every semantic version. -/
abbrev VersionKey := WithBot (ℕ ×ₗ ℕ ×ₗ ℕ) ×ₗ List ℕ

/-- Modelled from the spec: the key a version string is ordered by, see
`VersionKey`. -/
def versionKey (v : String) : VersionKey :=
  match parseSemver v with
  | some p => toLex (some (toLex (p.1, toLex p.2)), [])
  | none => toLex (⊥, codes v)

/-- Modelled from the spec: the order of the resolver input, "greater version
first; if versions equal, greater createTime, then lexicographic serviceId". -/
abbrev ServiceSortKey := VersionKeyᵒᵈ ×ₗ ℤᵒᵈ ×ₗ List ℕ

/-- Modelled from the spec: the key services are sorted by, see
`ServiceSortKey`. -/
def serviceSortKey (s : MicroService) : ServiceSortKey :=
  toLex (OrderDual.toDual (versionKey s.Version),
    toLex (OrderDual.toDual s.Timestamp, codes s.ServiceId))

/-- Modelled from the spec: `a` comes no later than `b` in the resolver input. -/
def sortsBefore (a b : MicroService) : Prop := serviceSortKey a ≤ serviceSortKey b

instance sortsBefore.decidable : DecidableRel sortsBefore :=
  fun a b => inferInstanceAs (Decidable (serviceSortKey a ≤ serviceSortKey b))

instance sortsBefore.isTotal : IsTotal MicroService sortsBefore :=
  ⟨fun a b => le_total (serviceSortKey a) (serviceSortKey b)⟩

instance sortsBefore.isTrans : IsTrans MicroService sortsBefore :=
  ⟨fun _ _ _ hab hbc => le_trans hab hbc⟩

/-- Modelled from the spec: the sorted input of the Version Resolver, "sort:
semver desc, fallback lexicographic". -/
def sortServices (l : List MicroService) : List MicroService :=
  l.insertionSort sortsBefore

/-- Modelled from the spec: the version rules of the Version Resolver. -/
inductive VersionRule
  /-- `"latest"`, also the empty rule -/
  | latest
  /-- `"x.y.z"` -/
  | exact (v : String)
  /-- `"x.y.z+"` -/
  | atLeast (v : String)
  /-- `"x.y.z-a.b.c"` -/
  | range (lo hi : String)
  deriving DecidableEq, Repr

/-- Splitting a list of characters at its first `-`, if it has one. -/
def splitAtDash : List Char → Option (List Char × List Char)
  | [] => none
  | c :: cs =>
    if c = '-' then some ([], cs)
    else (splitAtDash cs).map (fun p => (c :: p.1, p.2))

/-- Modelled from the spec: reading a version rule, `"x.y.z"`, `"x.y.z+"`,
`"x.y.z-a.b.c"`, `"latest"`, "empty, treated as latest". -/
def parseVersionRule (rule : String) : VersionRule :=
  if rule = "" ∨ rule = "latest" then VersionRule.latest
  else if rule.toList.getLast? = some '+' then
    VersionRule.atLeast (String.mk rule.toList.dropLast)
  else
    match splitAtDash rule.toList with
    | some (lo, hi) => VersionRule.range (String.mk lo) (String.mk hi)
    | none => VersionRule.exact rule

/-- Modelled from the spec: the Version Resolver on its sorted input.  "exact
match"; "all versions >= x.y.z"; "half-open [x.y.z, a.b.c)"; "the single
greatest version"; it "returns the matching serviceId list in the same sort
order" (the services are returned, each carrying its id). -/
def VersionRule.resolve : VersionRule → List MicroService → List MicroService
  | VersionRule.latest, sorted => sorted.take 1
  | VersionRule.exact v, sorted => sorted.filter (fun s => s.Version == v)
  | VersionRule.atLeast v, sorted =>
    sorted.filter (fun s => decide (versionKey v ≤ versionKey s.Version))
  | VersionRule.range lo hi, sorted =>
    sorted.filter (fun s =>
      decide (versionKey lo ≤ versionKey s.Version)
        && decide (versionKey s.Version < versionKey hi))

/-- Modelled from the spec: the request-scoped values, "values like domain,
project, nocache, requestRev ... travel as a side-channel bag".  `Domain` and
`Project` are the tenant of the caller; `TargetDomain` and `TargetProject` are
the tenant the providers are looked up in (the caller's own unless the request
targets another one).  `NoCache` asks to bypass the index and read the store;
the index of this model mirrors the store exactly, so the flag changes no
answer ("the resulting payload still carries a revision"). -/
structure Context where
  Domain : String
  Project : String
  TargetDomain : String
  TargetProject : String
  NoCache : Bool := false
  RequestRev : String := ""
  deriving DecidableEq, Repr

/-- Modelled from the spec: the query is a cross-(domain, project) query. -/
def Context.crossTenant (ctx : Context) : Bool :=
  !(ctx.TargetDomain == ctx.Domain && ctx.TargetProject == ctx.Project)

/-- Modelled from the spec: the request of `FindInstances` (consumer, provider
key, version rule, tags), with the fields the tests fill in; the type is
declared outside the sources. -/
structure FindInstancesRequest where
  ConsumerServiceId : String := ""
  AppId : String
  ServiceName : String
  VersionRule : String
  Environment : String := ""
  Tags : List String := []
  deriving DecidableEq, Repr

/-- Modelled from the spec: the answer to one discovery query.  `failed` carries
the error code; `notModified` is "NotModified with empty body"; `updated`
carries the instances and the response revision. -/
inductive QueryResult
  | failed (code : Code)
  | notModified (rev : String)
  | updated (instances : List MicroServiceInstance) (rev : String)
  deriving DecidableEq, Repr

/-- The response code of an answer: `notModified` and `updated` are successes. -/
def QueryResult.code : QueryResult → Code
  | QueryResult.failed c => c
  | QueryResult.notModified _ => Code.ResponseSuccess
  | QueryResult.updated _ _ => Code.ResponseSuccess

/-- The instances in the body of an answer. -/
def QueryResult.instances : QueryResult → List MicroServiceInstance
  | QueryResult.failed _ => []
  | QueryResult.notModified _ => []
  | QueryResult.updated is _ => is

/-- The response revision of an answer, if it has one. -/
def QueryResult.rev : QueryResult → Option String
  | QueryResult.failed _ => none
  | QueryResult.notModified rev => some rev
  | QueryResult.updated _ rev => some rev

/-- Modelled from the spec: the service with the given id in the given tenant. -/
def Registry.findServiceIn (r : Registry) (domain project serviceId : String) :
    Option MicroService :=
  r.services.find?
    (fun s => s.ServiceId == serviceId && s.Domain == domain && s.Project == project)

/-- Modelled from the spec: the instances registered under a service, as the
indexer holds them (`byService`). -/
def Registry.instancesOf (r : Registry) (serviceId : String) : List StoredInstance :=
  r.instances.filter (fun x => x.inst.ServiceId == serviceId)

/-- Modelled from the spec: "look up candidate services by (domain', project',
env, appId, name) from the indexer". -/
def Registry.candidates (r : Registry) (domain project env appId name : String) :
    List MicroService :=
  r.services.filter (fun s =>
    s.Domain == domain && s.Project == project && s.Environment == env
      && s.AppId == appId && s.ServiceName == name)

/-- Modelled from the spec: the environment the providers are looked up in.
Global-visible providers are "exported to all tenants under production
environment"; every other provider is looked up in the environment of the
query. -/
def lookupEnv (cfg : ServerConfig) (serviceName env : String) : String :=
  if isGlobalVisible cfg serviceName then ENV_PROD else env

/-- Modelled from the spec: steps 2 and 3 of `FindInstances`, the services the
version rule resolves to among the candidates, in resolver order. -/
def resolveProviders (cfg : ServerConfig) (r : Registry) (ctx : Context)
    (req : FindInstancesRequest) (env : String) : List MicroService :=
  (parseVersionRule req.VersionRule).resolve
    (sortServices
      (r.candidates ctx.TargetDomain ctx.TargetProject
        (lookupEnv cfg req.ServiceName env) req.AppId req.ServiceName))

/-- Modelled from the spec: "if consumer's appId differs from provider's, require
provider's allowCrossApp=true".  `consumerApp` is `none` for a query that names
no consumer. -/
def accessibleTo (consumerApp : Option String) (p : MicroService) : Bool :=
  match consumerApp with
  | none => true
  | some app => app == p.AppId || p.allowCrossApp

/-- Modelled from the spec: "filter by tags (all tags must be present on the
service)". -/
def hasTags (tags : List String) (p : MicroService) : Bool :=
  tags.all (fun t => p.Tags.contains t)

/-- Modelled from the spec: "compute response revision as the max rev over all
services and instances read", written as a decimal string. -/
def responseRev (services : List MicroService) (instances : List StoredInstance) :
    String :=
  toString ((services.map (fun s => s.ModRev) ++ instances.map (fun x => x.modRev)).foldl
    max 0)

/-- Modelled from the spec: step 6 of `FindInstances`, "if caller supplied
requestRev equal to the computed revision, return NotModified with empty
body". -/
def QueryResult.answer (requestRev : String) (instances : List MicroServiceInstance)
    (rev : String) : QueryResult :=
  if requestRev = rev then QueryResult.notModified rev
  else QueryResult.updated instances rev

/-- Modelled from the spec: step 4 of `FindInstances`, "gather instance sets from
the indexer; filter by tags", for the providers that remain after the
cross-app requirement and the tag filter.  The instance sets of all remaining
providers are gathered, in resolver order; a provider the consumer may not
access and a provider that lacks a tag contribute no instance. -/
def gatherInstances (r : Registry) (consumerApp : Option String) (tags : List String)
    (providers : List MicroService) : List StoredInstance :=
  (((providers.filter (accessibleTo consumerApp)).filter (hasTags tags)).map
    (fun p => r.instancesOf p.ServiceId)).flatten

/-- Modelled from the spec: steps 1 to 6 of `FindInstances` once the consumer is
known.  A cross-(domain, project) query is denied with `ServiceNotExists`
unless the provider matches the global-visible set; no service resolved is
`ServiceNotExists` ("no candidate services", and rule "0.0.0" of scenario S1);
otherwise the answer carries the gathered instances and the revision.  The
cross-app requirement and the tags are requirements on each provider, so they
are applied to the providers the rule resolves to: a query all of whose
providers are filtered out is a success with no instance. -/
def findProviders (cfg : ServerConfig) (r : Registry) (ctx : Context)
    (req : FindInstancesRequest) (env : String) (consumerApp : Option String) :
    QueryResult :=
  if ctx.crossTenant && !isGlobalVisible cfg req.ServiceName then
    QueryResult.failed Code.ErrServiceNotExists
  else
    let providers := resolveProviders cfg r ctx req env
    if providers.isEmpty then QueryResult.failed Code.ErrServiceNotExists
    else
      let instances := gatherInstances r consumerApp req.Tags providers
      QueryResult.answer ctx.RequestRev (instances.map (fun x => x.inst))
        (responseRev providers instances)

/-- Modelled from the spec: `FindInstances(consumerServiceId, providerKey,
versionRule, tags, ctx)` of the Discovery Engine, which is not among the
sources.  "ServiceNotExists if consumer missing or no candidate services"; the
consumer is looked up in the tenant of the caller and gives the environment
and the appId of the query; a request that names no consumer is looked up in
the environment it states (the "find with env" case of the test).  The
dependency edge of step 7 is recorded best-effort and is not read by any
discovery query; it is left out. -/
def FindInstances (cfg : ServerConfig) (r : Registry) (ctx : Context)
    (req : FindInstancesRequest) : QueryResult :=
  if req.ConsumerServiceId = "" then
    findProviders cfg r ctx req req.Environment none
  else
    match r.findServiceIn ctx.Domain ctx.Project req.ConsumerServiceId with
    | none => QueryResult.failed Code.ErrServiceNotExists
    | some consumer =>
      findProviders cfg r ctx req consumer.Environment (some consumer.AppId)

/-- Modelled from the spec: "a service is visible to a consumer iff (same domain
AND same project AND same environment AND (same appId OR provider is marked
allowCrossApp)) OR the provider is in the configured global-visible set and
the consumer is in the designated default domain/project". -/
def visible (cfg : ServerConfig) (consumer provider : MicroService) : Bool :=
  (consumer.Domain == provider.Domain && consumer.Project == provider.Project
      && consumer.Environment == provider.Environment
      && (consumer.AppId == provider.AppId || provider.allowCrossApp))
    || (isGlobalVisible cfg provider.ServiceName
      && consumer.Domain == defaultDomain && consumer.Project == defaultProject)

/-- Modelled from the spec: the consumer and the provider are in the same
(domain, project). -/
def sameTenant (consumer provider : MicroService) : Bool :=
  consumer.Domain == provider.Domain && consumer.Project == provider.Project

/-- Modelled from the spec: the request of `GetInstances`, "(consumerServiceId,
providerServiceId)"; the type is declared outside the sources. -/
structure GetInstancesRequest where
  ConsumerServiceId : String
  ProviderServiceId : String
  deriving DecidableEq, Repr

/-- Modelled from the spec: the request of `GetInstance`, "(consumerServiceId,
providerServiceId, providerInstanceId)"; the type is declared outside the
sources. -/
structure GetOneInstanceRequest where
  ConsumerServiceId : String
  ProviderServiceId : String
  ProviderInstanceId : String
  deriving DecidableEq, Repr

/-- Modelled from the spec: `GetInstances` of the Discovery Engine, which is not
among the sources.  "Direct lookup by (consumerServiceId, providerServiceId);
visibility rules apply"; "visibility failures return ServiceNotExists"; a
missing consumer or provider is `ServiceNotExists` as well. -/
def GetInstances (cfg : ServerConfig) (r : Registry) (ctx : Context)
    (req : GetInstancesRequest) : QueryResult :=
  match r.findServiceIn ctx.Domain ctx.Project req.ConsumerServiceId with
  | none => QueryResult.failed Code.ErrServiceNotExists
  | some consumer =>
    match r.findService req.ProviderServiceId with
    | none => QueryResult.failed Code.ErrServiceNotExists
    | some provider =>
      if visible cfg consumer provider then
        let instances := r.instancesOf provider.ServiceId
        QueryResult.answer ctx.RequestRev (instances.map (fun x => x.inst))
          (responseRev [provider] instances)
      else QueryResult.failed Code.ErrServiceNotExists

/-- Modelled from the spec: `GetInstance` of the Discovery Engine, which is not
among the sources.  "Direct lookup by (consumerServiceId, providerServiceId,
providerInstanceId); visibility rules apply.  Returns InstanceNotExists or
ServiceNotExists as appropriate."  A missing consumer or provider is
`ServiceNotExists`, and so is a provider in another (domain, project), "to
avoid leaking existence across tenants"; a provider of the same tenant that
the consumer may not see is answered like an instance that is not there, with
`InstanceNotExists`, which is what `TestInstance_GetOne` ("get between diff
apps") expects. -/
def GetInstance (cfg : ServerConfig) (r : Registry) (ctx : Context)
    (req : GetOneInstanceRequest) : QueryResult :=
  match r.findServiceIn ctx.Domain ctx.Project req.ConsumerServiceId with
  | none => QueryResult.failed Code.ErrServiceNotExists
  | some consumer =>
    match r.findService req.ProviderServiceId with
    | none => QueryResult.failed Code.ErrServiceNotExists
    | some provider =>
      if visible cfg consumer provider then
        match r.findInstance provider.ServiceId req.ProviderInstanceId with
        | none => QueryResult.failed Code.ErrInstanceNotExists
        | some x =>
          QueryResult.answer ctx.RequestRev [x.inst] (responseRev [provider] [x])
      else if sameTenant consumer provider then
        QueryResult.failed Code.ErrInstanceNotExists
      else QueryResult.failed Code.ErrServiceNotExists

/-- Modelled from the spec: a services item of a `BatchFind` request, a service
key whose `Version` is the version rule, and the revision the caller holds;
the type is declared outside the sources. -/
structure FindService where
  AppId : String
  ServiceName : String
  Version : String
  Rev : String := ""
  deriving DecidableEq, Repr

/-- Modelled from the spec: an instances item of a `BatchFind` request, "a direct
(serviceId, instanceId) lookup" with the revision the caller holds; the type
is declared outside the sources. -/
structure FindInstance where
  ServiceId : String
  InstanceId : String
  Rev : String := ""
  deriving DecidableEq, Repr

/-- Modelled from the spec: the request of `BatchFind`, "(consumerServiceId,
services[], instances[])"; the type is declared outside the sources. -/
structure BatchFindInstancesRequest where
  ConsumerServiceId : String
  Services : List FindService := []
  Instances : List FindInstance := []
  deriving DecidableEq, Repr

/-- Modelled from the spec: an `Updated` entry of a `BatchFind` response, with the
fields the tests read; the type is declared outside the sources. -/
structure FindResult where
  Index : Nat
  Rev : String
  Instances : List MicroServiceInstance
  deriving DecidableEq, Repr

/-- Modelled from the spec: a `Failed` entry of a `BatchFind` response, the
request indexes that failed with one error (the tests read `Indexes[0]` and
`Error.Code`); the type is declared outside the sources. -/
structure FindFailedResult where
  Indexes : List Nat
  Error : Code
  deriving DecidableEq, Repr

/-- Modelled from the spec: the classification of the items of one kind,
"responses classify items into Updated, NotModified, Failed, preserving the
request index". -/
structure BatchFindResult where
  Updated : List FindResult := []
  NotModified : List Nat := []
  Failed : List FindFailedResult := []
  deriving DecidableEq, Repr

/-- Modelled from the spec: the response of `BatchFind`, "(perItem results)" for
the services items and for the instances items; the type is declared outside
the sources. -/
structure BatchFindInstancesResponse where
  code : Code
  Services : BatchFindResult
  Instances : BatchFindResult
  deriving DecidableEq, Repr

/-- Modelled from the spec: recording a failed request index; it joins the entry
of its error code, or starts one. -/
def addFailed : List FindFailedResult → Nat → Code → List FindFailedResult
  | [], index, code => [{ Indexes := [index], Error := code }]
  | f :: fs, index, code =>
    if f.Error = code then { f with Indexes := f.Indexes ++ [index] } :: fs
    else f :: addFailed fs index code

/-- Modelled from the spec: recording the answer to the item at request position
`index`. -/
def BatchFindResult.record (acc : BatchFindResult) (index : Nat) :
    QueryResult → BatchFindResult
  | QueryResult.updated is rev =>
    { acc with Updated := acc.Updated ++ [{ Index := index, Rev := rev, Instances := is }] }
  | QueryResult.notModified _ => { acc with NotModified := acc.NotModified ++ [index] }
  | QueryResult.failed code => { acc with Failed := addFailed acc.Failed index code }

/-- Modelled from the spec: classifying the answers to the items of a batch,
the first answer being that of request position `start`. -/
def classifyFrom : Nat → List QueryResult → BatchFindResult → BatchFindResult
  | _, [], acc => acc
  | start, q :: qs, acc => classifyFrom (start + 1) qs (acc.record start q)

/-- Modelled from the spec: classifying the answers to all items of a batch. -/
def classify (answers : List QueryResult) : BatchFindResult :=
  classifyFrom 0 answers {}

/-- Modelled from the spec: the answer to one services item of `BatchFind`,
"each services item is a FindInstances with its own rev". -/
def findServiceItem (cfg : ServerConfig) (r : Registry) (ctx : Context)
    (consumerServiceId : String) (item : FindService) : QueryResult :=
  FindInstances cfg r { ctx with RequestRev := item.Rev }
    { ConsumerServiceId := consumerServiceId, AppId := item.AppId,
      ServiceName := item.ServiceName, VersionRule := item.Version }

/-- Modelled from the spec: the answer to one instances item of `BatchFind`,
"each instances item is a direct (serviceId, instanceId) lookup". -/
def findInstanceItem (cfg : ServerConfig) (r : Registry) (ctx : Context)
    (consumerServiceId : String) (item : FindInstance) : QueryResult :=
  GetInstance cfg r { ctx with RequestRev := item.Rev }
    { ConsumerServiceId := consumerServiceId, ProviderServiceId := item.ServiceId,
      ProviderInstanceId := item.InstanceId }

/-- Modelled from the spec: `BatchFind(consumerServiceId, services[],
instances[])` of the Discovery Engine, which is not among the sources.  Every
item is answered on its own and classified under its request index; the batch
itself succeeds. -/
def BatchFind (cfg : ServerConfig) (r : Registry) (ctx : Context)
    (req : BatchFindInstancesRequest) : BatchFindInstancesResponse :=
  { code := Code.ResponseSuccess
    Services :=
      classify (req.Services.map (findServiceItem cfg r ctx req.ConsumerServiceId))
    Instances :=
      classify (req.Instances.map (findInstanceItem cfg r ctx req.ConsumerServiceId)) }

/-- A request index is recorded as failed with the given code. -/
def failedAt (fs : List FindFailedResult) (index : Nat) (code : Code) : Prop :=
  ∃ f ∈ fs, f.Error = code ∧ index ∈ f.Indexes

/-- The request indexes a classification holds, over its three lists. -/
def BatchFindResult.indexes (b : BatchFindResult) : List Nat :=
  b.Updated.map (fun e => e.Index) ++ b.NotModified ++ (b.Failed.map (fun f => f.Indexes)).flatten

/-- A query, seen as a function of the request revision alone, either fails with
one code whatever that revision is, or computes one instance list and one
non-empty revision and compares the request revision with it. -/
def RevisionDriven (query : String → QueryResult) : Prop :=
  (∃ code, ∀ requestRev, query requestRev = QueryResult.failed code)
    ∨ (∃ instances rev, rev ≠ "" ∧
        ∀ requestRev, query requestRev = QueryResult.answer requestRev instances rev)

/-! ## Unregistering a service

`UnregisterService` of the datasource is not among the sources either;
`TestServicesStatistics_Get` drives it.  The definitions of this section follow
the lifecycle of the Service entity in the specification. -/

/-- Modelled from the spec: the request of `UnregisterService`, the service id and
the `force` flag of `DELETE .../microservices/{serviceId}?force=`; the type is
declared outside the sources. -/
structure DeleteServiceRequest where
  ServiceId : String
  Force : Bool := false
  deriving DecidableEq, Repr

/-- Modelled from the spec: what `UnregisterService` returns, the response code and
the Go error (always nil here: the store of this model does not fail). -/
structure DeleteServiceResponse where
  code : Code
  err : Option String
  deriving DecidableEq, Repr

/-- Modelled from the spec: `UnregisterService` of the datasource, which is not
among the sources.  A service is "destroyed by UnregisterService (rejects if
instances exist unless force=true)".  The service is looked up in the tenant of
the caller, and one that is not there is `ServiceNotExists`.  A rejected call
has no side effect; the specification names no code for the rejection, it is a
code of its own here.  Deleting a service deletes the instances registered
under it as well ("every instance references an existing service") and
advances the revision. -/
def UnregisterService (r : Registry) (ctx : Context) (req : DeleteServiceRequest) :
    Registry × DeleteServiceResponse :=
  match r.findServiceIn ctx.Domain ctx.Project req.ServiceId with
  | none => (r, { code := Code.ErrServiceNotExists, err := none })
  | some svc =>
    if !(r.instancesOf svc.ServiceId).isEmpty && !req.Force then
      (r, { code := Code.ErrDeployedInstance, err := none })
    else
      ({ services :=
           r.services.filter (fun s =>
             !(s.ServiceId == svc.ServiceId && s.Domain == svc.Domain
               && s.Project == svc.Project))
         instances := r.instances.filter (fun x => !(x.inst.ServiceId == svc.ServiceId))
         rev := r.rev + 1 },
        { code := Code.ResponseSuccess, err := none })

/-! ## Sample inputs -/

/-- A pass on which the timer fires and every call succeeds. -/
def samplePassOk : Pass :=
  { doneAtEntry := false, choice := SelectCase.timer, tryErr := false,
    clearErr := false, unlockErr := false }

/-- A pass on which the timer fires and `mux.Try` fails. -/
def samplePassNoLock : Pass :=
  { doneAtEntry := false, choice := SelectCase.timer, tryErr := true,
    clearErr := false, unlockErr := false }

/-- A pass on which the timer fires, the cleanup fails and so does the unlock. -/
def samplePassAllFail : Pass :=
  { doneAtEntry := false, choice := SelectCase.timer, tryErr := false,
    clearErr := true, unlockErr := true }

/-- A pass entered with the context already done; left to itself the
environment would have taken the timer case. -/
def samplePassDone : Pass :=
  { doneAtEntry := true, choice := SelectCase.timer, tryErr := false,
    clearErr := false, unlockErr := false }

/-- The configuration of a server on which nothing is configured. -/
def sampleConfig : ServerConfig := (newInfo Source.unset).Config

/-- A start-up environment in which `UpgradeVersion` fails. -/
def sampleStartEnv : StartEnv :=
  { upgradeErr := true, httpaddr := "127.0.0.1", httpport := "30100", rpcaddr := "",
    rpcport := "", hostname := some "sc-host" }

/-- The service created by `TestInstance_HeartBeat`. -/
def sampleService : MicroService :=
  { ServiceId := "sid-1", Domain := "default", Project := "default", Environment := "",
    AppId := "heartbeat_service_ms", ServiceName := "heartbeat_service_ms",
    Version := "1.0.0", Level := "FRONT", Status := "UP", Properties := [],
    DefaultTTL := none }

/-- A registry holding `sampleService` and no instance. -/
def sampleRegistry : Registry :=
  { services := [sampleService], instances := [], rev := 1 }

/-- A service of the default tenant as the tests register it. -/
def testService (id env app name version : String) (rev : Nat) : MicroService :=
  { ServiceId := id, Domain := "default", Project := "default", Environment := env,
    AppId := app, ServiceName := name, Version := version, Level := "FRONT", Status := "UP",
    Properties := [], DefaultTTL := none, Timestamp := rev, ModRev := rev }

/-- An instance as the tests register it, stored under the given id. -/
def testInstance (id serviceId endpoint : String) (rev : Nat) : StoredInstance :=
  { inst :=
      { InstanceId := id, ServiceId := serviceId, Endpoints := [endpoint],
        HostName := "UT-HOST-MS", Status := "UP", Properties := [], HealthCheck := none },
    lease := { ttlSeconds := 30, deadline := 30 }, modRev := rev }

/-- The registry after "register services and instances for testInstance_query" of
`TestInstance_Query`: services 1 to 9 and the instances 1, 2, 4, 5, 8 and 9. -/
def queryRegistry : Registry :=
  { services :=
      [testService "sid1" "" "query_instance_ms" "query_instance_service_ms" "1.0.0" 1,
       testService "sid2" "" "query_instance_ms" "query_instance_service_ms" "1.0.5" 2,
       testService "sid3" "" "query_instance_diff_app_ms" "query_instance_service_ms" "1.0.0" 3,
       testService "sid4" ENV_PROD "query_instance_ms" "query_instance_diff_env_service_ms"
         "1.0.0" 4,
       { testService "sid5" ENV_PROD "default" "query_instance_shared_provider_ms" "1.0.0" 5
         with Properties := [(PropAllowCrossApp, "true")] },
       { testService "sid6" "" "default" "query_instance_diff_domain_consumer_ms" "1.0.0" 6
         with Domain := "user", Project := "user" },
       testService "sid7" "" "default" "query_instance_shared_consumer_ms" "1.0.0" 7,
       testService "sid8" "" "query_instance_ms" "query_instance_with_rev_ms" "1.0.0" 8,
       testService "sid9" "" "query_instance_ms" "batch_query_instance_with_rev_ms" "1.0.0" 9],
    instances :=
      [testInstance "iid1" "sid1" "find:127.0.0.1:8080" 10,
       testInstance "iid2" "sid2" "find:127.0.0.2:8080" 11,
       testInstance "iid4" "sid4" "find:127.0.0.4:8080" 12,
       testInstance "iid5" "sid5" "find:127.0.0.5:8080" 13,
       testInstance "iid8" "sid8" "find:127.0.0.8:8080" 14,
       testInstance "iid9" "sid9" "find:127.0.0.9:8080" 15],
    rev := 15 }

/-- The context `getContext()` of the tests: the default tenant. -/
def defaultContext : Context :=
  { Domain := "default", Project := "default", TargetDomain := "default",
    TargetProject := "default" }

/-- The context of the "shared service discovery" queries: a caller of tenant
user/user that targets the default tenant. -/
def userContext : Context :=
  { Domain := "user", Project := "user", TargetDomain := "default",
    TargetProject := "default" }

/-- The configuration of the "shared service discovery" queries. -/
def sharedConfig : ServerConfig :=
  { sampleConfig with GlobalVisible := "query_instance_shared_provider_ms" }

/-- The registry after "register service and instances" of `TestInstance_GetOne`. -/
def getOneRegistry : Registry :=
  { services :=
      [testService "sid1" "" "get_instance_ms" "get_instance_service_ms" "1.0.0" 1,
       testService "sid2" "" "get_instance_ms" "get_instance_service_ms" "1.0.5" 2,
       testService "sid3" "" "get_instance_cross_ms" "get_instance_service_ms" "1.0.0" 4],
    instances := [testInstance "iid2" "sid2" "get:127.0.0.2:8080" 3],
    rev := 4 }

/-- A `FindInstances` request of `TestInstance_Query` for the service
`query_instance_service_ms` of app `query_instance_ms`. -/
def queryRequest (consumerServiceId versionRule : String) : FindInstancesRequest :=
  { ConsumerServiceId := consumerServiceId, AppId := "query_instance_ms",
    ServiceName := "query_instance_service_ms", VersionRule := versionRule }

/-- Service 1 of `TestInstance_Query`: version 1.0.0. -/
def queryService1 : MicroService :=
  testService "sid1" "" "query_instance_ms" "query_instance_service_ms" "1.0.0" 1

/-- Service 2 of `TestInstance_Query`: version 1.0.5. -/
def queryService2 : MicroService :=
  testService "sid2" "" "query_instance_ms" "query_instance_service_ms" "1.0.5" 2

/-- Service 3 of `TestInstance_Query`: the consumer of another app. -/
def queryService3 : MicroService :=
  testService "sid3" "" "query_instance_diff_app_ms" "query_instance_service_ms" "1.0.0" 3

/-- A configuration source in which only `metrics.interval` is configured, to
one second. -/
def metricsSource : Source :=
  { Source.unset with
    duration := fun key => if key = "metrics.interval" then some Second else none }

/-- A configuration source in which only `registry.service.clearInterval` is
configured, to 29 seconds. -/
def clearIntervalSource : Source :=
  { Source.unset with
    duration := fun key =>
      if key = "registry.service.clearInterval" then some (29 * Second) else none }

/-- A configuration source in which only `registry.cache.ttl` is configured, to
one minute. -/
def cacheTTLSource : Source :=
  { Source.unset with
    duration := fun key => if key = "registry.cache.ttl" then some (1 * Minute) else none }

/-- A configuration source in which only `registry.service.clearTTL` is
configured, to 8761 hours. -/
def serviceTTLSource : Source :=
  { Source.unset with
    duration := fun key =>
      if key = "registry.service.clearTTL" then some (8761 * Hour) else none }

/-- A configuration source in which the TLS settings of the client side are left
out: only `ssl.minVersion` and `ssl.ciphers` are configured. -/
def sslSource : Source :=
  { Source.unset with
    string := fun key =>
      if key = "ssl.minVersion" then some "TLSv1.3"
      else if key = "ssl.ciphers" then some "TLS_AES_128_GCM_SHA256"
      else none }

/-- An environment in which `metric.Init` and `tlsconf.Init` succeed;
`net.JoinHostPort` puts a host with a colon in brackets. -/
def sampleInitEnv : InitEnv :=
  { joinHostPort := fun host port =>
      if host.toList.any (fun c => c == ':') then "[" ++ host ++ "]:" ++ port
      else host ++ ":" ++ port
    metricInitErr := false
    tlsconfInitErr := false }

/-- Incoming metadata with two values under `x-domain-name` and an empty value
list under `x-empty`. -/
def sampleMD : MD := fun key =>
  if key = "x-domain-name" then some ["default", "other"]
  else if key = "x-empty" then some []
  else none

/-- A pass on which neither case can proceed on entry and the context is
cancelled before the timer fires. -/
def samplePassCancelled : Pass :=
  { doneAtEntry := false, choice := SelectCase.done, tryErr := false,
    clearErr := false, unlockErr := false }

/-- A start-up environment in which `UpgradeVersion` succeeds. -/
def sampleStartEnvOk : StartEnv :=
  { upgradeErr := false, httpaddr := "127.0.0.1", httpport := "30100", rpcaddr := "",
    rpcport := "", hostname := some "sc-host" }

/-- The registry after "register services and instances for
TestServicesStatistics_Get": service 1 of tenant default/Project1 with two
instances, service 2 of tenant DomainTest1/Project1 with one. -/
def statisticsRegistry : Registry :=
  { services :=
      [{ testService "sid1" "" "query_statistics1" "service1" "1.0.0" 1
         with Project := "Project1" },
       { testService "sid2" "" "query_statistics2" "service2-DomainTest1" "1.0.5" 4
         with Domain := "DomainTest1", Project := "Project1" }],
    instances :=
      [{ testInstance "iid1" "sid1" "find:127.0.0.1:8080" 2 with
         inst :=
           { (testInstance "iid1" "sid1" "find:127.0.0.1:8080" 2).inst with
             HostName := "UT-HOST-MS1" } },
       { testInstance "iid2" "sid1" "find:127.0.0.1:8080" 3 with
         inst :=
           { (testInstance "iid2" "sid1" "find:127.0.0.1:8080" 3).inst with
             HostName := "UT-HOST-MS2" } },
       { testInstance "iid3" "sid2" "find:127.0.0.1:8080" 5 with
         inst :=
           { (testInstance "iid3" "sid2" "find:127.0.0.1:8080" 5).inst with
             HostName := "UT-HOST-MS1" } }],
    rev := 5 }

/-- The context of the calls of `TestServicesStatistics_Get` on service 1. -/
def statisticsContext1 : Context :=
  { Domain := "default", Project := "Project1", TargetDomain := "default",
    TargetProject := "Project1", NoCache := true }

/-- The context of the calls of `TestServicesStatistics_Get` on service 2. -/
def statisticsContext2 : Context :=
  { Domain := "DomainTest1", Project := "Project1", TargetDomain := "DomainTest1",
    TargetProject := "Project1", NoCache := true }

/-! ## Lemmas -/

theorem janitor_cons_timer (interval ttl : Duration) (p : Pass) (ps : List Pass)
    (h : selectCase interval p = SelectCase.timer) :
    janitor interval ttl (p :: ps) =
      { effects :=
          Effect.timeAfter interval :: (janitorTick ttl p ++ (janitor interval ttl ps).effects),
        returned := (janitor interval ttl ps).returned } := by
  simp [janitor, h]

theorem janitor_cons_done (interval ttl : Duration) (p : Pass) (ps : List Pass)
    (h : selectCase interval p = SelectCase.done) :
    janitor interval ttl (p :: ps) =
      { effects := [Effect.timeAfter interval, Effect.ctxDone], returned := true } := by
  simp [janitor, h]

theorem janitor_append (interval ttl : Duration) (qs rest : List Pass)
    (h : (janitor interval ttl qs).returned = false) :
    janitor interval ttl (qs ++ rest) =
      { effects := (janitor interval ttl qs).effects ++ (janitor interval ttl rest).effects,
        returned := (janitor interval ttl rest).returned } := by
  induction qs with
  | nil => simp [janitor]
  | cons q qs ih =>
    cases hq : selectCase interval q with
    | done => simp [janitor_cons_done interval ttl q qs hq] at h
    | timer =>
      rw [janitor_cons_timer interval ttl q qs hq] at h
      rw [List.cons_append, janitor_cons_timer interval ttl q (qs ++ rest) hq, ih h,
        janitor_cons_timer interval ttl q qs hq]
      simp

theorem newInfo_serviceClearInterval_range (s : Source) :
    30 * Second ≤ (newInfo s).Config.ServiceClearInterval
      ∧ (newInfo s).Config.ServiceClearInterval ≤ 24 * Hour := by
  simp only [newInfo, minServiceClearInterval, maxServiceClearInterval,
    defaultServiceClearInterval, Hour, Minute, Second]
  generalize GetDuration s "registry.service.clearInterval" _ = v
  revert v
  unfold Duration
  intro v
  split <;> omega

/-! ## Lemmas on the registry -/

theorem findService_putInstance (r : Registry) (x : StoredInstance) (sid : String) :
    (r.putInstance x).findService sid = r.findService sid := rfl

/-- C1: on a tick of the janitor loop on which `mux.Try(ServiceClearLock)` returns
an error, the tick consists of the lock attempt and one error log only:
`ClearNoInstanceServices` is not called and no `Unlock` is attempted; the loop
then continues with its next select, whatever happened on earlier ticks. -/
theorem janitor_lock_failure_skips_tick (interval ttl : Duration) (qs ps : List Pass)
    (p : Pass)
    (hrun : (janitor interval ttl qs).returned = false)
    (htick : selectCase interval p = SelectCase.timer)
    (herr : p.tryErr = true) :
    janitorTick ttl p =
        [Effect.muxTry LockName.ServiceClearLock,
         Effect.logError
           "can not clear no instance services by this service center instance now"]
      ∧ (∀ t, Effect.clearNoInstanceServices t ∉ janitorTick ttl p)
      ∧ Effect.unlock ∉ janitorTick ttl p
      ∧ janitor interval ttl (qs ++ p :: ps) =
          { effects :=
              (janitor interval ttl qs).effects ++
                (Effect.timeAfter interval :: janitorTick ttl p) ++
                (janitor interval ttl ps).effects,
            returned := (janitor interval ttl ps).returned } := by
  have htickEq : janitorTick ttl p =
      [Effect.muxTry LockName.ServiceClearLock,
       Effect.logError
         "can not clear no instance services by this service center instance now"] := by
    simp [janitorTick, herr]
  refine ⟨htickEq, ?_, ?_, ?_⟩
  · intro t
    rw [htickEq]
    simp
  · rw [htickEq]
    simp
  · rw [janitor_append interval ttl qs (p :: ps) hrun,
      janitor_cons_timer interval ttl p ps htick]
    simp

theorem janitor_lock_failure_skips_tick_witness :
    (janitor (30 * Second) (24 * Hour) [samplePassOk]).returned = false
      ∧ selectCase (30 * Second) samplePassNoLock = SelectCase.timer
      ∧ samplePassNoLock.tryErr = true
      ∧ (janitorTick (24 * Hour) samplePassNoLock =
            [Effect.muxTry LockName.ServiceClearLock,
             Effect.logError
               "can not clear no instance services by this service center instance now"]
          ∧ (∀ t, Effect.clearNoInstanceServices t ∉ janitorTick (24 * Hour) samplePassNoLock)
          ∧ Effect.unlock ∉ janitorTick (24 * Hour) samplePassNoLock
          ∧ janitor (30 * Second) (24 * Hour)
                ([samplePassOk] ++ samplePassNoLock :: [samplePassAllFail]) =
              { effects :=
                  (janitor (30 * Second) (24 * Hour) [samplePassOk]).effects ++
                    (Effect.timeAfter (30 * Second) ::
                      janitorTick (24 * Hour) samplePassNoLock) ++
                    (janitor (30 * Second) (24 * Hour) [samplePassAllFail]).effects,
                returned := (janitor (30 * Second) (24 * Hour) [samplePassAllFail]).returned }) :=
  ⟨by decide, by decide, rfl,
    janitor_lock_failure_skips_tick (30 * Second) (24 * Hour) [samplePassOk]
      [samplePassAllFail] samplePassNoLock (by decide) (by decide) rfl⟩

/-- C2: on a tick of the janitor loop on which the lock was acquired, `Unlock` is
called exactly once, after `ClearNoInstanceServices` and before the next select
is entered, whether the cleanup succeeds or fails and whether `Unlock` itself
reports an error. -/
theorem janitor_unlocks_once_per_locked_tick (interval ttl : Duration)
    (qs ps : List Pass) (p : Pass)
    (hrun : (janitor interval ttl qs).returned = false)
    (htick : selectCase interval p = SelectCase.timer)
    (hlock : p.tryErr = false) :
    (janitorTick ttl p).count Effect.unlock = 1
      ∧ (∃ logs : List Effect,
          janitorTick ttl p =
              [Effect.muxTry LockName.ServiceClearLock, Effect.clearNoInstanceServices ttl,
               Effect.unlock] ++ logs
            ∧ ∀ e ∈ logs, (∃ m, e = Effect.logError m) ∨ (∃ m, e = Effect.logInfo m))
      ∧ janitor interval ttl (qs ++ p :: ps) =
          { effects :=
              (janitor interval ttl qs).effects ++
                (Effect.timeAfter interval :: janitorTick ttl p) ++
                (janitor interval ttl ps).effects,
            returned := (janitor interval ttl ps).returned } := by
  refine ⟨?_, ?_, ?_⟩
  · cases hu : p.unlockErr <;> cases hc : p.clearErr <;>
      simp [janitorTick, hlock, hu, hc]
  · refine ⟨(if p.unlockErr then [Effect.logError ""] else []) ++
        (if p.clearErr then [Effect.logError "no-instance services cleanup failed"]
          else [Effect.logInfo "no-instance services cleanup succeed"]), ?_, ?_⟩
    · simp [janitorTick, hlock]
    · intro e he
      cases hu : p.unlockErr <;> cases hc : p.clearErr <;>
        simp [hu, hc] at he <;> aesop
  · rw [janitor_append interval ttl qs (p :: ps) hrun,
      janitor_cons_timer interval ttl p ps htick]
    simp

theorem janitor_unlocks_once_per_locked_tick_witness :
    (janitor (30 * Second) (24 * Hour) [samplePassNoLock]).returned = false
      ∧ selectCase (30 * Second) samplePassAllFail = SelectCase.timer
      ∧ samplePassAllFail.tryErr = false
      ∧ ((janitorTick (24 * Hour) samplePassAllFail).count Effect.unlock = 1
          ∧ (∃ logs : List Effect,
              janitorTick (24 * Hour) samplePassAllFail =
                  [Effect.muxTry LockName.ServiceClearLock,
                   Effect.clearNoInstanceServices (24 * Hour), Effect.unlock] ++ logs
                ∧ ∀ e ∈ logs, (∃ m, e = Effect.logError m) ∨ (∃ m, e = Effect.logInfo m))
          ∧ janitor (30 * Second) (24 * Hour)
                ([samplePassNoLock] ++ samplePassAllFail :: [samplePassOk]) =
              { effects :=
                  (janitor (30 * Second) (24 * Hour) [samplePassNoLock]).effects ++
                    (Effect.timeAfter (30 * Second) ::
                      janitorTick (24 * Hour) samplePassAllFail) ++
                    (janitor (30 * Second) (24 * Hour) [samplePassOk]).effects,
                returned := (janitor (30 * Second) (24 * Hour) [samplePassOk]).returned }) :=
  ⟨by decide, by decide, rfl,
    janitor_unlocks_once_per_locked_tick (30 * Second) (24 * Hour) [samplePassNoLock]
      [samplePassOk] samplePassAllFail (by decide) (by decide) rfl⟩

/-! ## Bounds established by `newInfo` -/

/-- C3: whatever is configured for `registry.service.clearInterval` (nothing, a
negative, zero or arbitrarily large duration), the `ServiceClearInterval` of the
`ServerInformation` returned by `newInfo` lies between 30 s and 24 h. -/
theorem newInfo_ServiceClearInterval_bounds (s : Source) :
    30 * Second ≤ (newInfo s).Config.ServiceClearInterval
      ∧ (newInfo s).Config.ServiceClearInterval ≤ 24 * Hour :=
  newInfo_serviceClearInterval_range s

/-- C4: whatever is configured for `registry.cache.ttl`, the `CacheTTL` of the
`ServerInformation` returned by `newInfo` is at least 5 minutes. -/
theorem newInfo_CacheTTL_lower_bound (s : Source) :
    5 * Minute ≤ (newInfo s).Config.CacheTTL := by
  simp only [newInfo, minCacheTTL, Minute, Second]
  generalize GetDuration s "registry.cache.ttl" _ = v
  revert v
  unfold Duration
  intro v
  split <;> omega

/-! ## Starting the janitor and the services -/

/-- C5: `autoCleanUp` submits the janitor loop to the goroutine pool exactly when
`ServiceClearEnabled` is true.  When the flag is false the call has no effect at
all and nothing runs in the pool, so there is no lock attempt and no
`ClearNoInstanceServices` call; when it is true exactly one worker, the janitor
loop, is submitted, and only that loop runs.  The flag is the configured
`registry.service.clearEnable`, false when not configured. -/
theorem autoCleanUp_submits_janitor_iff_enabled (cfg : ServerConfig)
    (sched : Nat → List Pass) (s : Source) :
    spawned (autoCleanUp cfg) =
        (if cfg.ServiceClearEnabled then
          [Worker.janitor cfg.ServiceClearInterval cfg.ServiceTTL]
        else [])
      ∧ withWorkers (autoCleanUp cfg) sched =
        (if cfg.ServiceClearEnabled then
          [Effect.logInfo "service clear enabled, interval: %s, service TTL: %s",
           Effect.goroutineDo (Worker.janitor cfg.ServiceClearInterval cfg.ServiceTTL)] ++
            (janitor cfg.ServiceClearInterval cfg.ServiceTTL (sched 0)).effects
        else [])
      ∧ (newInfo s).Config.ServiceClearEnabled
          = (s.bool "registry.service.clearEnable").getD false := by
  refine ⟨?_, ?_, ?_⟩
  · cases h : cfg.ServiceClearEnabled <;> simp [autoCleanUp, spawned, h]
  · cases h : cfg.ServiceClearEnabled <;>
      simp [withWorkers, autoCleanUp, spawned, Worker.run, List.enum, List.enumFrom, h]
  · simp [newInfo, GetBool]

/-- C6: in `startServices`, when `SelfRegister` is enabled and `UpgradeVersion`
returns an error, the process exits with code 1 right after the upgrade attempt:
the cache service is not run, the janitor is not submitted and the API service
is not started.  When `SelfRegister` is disabled, `UpgradeVersion` is not
called. -/
theorem startServices_upgrade_failure_exits (cfg : ServerConfig) (env : StartEnv) :
    (cfg.SelfRegister = true → env.upgradeErr = true →
        startServices cfg env =
            [Effect.notifyStart, Effect.loadPlugins, Effect.rbacInit, Effect.upgradeVersion,
             Effect.exit 1]
          ∧ Effect.cacheRun ∉ startServices cfg env
          ∧ (∀ w, Effect.goroutineDo w ∉ startServices cfg env)
          ∧ Effect.apiStart ∉ startServices cfg env)
      ∧ (cfg.SelfRegister = false → Effect.upgradeVersion ∉ startServices cfg env) := by
  constructor
  · intro hself herr
    have h : startServices cfg env =
        [Effect.notifyStart, Effect.loadPlugins, Effect.rbacInit, Effect.upgradeVersion,
         Effect.exit 1] := by
      simp [startServices, hself, herr]
    rw [h]
    simp
  · intro hself
    cases hen : cfg.ServiceClearEnabled <;> cases hh : env.hostname <;>
      simp [startServices, autoCleanUp, startAPIService, hself, hen, hh]

theorem startServices_upgrade_failure_exits_witness :
    (startServices sampleConfig sampleStartEnv =
          [Effect.notifyStart, Effect.loadPlugins, Effect.rbacInit, Effect.upgradeVersion,
           Effect.exit 1]
        ∧ Effect.cacheRun ∉ startServices sampleConfig sampleStartEnv
        ∧ (∀ w, Effect.goroutineDo w ∉ startServices sampleConfig sampleStartEnv)
        ∧ Effect.apiStart ∉ startServices sampleConfig sampleStartEnv)
      ∧ Effect.upgradeVersion ∉
          startServices { sampleConfig with SelfRegister := false } sampleStartEnv :=
  ⟨(startServices_upgrade_failure_exits sampleConfig sampleStartEnv).1 (by decide) rfl,
    (startServices_upgrade_failure_exits { sampleConfig with SelfRegister := false }
      sampleStartEnv).2 rfl⟩

/-- C7: the janitor loop observes the cancellation of the pool context.  With the
interval that `newInfo` delivers, whenever the loop reaches its select with the
context already done (after any number of earlier ticks), the select takes the
`ctx.Done()` case and the function returns: nothing but the creation of the
timer and the receipt from `ctx.Done()` happens from there on, in particular no
`mux.Try` and no `ClearNoInstanceServices`, whatever the environment would have
scheduled next. -/
theorem janitor_returns_when_context_done (s : Source) (ttl : Duration)
    (qs ps : List Pass) (p : Pass)
    (hrun : (janitor (newInfo s).Config.ServiceClearInterval ttl qs).returned = false)
    (hdone : p.doneAtEntry = true) :
    janitor (newInfo s).Config.ServiceClearInterval ttl (qs ++ p :: ps) =
      { effects :=
          (janitor (newInfo s).Config.ServiceClearInterval ttl qs).effects ++
            [Effect.timeAfter (newInfo s).Config.ServiceClearInterval, Effect.ctxDone],
        returned := true } := by
  have hpos : 0 < (newInfo s).Config.ServiceClearInterval := by
    have h := (newInfo_serviceClearInterval_range s).1
    have h30 : (0 : Int) < 30 * Second := by decide
    exact lt_of_lt_of_le h30 h
  have hsel : selectCase (newInfo s).Config.ServiceClearInterval p = SelectCase.done := by
    simp [selectCase, hdone, hpos]
  rw [janitor_append _ ttl qs (p :: ps) hrun, janitor_cons_done _ ttl p ps hsel]

theorem janitor_returns_when_context_done_witness :
    (janitor (newInfo Source.unset).Config.ServiceClearInterval (24 * Hour)
          [samplePassOk]).returned = false
      ∧ samplePassDone.doneAtEntry = true
      ∧ janitor (newInfo Source.unset).Config.ServiceClearInterval (24 * Hour)
            ([samplePassOk] ++ samplePassDone :: [samplePassOk]) =
          { effects :=
              (janitor (newInfo Source.unset).Config.ServiceClearInterval (24 * Hour)
                  [samplePassOk]).effects ++
                [Effect.timeAfter (newInfo Source.unset).Config.ServiceClearInterval,
                 Effect.ctxDone],
            returned := true } :=
  ⟨by decide, rfl,
    janitor_returns_when_context_done Source.unset (24 * Hour) [samplePassOk]
      [samplePassOk] samplePassDone (by decide) rfl⟩

/-! ## Leases, registration and heartbeats -/

/-- C8: when neither the request nor the service supplies a TTL, the lease TTL
obtained from the configured `InstanceTTL` lies within [30 s, 1 h] for every
configured value, and it is 30 s when `registry.instance.ttl` is not configured
(`newInfo` then delivers 0). -/
theorem leaseTTL_of_configured_InstanceTTL (s : Source) :
    (30 ≤ leaseTTL none none (newInfo s).Config.InstanceTTL
        ∧ leaseTTL none none (newInfo s).Config.InstanceTTL ≤ 3600)
      ∧ (s.int64 "registry.instance.ttl" = none →
          (newInfo s).Config.InstanceTTL = 0
            ∧ leaseTTL none none (newInfo s).Config.InstanceTTL = 30) := by
  refine ⟨?_, ?_⟩
  · simp only [leaseTTL]
    omega
  · intro h
    simp [newInfo, GetInt64, h, leaseTTL]

theorem leaseTTL_of_configured_InstanceTTL_witness :
    (30 ≤ leaseTTL none none (newInfo Source.unset).Config.InstanceTTL
        ∧ leaseTTL none none (newInfo Source.unset).Config.InstanceTTL ≤ 3600)
      ∧ ((newInfo Source.unset).Config.InstanceTTL = 0
          ∧ leaseTTL none none (newInfo Source.unset).Config.InstanceTTL = 30) :=
  ⟨(leaseTTL_of_configured_InstanceTTL Source.unset).1,
    (leaseTTL_of_configured_InstanceTTL Source.unset).2 rfl⟩

/-- C10: `Heartbeat(S, I)` returns the success code exactly when the service `S`
exists and the instance `I` is registered under it.  For every other `(S, I)`,
an unknown service id or an unknown instance id under an existing service, it
returns the code `ErrInstanceNotExists` with no Go error and changes nothing. -/
theorem Heartbeat_success_iff_registered (now : Int) (r : Registry)
    (serviceId instanceId : String) :
    ((Heartbeat now r serviceId instanceId).2.code = Code.ResponseSuccess ↔
        (r.serviceExists serviceId = true ∧ r.instanceRegistered serviceId instanceId = true))
      ∧ (¬ (r.serviceExists serviceId = true
            ∧ r.instanceRegistered serviceId instanceId = true) →
          Heartbeat now r serviceId instanceId
            = (r, { code := Code.ErrInstanceNotExists, err := none }))
      ∧ (Heartbeat now r serviceId instanceId).2.err = none := by
  by_cases h : r.serviceExists serviceId = true ∧ r.instanceRegistered serviceId instanceId = true
  · have hb : (r.serviceExists serviceId && r.instanceRegistered serviceId instanceId) = true := by
      simp [h.1, h.2]
    refine ⟨?_, ?_, ?_⟩
    · simp [Heartbeat, hb, h]
    · intro hn
      exact absurd h hn
    · simp [Heartbeat, hb]
  · have hb : (r.serviceExists serviceId && r.instanceRegistered serviceId instanceId) = false := by
      rw [Bool.and_eq_false_iff]
      by_cases hs : r.serviceExists serviceId = true
      · right
        have hi : ¬ r.instanceRegistered serviceId instanceId = true := fun hi => h ⟨hs, hi⟩
        simpa using hi
      · left
        simpa using hs
    refine ⟨?_, ?_, ?_⟩
    · simp [Heartbeat, hb, h]
    · intro _
      simp [Heartbeat, hb]
    · simp [Heartbeat, hb]

theorem Heartbeat_success_iff_registered_witness :
    ¬ (sampleRegistry.serviceExists "100000000000" = true
        ∧ sampleRegistry.instanceRegistered "100000000000" "iid-1" = true)
      ∧ Heartbeat 300 sampleRegistry "100000000000" "iid-1"
          = (sampleRegistry, { code := Code.ErrInstanceNotExists, err := none }) :=
  ⟨by decide,
    (Heartbeat_success_iff_registered 300 sampleRegistry "100000000000" "iid-1").2.1
      (by decide)⟩

/-! ## Lemmas on discovery -/

theorem toDigitsCore_ne_nil (b : Nat) : ∀ (fuel n : Nat) (ds : List Char),
    ds ≠ [] → Nat.toDigitsCore b fuel n ds ≠ []
  | 0, _, ds, h => by simpa [Nat.toDigitsCore] using h
  | fuel + 1, n, ds, _ => by
    simp only [Nat.toDigitsCore]
    split
    · simp
    · exact toDigitsCore_ne_nil b fuel _ _ (by simp)

theorem toString_nat_ne_empty (n : Nat) : toString n ≠ "" := by
  have h : Nat.toDigits 10 n ≠ [] := by
    unfold Nat.toDigits
    simp only [Nat.toDigitsCore]
    split
    · simp
    · exact toDigitsCore_ne_nil 10 _ _ _ (by simp)
  intro he
  apply h
  have hd : (toString n).data = [] := by rw [he]
  simpa [toString, Nat.repr, List.asString] using hd

/-- A response revision is never the empty string. -/
theorem responseRev_ne_empty (services : List MicroService) (instances : List StoredInstance) :
    responseRev services instances ≠ "" :=
  toString_nat_ne_empty _

theorem answer_of_ne (requestRev : String) (instances : List MicroServiceInstance)
    (rev : String) (h : requestRev ≠ rev) :
    QueryResult.answer requestRev instances rev = QueryResult.updated instances rev := by
  simp [QueryResult.answer, h]

theorem answer_of_eq (instances : List MicroServiceInstance) (rev : String) :
    QueryResult.answer rev instances rev = QueryResult.notModified rev := by
  simp [QueryResult.answer]

theorem mem_sortServices (l : List MicroService) (a : MicroService) :
    a ∈ sortServices l ↔ a ∈ l :=
  (List.perm_insertionSort sortsBefore l).mem_iff

theorem sortServices_sorted (l : List MicroService) :
    (sortServices l).Sorted sortsBefore :=
  List.sorted_insertionSort sortsBefore l

/-- What comes first in the resolver input has the greater or equal version. -/
theorem versionKey_le_of_sortsBefore (a b : MicroService) (h : sortsBefore a b) :
    versionKey b.Version ≤ versionKey a.Version := by
  unfold sortsBefore serviceSortKey at h
  rw [Prod.Lex.le_iff] at h
  rcases h with h | h
  · exact le_of_lt h
  · exact le_of_eq (by simpa using h.1.symm)

theorem mem_resolve (rule : VersionRule) (l : List MicroService) (p : MicroService)
    (h : p ∈ rule.resolve l) : p ∈ l := by
  cases rule with
  | latest => exact List.mem_of_mem_take h
  | exact v => exact (List.mem_filter.mp h).1
  | atLeast v => exact (List.mem_filter.mp h).1
  | range lo hi => exact (List.mem_filter.mp h).1

theorem mem_candidates (r : Registry) (domain project env appId name : String)
    (p : MicroService) (h : p ∈ r.candidates domain project env appId name) :
    p ∈ r.services ∧ p.Domain = domain ∧ p.Project = project ∧ p.Environment = env
      ∧ p.AppId = appId ∧ p.ServiceName = name := by
  unfold Registry.candidates at h
  rw [List.mem_filter] at h
  simpa [and_assoc] using h

/-- Every provider the rule resolves to is one of the candidates. -/
theorem mem_resolveProviders (cfg : ServerConfig) (r : Registry) (ctx : Context)
    (req : FindInstancesRequest) (env : String) (p : MicroService)
    (h : p ∈ resolveProviders cfg r ctx req env) :
    p ∈ r.candidates ctx.TargetDomain ctx.TargetProject (lookupEnv cfg req.ServiceName env)
      req.AppId req.ServiceName :=
  (mem_sortServices _ p).mp (mem_resolve _ _ p h)

theorem FindInstances_of_consumer (cfg : ServerConfig) (r : Registry) (ctx : Context)
    (req : FindInstancesRequest) (consumer : MicroService)
    (hid : req.ConsumerServiceId ≠ "")
    (hcons : r.findServiceIn ctx.Domain ctx.Project req.ConsumerServiceId = some consumer) :
    FindInstances cfg r ctx req =
      findProviders cfg r ctx req consumer.Environment (some consumer.AppId) := by
  simp [FindInstances, hid, hcons]

theorem findProviders_denied (cfg : ServerConfig) (r : Registry) (ctx : Context)
    (req : FindInstancesRequest) (env : String) (app : Option String)
    (hcross : ctx.crossTenant = true) (hglobal : isGlobalVisible cfg req.ServiceName = false) :
    findProviders cfg r ctx req env app = QueryResult.failed Code.ErrServiceNotExists := by
  simp [findProviders, hcross, hglobal]

theorem findProviders_none (cfg : ServerConfig) (r : Registry) (ctx : Context)
    (req : FindInstancesRequest) (env : String) (app : Option String)
    (hnone : resolveProviders cfg r ctx req env = []) :
    findProviders cfg r ctx req env app = QueryResult.failed Code.ErrServiceNotExists := by
  unfold findProviders
  split
  · rfl
  · simp [hnone]

theorem findProviders_some (cfg : ServerConfig) (r : Registry) (ctx : Context)
    (req : FindInstancesRequest) (env : String) (app : Option String)
    (hallow : ctx.crossTenant = false ∨ isGlobalVisible cfg req.ServiceName = true)
    (hsome : resolveProviders cfg r ctx req env ≠ []) :
    findProviders cfg r ctx req env app =
      QueryResult.answer ctx.RequestRev
        ((gatherInstances r app req.Tags (resolveProviders cfg r ctx req env)).map
          (fun x => x.inst))
        (responseRev (resolveProviders cfg r ctx req env)
          (gatherInstances r app req.Tags (resolveProviders cfg r ctx req env))) := by
  have hgate : (ctx.crossTenant && !isGlobalVisible cfg req.ServiceName) = false := by
    rcases hallow with h | h <;> simp [h]
  have hemp : (resolveProviders cfg r ctx req env).isEmpty = false := by
    cases hl : resolveProviders cfg r ctx req env with
    | nil => exact absurd hl hsome
    | cons a l => rfl
  simp [findProviders, hgate, hemp]

/-- With no tag asked for and every provider accessible, the instances of all
providers are gathered, provider by provider. -/
theorem gatherInstances_all (r : Registry) (app : Option String)
    (providers : List MicroService)
    (hacc : ∀ p ∈ providers, accessibleTo app p = true) :
    gatherInstances r app [] providers =
      (providers.map (fun p => r.instancesOf p.ServiceId)).flatten := by
  unfold gatherInstances
  have h₁ : providers.filter (accessibleTo app) = providers :=
    List.filter_eq_self.mpr hacc
  have h₂ : providers.filter (hasTags []) = providers :=
    List.filter_eq_self.mpr (fun p _ => by simp [hasTags])
  rw [h₁, h₂]

/-- When no remaining provider passes the two filters, nothing is gathered. -/
theorem gatherInstances_none (r : Registry) (app : Option String) (tags : List String)
    (providers : List MicroService)
    (hnone : ∀ p ∈ providers, accessibleTo app p = false ∨ hasTags tags p = false) :
    gatherInstances r app tags providers = [] := by
  unfold gatherInstances
  have h : (providers.filter (accessibleTo app)).filter (hasTags tags) = [] := by
    rw [List.filter_eq_nil_iff]
    intro p hp
    rw [List.mem_filter] at hp
    rcases hnone p hp.1 with h | h
    · rw [h] at hp
      exact absurd hp.2 (by simp)
    · simp [h]
  rw [h]
  rfl

/-- In a list of services with pairwise different versions, the services of one
version are that one service. -/
theorem filter_version_eq_singleton (l : List MicroService) (p : MicroService)
    (hpair : l.Pairwise (fun a b => a.Version ≠ b.Version)) (hp : p ∈ l) :
    l.filter (fun s => s.Version == p.Version) = [p] := by
  induction l with
  | nil => cases hp
  | cons a t ih =>
    rw [List.pairwise_cons] at hpair
    by_cases hav : a.Version = p.Version
    · have hpa : p = a := by
        rcases List.mem_cons.mp hp with h | h
        · exact h
        · exact absurd hav (hpair.1 p h)
      subst hpa
      have ht : t.filter (fun s => s.Version == p.Version) = [] := by
        rw [List.filter_eq_nil_iff]
        intro b hb
        have := hpair.1 b hb
        simpa using fun h => this h.symm
      simp [List.filter_cons, ht]
    · have hpt : p ∈ t := by
        rcases List.mem_cons.mp hp with h | h
        · exact absurd (by rw [h]) hav
        · exact h
      simp [List.filter_cons, hav, ih hpair.2 hpt]

/-- The answer to a query on the normal path: the caller's own tenant, a
consumer of the provider's appId, no tag, no request revision. -/
theorem FindInstances_normal_path (cfg : ServerConfig) (r : Registry) (ctx : Context)
    (req : FindInstancesRequest) (consumer : MicroService)
    (hid : req.ConsumerServiceId ≠ "")
    (hcons : r.findServiceIn ctx.Domain ctx.Project req.ConsumerServiceId = some consumer)
    (hallow : ctx.crossTenant = false ∨ isGlobalVisible cfg req.ServiceName = true)
    (happ : consumer.AppId = req.AppId)
    (htags : req.Tags = [])
    (hrev : ctx.RequestRev = "")
    (hsome : resolveProviders cfg r ctx req consumer.Environment ≠ []) :
    FindInstances cfg r ctx req =
      QueryResult.updated
        (((resolveProviders cfg r ctx req consumer.Environment).map
            (fun p => r.instancesOf p.ServiceId)).flatten.map (fun x => x.inst))
        (responseRev (resolveProviders cfg r ctx req consumer.Environment)
          ((resolveProviders cfg r ctx req consumer.Environment).map
            (fun p => r.instancesOf p.ServiceId)).flatten) := by
  have hacc : ∀ p ∈ resolveProviders cfg r ctx req consumer.Environment,
      accessibleTo (some consumer.AppId) p = true := by
    intro p hp
    have hc := mem_candidates _ _ _ _ _ _ p (mem_resolveProviders cfg r ctx req _ p hp)
    simp [accessibleTo, happ, hc.2.2.2.2.1]
  rw [FindInstances_of_consumer cfg r ctx req consumer hid hcons,
    findProviders_some cfg r ctx req _ _ hallow hsome, htags,
    gatherInstances_all r _ _ hacc, hrev]
  exact answer_of_ne _ _ _ (fun h => responseRev_ne_empty _ _ h.symm)

/-! ## The model against the assertions of the tests -/

/-- The assertions of "query instance" in `TestInstance_Query` hold in the model. -/
theorem replay_TestInstance_Query_query_instance :
    ((FindInstances sampleConfig queryRegistry defaultContext
          (queryRequest "sid1" "latest")).instances.map (fun i => i.InstanceId)).head?
        = some "iid2"
      ∧ ((FindInstances sampleConfig queryRegistry defaultContext
          (queryRequest "sid1" "1.0.0+")).instances.map (fun i => i.InstanceId)).head?
        = some "iid2"
      ∧ ((FindInstances sampleConfig queryRegistry defaultContext
          (queryRequest "sid1" "1.0.0")).instances.map (fun i => i.InstanceId)).head?
        = some "iid1"
      ∧ (FindInstances sampleConfig queryRegistry defaultContext
          { ConsumerServiceId := "sid1", AppId := "query_instance",
            ServiceName := "query_instance_service", VersionRule := "0.0.0" }).code
        = Code.ErrServiceNotExists
      ∧ (FindInstances sampleConfig queryRegistry defaultContext
          { ConsumerServiceId := "sid4", AppId := "query_instance_ms",
            ServiceName := "query_instance_diff_env_service_ms",
            VersionRule := "1.0.0" }).instances.map (fun i => i.InstanceId) = ["iid4"]
      ∧ (FindInstances sampleConfig queryRegistry defaultContext
          { AppId := "query_instance_ms", ServiceName := "query_instance_diff_env_service_ms",
            VersionRule := "1.0.0",
            Environment := ENV_PROD }).instances.map (fun i => i.InstanceId) = ["iid4"]
      ∧ FindInstances sampleConfig queryRegistry defaultContext (queryRequest "sid3" "1.0.5")
        = QueryResult.updated [] "2"
      ∧ FindInstances sampleConfig queryRegistry defaultContext
          { queryRequest "sid1" "latest" with Tags := ["not_exist_tag"] }
        = QueryResult.updated [] "2"
      ∧ (FindInstances sharedConfig queryRegistry userContext
          { ConsumerServiceId := "sid6", AppId := "default",
            ServiceName := "query_instance_shared_provider_ms",
            VersionRule := "1.0.0" }).instances.map (fun i => i.InstanceId) = ["iid5"]
      ∧ (FindInstances sharedConfig queryRegistry defaultContext
          { ConsumerServiceId := "sid7", AppId := "default",
            ServiceName := "query_instance_shared_provider_ms",
            VersionRule := "1.0.0" }).instances.map (fun i => i.InstanceId) = ["iid5"] := by
  decide

/-- The assertions on direct lookups in `TestInstance_Query` ("query instances
between diff dimensions", the instances items of "batch query instances") and
in `TestInstance_GetOne` hold in the model. -/
theorem replay_direct_lookups :
    (GetInstances sampleConfig queryRegistry defaultContext
          { ConsumerServiceId := "sid3", ProviderServiceId := "sid2" }).code
        = Code.ErrServiceNotExists
      ∧ (GetInstances sampleConfig queryRegistry defaultContext
          { ConsumerServiceId := "sid1", ProviderServiceId := "sid2" }).code
        = Code.ResponseSuccess
      ∧ (GetInstances sampleConfig queryRegistry defaultContext
          { ConsumerServiceId := "sid4", ProviderServiceId := "sid2" }).code
        ≠ Code.ResponseSuccess
      ∧ failedAt
          (BatchFind sharedConfig queryRegistry userContext
            { ConsumerServiceId := "sid6",
              Instances := [{ ServiceId := "sid5", InstanceId := "iid5" }] }).Instances.Failed
          0 Code.ErrServiceNotExists
      ∧ ((BatchFind sharedConfig queryRegistry defaultContext
            { ConsumerServiceId := "sid7",
              Instances := [{ ServiceId := "sid5", InstanceId := "iid5" }] }).Instances.Updated.map
          (fun e => (e.Index, e.Instances.map (fun i => i.InstanceId)))) = [(0, ["iid5"])]
      ∧ (GetInstance sampleConfig getOneRegistry defaultContext
          { ConsumerServiceId := "sid2", ProviderServiceId := "sid2",
            ProviderInstanceId := "iid2" }).code = Code.ResponseSuccess
      ∧ (GetInstance sampleConfig getOneRegistry defaultContext
          { ConsumerServiceId := "not-exist-id-ms", ProviderServiceId := "sid2",
            ProviderInstanceId := "iid2" }).code ≠ Code.ResponseSuccess
      ∧ (GetInstance sampleConfig getOneRegistry defaultContext
          { ConsumerServiceId := "sid3", ProviderServiceId := "sid2",
            ProviderInstanceId := "iid2" }).code = Code.ErrInstanceNotExists
      ∧ (GetInstances sampleConfig getOneRegistry defaultContext
          { ConsumerServiceId := "sid3", ProviderServiceId := "sid2" }).code
        ≠ Code.ResponseSuccess := by
  refine ⟨by decide, by decide, by decide, ?_, by decide, by decide, by decide, by decide,
    by decide⟩
  exact ⟨{ Indexes := [0], Error := Code.ErrServiceNotExists }, by decide, rfl, by decide⟩

/-! ## Version rules -/

/-- C11: on the normal path of `FindInstances` (a consumer of the caller's tenant
with the provider's appId, no tag, no request revision), for every set of
registered versions of one (app, name): rule "latest" returns exactly the
instances of one service, whose version is the greatest of all registered
ones; an exact rule returns exactly the instances of the service with that
version; an exact rule that matches no registered version fails with
`ServiceNotExists`. -/
theorem FindInstances_latest_and_exact (cfg : ServerConfig) (r : Registry) (ctx : Context)
    (req : FindInstancesRequest) (consumer : MicroService)
    (hid : req.ConsumerServiceId ≠ "")
    (hcons : r.findServiceIn ctx.Domain ctx.Project req.ConsumerServiceId = some consumer)
    (hten : ctx.crossTenant = false)
    (happ : consumer.AppId = req.AppId)
    (htags : req.Tags = [])
    (hrev : ctx.RequestRev = "")
    (hkey : (r.candidates ctx.TargetDomain ctx.TargetProject
        (lookupEnv cfg req.ServiceName consumer.Environment) req.AppId
        req.ServiceName).Pairwise (fun a b => a.Version ≠ b.Version)) :
    (req.VersionRule = "latest" →
        r.candidates ctx.TargetDomain ctx.TargetProject
          (lookupEnv cfg req.ServiceName consumer.Environment) req.AppId req.ServiceName ≠ [] →
        ∃ g ∈ r.candidates ctx.TargetDomain ctx.TargetProject
            (lookupEnv cfg req.ServiceName consumer.Environment) req.AppId req.ServiceName,
          (∀ c ∈ r.candidates ctx.TargetDomain ctx.TargetProject
              (lookupEnv cfg req.ServiceName consumer.Environment) req.AppId req.ServiceName,
            versionKey c.Version ≤ versionKey g.Version)
          ∧ FindInstances cfg r ctx req =
              QueryResult.updated ((r.instancesOf g.ServiceId).map (fun x => x.inst))
                (responseRev [g] (r.instancesOf g.ServiceId)))
      ∧ (parseVersionRule req.VersionRule = VersionRule.exact req.VersionRule →
          ∀ p ∈ r.candidates ctx.TargetDomain ctx.TargetProject
              (lookupEnv cfg req.ServiceName consumer.Environment) req.AppId req.ServiceName,
            p.Version = req.VersionRule →
            FindInstances cfg r ctx req =
              QueryResult.updated ((r.instancesOf p.ServiceId).map (fun x => x.inst))
                (responseRev [p] (r.instancesOf p.ServiceId)))
      ∧ (parseVersionRule req.VersionRule = VersionRule.exact req.VersionRule →
          (∀ p ∈ r.candidates ctx.TargetDomain ctx.TargetProject
              (lookupEnv cfg req.ServiceName consumer.Environment) req.AppId req.ServiceName,
            p.Version ≠ req.VersionRule) →
          FindInstances cfg r ctx req = QueryResult.failed Code.ErrServiceNotExists) := by
  refine ⟨?_, ?_, ?_⟩
  · intro hrule hne
    have hparse : parseVersionRule req.VersionRule = VersionRule.latest := by
      simp [parseVersionRule, hrule]
    cases hsort : sortServices (r.candidates ctx.TargetDomain ctx.TargetProject
        (lookupEnv cfg req.ServiceName consumer.Environment) req.AppId req.ServiceName) with
    | nil =>
      obtain ⟨c, hc⟩ := List.exists_mem_of_ne_nil _ hne
      have hmem := (mem_sortServices _ c).mpr hc
      rw [hsort] at hmem
      cases hmem
    | cons g rest =>
      have hsorted := sortServices_sorted (r.candidates ctx.TargetDomain ctx.TargetProject
        (lookupEnv cfg req.ServiceName consumer.Environment) req.AppId req.ServiceName)
      rw [hsort] at hsorted
      have hres : resolveProviders cfg r ctx req consumer.Environment = [g] := by
        simp [resolveProviders, hparse, hsort, VersionRule.resolve]
      refine ⟨g, ?_, ?_, ?_⟩
      · apply (mem_sortServices _ g).mp
        rw [hsort]
        exact List.mem_cons_self g rest
      · intro c hc
        have hmem := (mem_sortServices _ c).mpr hc
        rw [hsort] at hmem
        rcases List.mem_cons.mp hmem with h | h
        · rw [h]
        · exact versionKey_le_of_sortsBefore g c (List.rel_of_sorted_cons hsorted c h)
      · have h := FindInstances_normal_path cfg r ctx req consumer hid hcons (Or.inl hten)
          happ htags hrev (by rw [hres]; simp)
        rw [hres] at h
        simpa using h
  · intro hparse p hp hv
    have hpair : (sortServices (r.candidates ctx.TargetDomain ctx.TargetProject
        (lookupEnv cfg req.ServiceName consumer.Environment) req.AppId
        req.ServiceName)).Pairwise (fun a b => a.Version ≠ b.Version) :=
      ((List.perm_insertionSort sortsBefore _).pairwise_iff
        (fun h => fun h' => h h'.symm)).mpr hkey
    have hres : resolveProviders cfg r ctx req consumer.Environment = [p] := by
      simp only [resolveProviders, hparse, VersionRule.resolve]
      rw [← hv]
      exact filter_version_eq_singleton _ p hpair ((mem_sortServices _ p).mpr hp)
    have h := FindInstances_normal_path cfg r ctx req consumer hid hcons (Or.inl hten)
      happ htags hrev (by rw [hres]; simp)
    rw [hres] at h
    simpa using h
  · intro hparse hnone
    have hres : resolveProviders cfg r ctx req consumer.Environment = [] := by
      simp only [resolveProviders, hparse, VersionRule.resolve]
      rw [List.filter_eq_nil_iff]
      intro p hp
      have := hnone p ((mem_sortServices _ p).mp hp)
      simpa using this
    rw [FindInstances_of_consumer cfg r ctx req consumer hid hcons]
    exact findProviders_none cfg r ctx req _ _ hres

theorem FindInstances_latest_and_exact_witness :
    FindInstances sampleConfig queryRegistry defaultContext (queryRequest "sid1" "1.0.0") =
      QueryResult.updated [(testInstance "iid1" "sid1" "find:127.0.0.1:8080" 10).inst] "10" :=
  (FindInstances_latest_and_exact sampleConfig queryRegistry defaultContext
    (queryRequest "sid1" "1.0.0") queryService1 (by decide) (by decide) (by decide)
    (by decide) (by decide) (by decide) (by decide)).2.1 (by decide) queryService1
    (by decide) (by decide)

/-- The first element gathered from a list of groups comes from the first group
that is not empty; every later group with an element is related to it. -/
theorem flatten_head_of_pairwise {α β : Type} (R : α → α → Prop) (f : α → List β) :
    ∀ (ps : List α) (x : β) (xs : List β), ps.Pairwise R →
      (ps.map f).flatten = x :: xs →
      ∃ p ∈ ps, x ∈ f p ∧ ∀ q ∈ ps, f q ≠ [] → q = p ∨ R p q
  | [], x, xs, _, h => by simp at h
  | a :: t, x, xs, hpair, h => by
    rw [List.pairwise_cons] at hpair
    cases hfa : f a with
    | nil =>
      have ht : (t.map f).flatten = x :: xs := by simpa [hfa] using h
      obtain ⟨p, hp, hx, hq⟩ := flatten_head_of_pairwise R f t x xs hpair.2 ht
      refine ⟨p, List.mem_cons_of_mem a hp, hx, ?_⟩
      intro q hqm hne
      rcases List.mem_cons.mp hqm with hqa | hqt
      · rw [hqa] at hne
        exact absurd hfa hne
      · exact hq q hqt hne
    | cons y ys =>
      have hxy : x = y := by
        have h' : y :: (ys ++ (t.map f).flatten) = x :: xs := by simpa [hfa] using h
        exact (List.cons.inj h').1.symm
      refine ⟨a, List.mem_cons_self a t, ?_, ?_⟩
      · rw [hfa, hxy]
        exact List.mem_cons_self y ys
      · intro q hqm _
        rcases List.mem_cons.mp hqm with hqa | hqt
        · exact Or.inl hqa
        · exact Or.inr (hpair.1 q hqt)

theorem mem_instancesOf (r : Registry) (serviceId : String) (x : StoredInstance)
    (h : x ∈ r.instancesOf serviceId) : x ∈ r.instances ∧ x.inst.ServiceId = serviceId := by
  unfold Registry.instancesOf at h
  rw [List.mem_filter] at h
  simpa using h

/-- The resolver input is in descending order of version. -/
theorem sortServices_pairwise_version (l : List MicroService) :
    (sortServices l).Pairwise (fun a b => versionKey b.Version ≤ versionKey a.Version) :=
  List.Pairwise.imp (fun {a b} h => versionKey_le_of_sortsBefore a b h) (sortServices_sorted l)

/-! ## Lemmas on the classification of a batch -/

theorem failedAt_addFailed (fs : List FindFailedResult) (i j : Nat) (c d : Code) :
    failedAt (addFailed fs i c) j d ↔ failedAt fs j d ∨ (d = c ∧ j = i) := by
  induction fs with
  | nil =>
    simp only [addFailed, failedAt, List.mem_singleton, List.not_mem_nil, false_and,
      exists_false, false_or]
    constructor
    · rintro ⟨f, rfl, he, hj⟩
      exact ⟨he.symm, by simpa using hj⟩
    · rintro ⟨hd, hj⟩
      exact ⟨_, rfl, hd.symm, by simp [hj]⟩
  | cons f fs ih =>
    unfold addFailed
    by_cases hfc : f.Error = c
    · simp only [hfc, if_true]
      constructor
      · rintro ⟨g, hg, he, hj⟩
        rcases List.mem_cons.mp hg with hgf | hgt
        · subst hgf
          simp only [List.mem_append, List.mem_singleton] at hj
          rcases hj with hj | hj
          · exact Or.inl ⟨f, List.mem_cons_self f fs, by simpa [hfc] using he, hj⟩
          · exact Or.inr ⟨by simpa using he.symm, hj⟩
        · exact Or.inl ⟨g, List.mem_cons_of_mem f hgt, he, hj⟩
      · rintro (⟨g, hg, he, hj⟩ | ⟨hd, hj⟩)
        · rcases List.mem_cons.mp hg with hgf | hgt
          · subst hgf
            exact ⟨_, List.mem_cons_self _ fs, by simpa [hfc] using he,
              by simp [hj]⟩
          · exact ⟨g, List.mem_cons_of_mem _ hgt, he, hj⟩
        · exact ⟨_, List.mem_cons_self _ fs, by simp [hd], by simp [hj]⟩
    · simp only [hfc, if_false]
      constructor
      · rintro ⟨g, hg, he, hj⟩
        rcases List.mem_cons.mp hg with hgf | hgt
        · subst hgf
          exact Or.inl ⟨g, List.mem_cons_self g fs, he, hj⟩
        · rcases ih.mp ⟨g, hgt, he, hj⟩ with h | h
          · obtain ⟨g', hg', he', hj'⟩ := h
            exact Or.inl ⟨g', List.mem_cons_of_mem f hg', he', hj'⟩
          · exact Or.inr h
      · rintro (⟨g, hg, he, hj⟩ | h)
        · rcases List.mem_cons.mp hg with hgf | hgt
          · subst hgf
            exact ⟨g, List.mem_cons_self g _, he, hj⟩
          · obtain ⟨g', hg', he', hj'⟩ := ih.mpr (Or.inl ⟨g, hgt, he, hj⟩)
            exact ⟨g', List.mem_cons_of_mem f hg', he', hj'⟩
        · obtain ⟨g', hg', he', hj'⟩ := ih.mpr (Or.inr h)
          exact ⟨g', List.mem_cons_of_mem f hg', he', hj'⟩

theorem addFailed_indexes_perm (fs : List FindFailedResult) (i : Nat) (c : Code) :
    ((addFailed fs i c).map (fun f => f.Indexes)).flatten.Perm
      ((fs.map (fun f => f.Indexes)).flatten ++ [i]) := by
  induction fs with
  | nil => simp [addFailed]
  | cons f fs ih =>
    unfold addFailed
    by_cases hfc : f.Error = c
    · simp only [hfc, if_true, List.map_cons, List.flatten_cons, List.append_assoc]
      exact List.Perm.append_left _ List.perm_append_comm
    · simp only [hfc, if_false, List.map_cons, List.flatten_cons, List.append_assoc]
      exact List.Perm.append_left _ ih

theorem record_indexes_perm (acc : BatchFindResult) (i : Nat) (q : QueryResult) :
    (acc.record i q).indexes.Perm (acc.indexes ++ [i]) := by
  cases q with
  | failed c =>
    simp only [BatchFindResult.record, BatchFindResult.indexes, List.append_assoc]
    exact List.Perm.append_left _ (List.Perm.append_left _ (addFailed_indexes_perm _ i c))
  | notModified rev =>
    simp only [BatchFindResult.record, BatchFindResult.indexes, List.append_assoc]
    exact List.Perm.append_left _ (List.Perm.append_left _ List.perm_append_comm)
  | updated is rev =>
    simp only [BatchFindResult.record, BatchFindResult.indexes, List.map_append,
      List.map_cons, List.map_nil, List.append_assoc]
    refine List.Perm.append_left _ ?_
    have h : ([i] ++ (acc.NotModified ++ (acc.Failed.map (fun f => f.Indexes)).flatten)).Perm
        ((acc.NotModified ++ (acc.Failed.map (fun f => f.Indexes)).flatten) ++ [i]) :=
      List.perm_append_comm
    simpa [List.append_assoc] using h

theorem classifyFrom_indexes_perm : ∀ (qs : List QueryResult) (start : Nat)
    (acc : BatchFindResult),
    (classifyFrom start qs acc).indexes.Perm (acc.indexes ++ List.range' start qs.length)
  | [], start, acc => by simp [classifyFrom]
  | q :: qs, start, acc => by
    simp only [classifyFrom, List.length_cons, List.range'_succ]
    refine (classifyFrom_indexes_perm qs (start + 1) (acc.record start q)).trans ?_
    have h := (record_indexes_perm acc start q).append_right (List.range' (start + 1) qs.length)
    simpa [List.append_assoc] using h

/-- Every request index is recorded exactly once over the three lists. -/
theorem classify_indexes_perm (answers : List QueryResult) :
    (classify answers).indexes.Perm (List.range answers.length) := by
  have h := classifyFrom_indexes_perm answers 0 {}
  simpa [classify, BatchFindResult.indexes, List.range_eq_range'] using h

theorem classifyFrom_updated : ∀ (qs : List QueryResult) (start : Nat)
    (acc : BatchFindResult) (e : FindResult),
    e ∈ (classifyFrom start qs acc).Updated ↔
      e ∈ acc.Updated
        ∨ ∃ k, e.Index = start + k ∧ qs[k]? = some (QueryResult.updated e.Instances e.Rev)
  | [], start, acc, e => by simp [classifyFrom]
  | q :: qs, start, acc, e => by
    simp only [classifyFrom]
    rw [classifyFrom_updated qs (start + 1) (acc.record start q) e]
    have hrec : e ∈ (acc.record start q).Updated ↔
        e ∈ acc.Updated ∨ (e.Index = start ∧ q = QueryResult.updated e.Instances e.Rev) := by
      cases q with
      | failed c => simp [BatchFindResult.record]
      | notModified rev => simp [BatchFindResult.record]
      | updated is rev =>
        simp only [BatchFindResult.record, List.mem_append, List.mem_singleton,
          QueryResult.updated.injEq]
        constructor
        · rintro (h | h)
          · exact Or.inl h
          · subst h
            exact Or.inr ⟨rfl, rfl, rfl⟩
        · rintro (h | ⟨hi, his, hrev⟩)
          · exact Or.inl h
          · right
            cases e
            simp_all
    rw [hrec]
    constructor
    · rintro ((h | ⟨hi, hq⟩) | ⟨k, hk, hqk⟩)
      · exact Or.inl h
      · exact Or.inr ⟨0, by simpa using hi, by simp [hq]⟩
      · exact Or.inr ⟨k + 1, by omega, by simpa using hqk⟩
    · rintro (h | ⟨k, hk, hqk⟩)
      · exact Or.inl (Or.inl h)
      · cases k with
        | zero =>
          refine Or.inl (Or.inr ⟨by simpa using hk, ?_⟩)
          simpa using hqk
        | succ k => exact Or.inr ⟨k, by omega, by simpa using hqk⟩

theorem classifyFrom_notModified : ∀ (qs : List QueryResult) (start : Nat)
    (acc : BatchFindResult) (i : Nat),
    i ∈ (classifyFrom start qs acc).NotModified ↔
      i ∈ acc.NotModified
        ∨ ∃ k rev, i = start + k ∧ qs[k]? = some (QueryResult.notModified rev)
  | [], start, acc, i => by simp [classifyFrom]
  | q :: qs, start, acc, i => by
    simp only [classifyFrom]
    rw [classifyFrom_notModified qs (start + 1) (acc.record start q) i]
    have hrec : i ∈ (acc.record start q).NotModified ↔
        i ∈ acc.NotModified ∨ (i = start ∧ ∃ rev, q = QueryResult.notModified rev) := by
      cases q with
      | failed c => simp [BatchFindResult.record]
      | notModified rev => simp [BatchFindResult.record]
      | updated is rev => simp [BatchFindResult.record]
    rw [hrec]
    constructor
    · rintro ((h | ⟨hi, rev, hq⟩) | ⟨k, rev, hk, hqk⟩)
      · exact Or.inl h
      · exact Or.inr ⟨0, rev, by simpa using hi, by simp [hq]⟩
      · exact Or.inr ⟨k + 1, rev, by omega, by simpa using hqk⟩
    · rintro (h | ⟨k, rev, hk, hqk⟩)
      · exact Or.inl (Or.inl h)
      · cases k with
        | zero =>
          refine Or.inl (Or.inr ⟨by simpa using hk, rev, ?_⟩)
          simpa using hqk
        | succ k => exact Or.inr ⟨k, rev, by omega, by simpa using hqk⟩

theorem classifyFrom_failed : ∀ (qs : List QueryResult) (start : Nat)
    (acc : BatchFindResult) (i : Nat) (c : Code),
    failedAt (classifyFrom start qs acc).Failed i c ↔
      failedAt acc.Failed i c ∨ ∃ k, i = start + k ∧ qs[k]? = some (QueryResult.failed c)
  | [], start, acc, i, c => by simp [classifyFrom]
  | q :: qs, start, acc, i, c => by
    simp only [classifyFrom]
    rw [classifyFrom_failed qs (start + 1) (acc.record start q) i c]
    have hrec : failedAt (acc.record start q).Failed i c ↔
        failedAt acc.Failed i c ∨ (i = start ∧ q = QueryResult.failed c) := by
      cases q with
      | failed d =>
        simp only [BatchFindResult.record, failedAt_addFailed, QueryResult.failed.injEq]
        constructor
        · rintro (h | ⟨hc, hi⟩)
          · exact Or.inl h
          · exact Or.inr ⟨hi, hc.symm⟩
        · rintro (h | ⟨hi, hc⟩)
          · exact Or.inl h
          · exact Or.inr ⟨hc.symm, hi⟩
      | notModified rev => simp [BatchFindResult.record]
      | updated is rev => simp [BatchFindResult.record]
    rw [hrec]
    constructor
    · rintro ((h | ⟨hi, hq⟩) | ⟨k, hk, hqk⟩)
      · exact Or.inl h
      · exact Or.inr ⟨0, by simpa using hi, by simp [hq]⟩
      · exact Or.inr ⟨k + 1, by omega, by simpa using hqk⟩
    · rintro (h | ⟨k, hk, hqk⟩)
      · exact Or.inl (Or.inl h)
      · cases k with
        | zero =>
          refine Or.inl (Or.inr ⟨by simpa using hk, ?_⟩)
          simpa using hqk
        | succ k => exact Or.inr ⟨k, by omega, by simpa using hqk⟩

/-- An item is in `Updated` under its request index exactly when its answer
carries instances. -/
theorem classify_updated (answers : List QueryResult) (e : FindResult) :
    e ∈ (classify answers).Updated ↔
      answers[e.Index]? = some (QueryResult.updated e.Instances e.Rev) := by
  unfold classify
  rw [classifyFrom_updated]
  constructor
  · rintro (h | ⟨k, hk, hq⟩)
    · cases h
    · rw [hk]
      simpa using hq
  · intro h
    exact Or.inr ⟨e.Index, by simp, h⟩

/-- A request index is in `NotModified` exactly when its answer is not
modified. -/
theorem classify_notModified (answers : List QueryResult) (i : Nat) :
    i ∈ (classify answers).NotModified ↔
      ∃ rev, answers[i]? = some (QueryResult.notModified rev) := by
  unfold classify
  rw [classifyFrom_notModified]
  constructor
  · rintro (h | ⟨k, rev, hk, hq⟩)
    · cases h
    · exact ⟨rev, by rw [hk]; simpa using hq⟩
  · rintro ⟨rev, h⟩
    exact Or.inr ⟨i, rev, by simp, h⟩

/-- A request index is in `Failed` under a code exactly when its answer failed
with that code. -/
theorem classify_failed (answers : List QueryResult) (i : Nat) (c : Code) :
    failedAt (classify answers).Failed i c ↔ answers[i]? = some (QueryResult.failed c) := by
  unfold classify
  rw [classifyFrom_failed]
  constructor
  · rintro (h | ⟨k, hk, hq⟩)
    · obtain ⟨f, hf, _⟩ := h
      cases hf
    · rw [hk]
      simpa using hq
  · intro h
    exact Or.inr ⟨i, by simp, h⟩

/-! ## Lemmas on `BatchFind` -/

theorem BatchFind_services_answer (cfg : ServerConfig) (r : Registry) (ctx : Context)
    (b : BatchFindInstancesRequest) (i : Nat) (item : FindService)
    (hitem : b.Services[i]? = some item) :
    (b.Services.map (findServiceItem cfg r ctx b.ConsumerServiceId))[i]? =
      some (findServiceItem cfg r ctx b.ConsumerServiceId item) := by
  simp [List.getElem?_map, hitem]

theorem BatchFind_instances_answer (cfg : ServerConfig) (r : Registry) (ctx : Context)
    (b : BatchFindInstancesRequest) (i : Nat) (item : FindInstance)
    (hitem : b.Instances[i]? = some item) :
    (b.Instances.map (findInstanceItem cfg r ctx b.ConsumerServiceId))[i]? =
      some (findInstanceItem cfg r ctx b.ConsumerServiceId item) := by
  simp [List.getElem?_map, hitem]

/-- A services item whose answer carries instances is in `Updated` under its
request index. -/
theorem BatchFind_services_updated (cfg : ServerConfig) (r : Registry) (ctx : Context)
    (b : BatchFindInstancesRequest) (i : Nat) (item : FindService)
    (is : List MicroServiceInstance) (rev : String)
    (hitem : b.Services[i]? = some item)
    (hans : findServiceItem cfg r ctx b.ConsumerServiceId item = QueryResult.updated is rev) :
    ({ Index := i, Rev := rev, Instances := is } : FindResult)
      ∈ (BatchFind cfg r ctx b).Services.Updated := by
  unfold BatchFind
  rw [classify_updated]
  simp only []
  rw [BatchFind_services_answer cfg r ctx b i item hitem, hans]

/-- A services item whose answer is not modified is in `NotModified` under its
request index. -/
theorem BatchFind_services_notModified (cfg : ServerConfig) (r : Registry) (ctx : Context)
    (b : BatchFindInstancesRequest) (i : Nat) (item : FindService) (rev : String)
    (hitem : b.Services[i]? = some item)
    (hans : findServiceItem cfg r ctx b.ConsumerServiceId item = QueryResult.notModified rev) :
    i ∈ (BatchFind cfg r ctx b).Services.NotModified := by
  unfold BatchFind
  rw [classify_notModified]
  exact ⟨rev, by rw [BatchFind_services_answer cfg r ctx b i item hitem, hans]⟩

/-- A services item whose answer failed is in `Failed` under its request index and
its error code. -/
theorem BatchFind_services_failed (cfg : ServerConfig) (r : Registry) (ctx : Context)
    (b : BatchFindInstancesRequest) (i : Nat) (item : FindService) (c : Code)
    (hitem : b.Services[i]? = some item)
    (hans : findServiceItem cfg r ctx b.ConsumerServiceId item = QueryResult.failed c) :
    failedAt (BatchFind cfg r ctx b).Services.Failed i c := by
  unfold BatchFind
  rw [classify_failed]
  rw [BatchFind_services_answer cfg r ctx b i item hitem, hans]

/-! ## Lemmas on the filters of `FindInstances` -/

/-- When every provider the rule resolves to is filtered out, by the cross-app
requirement or by the tags, the query succeeds with no instance. -/
theorem FindInstances_filtered_out (cfg : ServerConfig) (r : Registry) (ctx : Context)
    (req : FindInstancesRequest) (consumer : MicroService)
    (hid : req.ConsumerServiceId ≠ "")
    (hcons : r.findServiceIn ctx.Domain ctx.Project req.ConsumerServiceId = some consumer)
    (hallow : ctx.crossTenant = false ∨ isGlobalVisible cfg req.ServiceName = true)
    (hsome : resolveProviders cfg r ctx req consumer.Environment ≠ [])
    (hnone : ∀ p ∈ resolveProviders cfg r ctx req consumer.Environment,
      accessibleTo (some consumer.AppId) p = false ∨ hasTags req.Tags p = false) :
    FindInstances cfg r ctx req =
      QueryResult.answer ctx.RequestRev []
        (responseRev (resolveProviders cfg r ctx req consumer.Environment) []) := by
  rw [FindInstances_of_consumer cfg r ctx req consumer hid hcons,
    findProviders_some cfg r ctx req _ _ hallow hsome,
    gatherInstances_none r _ _ _ hnone]
  rfl

theorem answer_code (requestRev : String) (instances : List MicroServiceInstance)
    (rev : String) : (QueryResult.answer requestRev instances rev).code = Code.ResponseSuccess := by
  unfold QueryResult.answer
  split <;> rfl

theorem answer_nil_instances (requestRev rev : String) :
    (QueryResult.answer requestRev [] rev).instances = [] := by
  unfold QueryResult.answer
  split <;> rfl

theorem resolveProviders_congr (cfg : ServerConfig) (r : Registry) (ctx ctx' : Context)
    (req req' : FindInstancesRequest) (env : String)
    (hd : ctx'.TargetDomain = ctx.TargetDomain) (hp : ctx'.TargetProject = ctx.TargetProject)
    (ha : req'.AppId = req.AppId) (hn : req'.ServiceName = req.ServiceName)
    (hv : req'.VersionRule = req.VersionRule) :
    resolveProviders cfg r ctx' req' env = resolveProviders cfg r ctx req env := by
  unfold resolveProviders
  rw [hd, hp, ha, hn, hv]

/-! ## Cross-app access and tags -/

/-- C13: a consumer whose appId differs from the provider's, querying providers
that exist but are not marked `allowCrossApp`, gets from `FindInstances` the
success code with zero instances, not `ServiceNotExists`; `BatchFind` places
such an item in `Updated`, under its request index, with an empty instance
list. -/
theorem FindInstances_cross_app_not_allowed (cfg : ServerConfig) (r : Registry)
    (ctx : Context) (req : FindInstancesRequest) (consumer : MicroService)
    (hid : req.ConsumerServiceId ≠ "")
    (hcons : r.findServiceIn ctx.Domain ctx.Project req.ConsumerServiceId = some consumer)
    (hallow : ctx.crossTenant = false ∨ isGlobalVisible cfg req.ServiceName = true)
    (happ : consumer.AppId ≠ req.AppId)
    (hsome : resolveProviders cfg r ctx req consumer.Environment ≠ [])
    (hmark : ∀ p ∈ resolveProviders cfg r ctx req consumer.Environment,
      p.allowCrossApp = false) :
    (FindInstances cfg r ctx req).code = Code.ResponseSuccess
      ∧ (FindInstances cfg r ctx req).instances = []
      ∧ (ctx.RequestRev = "" →
          FindInstances cfg r ctx req =
            QueryResult.updated []
              (responseRev (resolveProviders cfg r ctx req consumer.Environment) []))
      ∧ (∀ (b : BatchFindInstancesRequest) (i : Nat) (item : FindService),
          b.Services[i]? = some item →
          b.ConsumerServiceId = req.ConsumerServiceId →
          item.AppId = req.AppId → item.ServiceName = req.ServiceName →
          item.Version = req.VersionRule → item.Rev = "" →
          ({ Index := i,
             Rev := responseRev (resolveProviders cfg r ctx req consumer.Environment) [],
             Instances := [] } : FindResult) ∈ (BatchFind cfg r ctx b).Services.Updated) := by
  have hacc : ∀ (ctx' : Context) (req' : FindInstancesRequest),
      ctx'.TargetDomain = ctx.TargetDomain → ctx'.TargetProject = ctx.TargetProject →
      req'.AppId = req.AppId → req'.ServiceName = req.ServiceName →
      req'.VersionRule = req.VersionRule →
      ∀ p ∈ resolveProviders cfg r ctx' req' consumer.Environment,
        accessibleTo (some consumer.AppId) p = false ∨ hasTags req'.Tags p = false := by
    intro ctx' req' hd hp ha hn hv p hp'
    rw [resolveProviders_congr cfg r ctx ctx' req req' _ hd hp ha hn hv] at hp'
    have hc := mem_candidates _ _ _ _ _ _ p (mem_resolveProviders cfg r ctx req _ p hp')
    left
    simp [accessibleTo, hmark p hp', hc.2.2.2.2.1, happ]
  have hmain := FindInstances_filtered_out cfg r ctx req consumer hid hcons hallow hsome
    (hacc ctx req rfl rfl rfl rfl rfl)
  refine ⟨?_, ?_, ?_, ?_⟩
  · rw [hmain]
    exact answer_code _ _ _
  · rw [hmain]
    exact answer_nil_instances _ _
  · intro hrev
    rw [hmain, hrev]
    exact answer_of_ne _ _ _ (fun h => responseRev_ne_empty _ _ h.symm)
  · intro b i item hitem hb ha hn hv hrev
    apply BatchFind_services_updated cfg r ctx b i item _ _ hitem
    unfold findServiceItem
    have hcong := resolveProviders_congr cfg r ctx { ctx with RequestRev := item.Rev } req
      { ConsumerServiceId := b.ConsumerServiceId, AppId := item.AppId,
        ServiceName := item.ServiceName, VersionRule := item.Version }
      consumer.Environment rfl rfl ha hn hv
    have hitemAns := FindInstances_filtered_out cfg r { ctx with RequestRev := item.Rev }
      { ConsumerServiceId := b.ConsumerServiceId, AppId := item.AppId,
        ServiceName := item.ServiceName, VersionRule := item.Version } consumer
      (by rw [hb]; exact hid) (by rw [hb]; exact hcons)
      (by rw [hn]; exact hallow) (by rw [hcong]; exact hsome)
      (hacc _ _ rfl rfl ha hn hv)
    rw [hitemAns, hcong, hrev]
    exact answer_of_ne _ _ _ (fun h => responseRev_ne_empty _ _ h.symm)

theorem FindInstances_cross_app_not_allowed_witness :
    (FindInstances sampleConfig queryRegistry defaultContext
          (queryRequest "sid3" "1.0.5")).code = Code.ResponseSuccess
      ∧ (FindInstances sampleConfig queryRegistry defaultContext
          (queryRequest "sid3" "1.0.5")).instances = [] :=
  ⟨(FindInstances_cross_app_not_allowed sampleConfig queryRegistry defaultContext
      (queryRequest "sid3" "1.0.5") queryService3 (by decide) (by decide)
      (Or.inl (by decide)) (by decide) (by decide) (by decide)).1,
    (FindInstances_cross_app_not_allowed sampleConfig queryRegistry defaultContext
      (queryRequest "sid3" "1.0.5") queryService3 (by decide) (by decide)
      (Or.inl (by decide)) (by decide) (by decide) (by decide)).2.1⟩

/-- C18: a `FindInstances` query that names a tag which none of the matched
provider services has returns the success code with zero instances, not an
error. -/
theorem FindInstances_missing_tag (cfg : ServerConfig) (r : Registry) (ctx : Context)
    (req : FindInstancesRequest) (consumer : MicroService)
    (hid : req.ConsumerServiceId ≠ "")
    (hcons : r.findServiceIn ctx.Domain ctx.Project req.ConsumerServiceId = some consumer)
    (hallow : ctx.crossTenant = false ∨ isGlobalVisible cfg req.ServiceName = true)
    (hsome : resolveProviders cfg r ctx req consumer.Environment ≠ [])
    (htag : ∀ p ∈ resolveProviders cfg r ctx req consumer.Environment,
      ∃ t ∈ req.Tags, t ∉ p.Tags) :
    (FindInstances cfg r ctx req).code = Code.ResponseSuccess
      ∧ (FindInstances cfg r ctx req).instances = []
      ∧ (ctx.RequestRev = "" →
          FindInstances cfg r ctx req =
            QueryResult.updated []
              (responseRev (resolveProviders cfg r ctx req consumer.Environment) [])) := by
  have hnone : ∀ p ∈ resolveProviders cfg r ctx req consumer.Environment,
      accessibleTo (some consumer.AppId) p = false ∨ hasTags req.Tags p = false := by
    intro p hp
    obtain ⟨t, ht, hnt⟩ := htag p hp
    right
    unfold hasTags
    rw [List.all_eq_false]
    exact ⟨t, ht, by simpa using hnt⟩
  have hmain := FindInstances_filtered_out cfg r ctx req consumer hid hcons hallow hsome hnone
  refine ⟨?_, ?_, ?_⟩
  · rw [hmain]
    exact answer_code _ _ _
  · rw [hmain]
    exact answer_nil_instances _ _
  · intro hrev
    rw [hmain, hrev]
    exact answer_of_ne _ _ _ (fun h => responseRev_ne_empty _ _ h.symm)

theorem FindInstances_missing_tag_witness :
    (FindInstances sampleConfig queryRegistry defaultContext
          { queryRequest "sid1" "latest" with Tags := ["not_exist_tag"] }).code
        = Code.ResponseSuccess
      ∧ (FindInstances sampleConfig queryRegistry defaultContext
          { queryRequest "sid1" "latest" with Tags := ["not_exist_tag"] }).instances = [] :=
  ⟨(FindInstances_missing_tag sampleConfig queryRegistry defaultContext
      { queryRequest "sid1" "latest" with Tags := ["not_exist_tag"] } queryService1
      (by decide) (by decide) (Or.inl (by decide)) (by decide) (by decide)).1,
    (FindInstances_missing_tag sampleConfig queryRegistry defaultContext
      { queryRequest "sid1" "latest" with Tags := ["not_exist_tag"] } queryService1
      (by decide) (by decide) (Or.inl (by decide)) (by decide) (by decide)).2.1⟩

/-! ## Visibility across tenants -/

/-- A cross-(domain, project) query for a provider outside the global-visible set
is denied, whoever the consumer is. -/
theorem FindInstances_denied (cfg : ServerConfig) (r : Registry) (ctx : Context)
    (req : FindInstancesRequest) (hcross : ctx.crossTenant = true)
    (hglobal : isGlobalVisible cfg req.ServiceName = false) :
    FindInstances cfg r ctx req = QueryResult.failed Code.ErrServiceNotExists := by
  unfold FindInstances
  split
  · exact findProviders_denied cfg r ctx req _ _ hcross hglobal
  · split
    · rfl
    · exact findProviders_denied cfg r ctx req _ _ hcross hglobal

/-- A query that resolves to no provider fails with `ServiceNotExists`, whoever
the consumer is. -/
theorem FindInstances_no_provider (cfg : ServerConfig) (r : Registry) (ctx : Context)
    (req : FindInstancesRequest)
    (hnone : ∀ env, resolveProviders cfg r ctx req env = []) :
    FindInstances cfg r ctx req = QueryResult.failed Code.ErrServiceNotExists := by
  unfold FindInstances
  split
  · exact findProviders_none cfg r ctx req _ _ (hnone _)
  · split
    · rfl
    · exact findProviders_none cfg r ctx req _ _ (hnone _)

/-- C14: a `FindInstances` query whose consumer (domain, project) differs from the
provider's gets `ServiceNotExists` when the provider's service name is not in
the global-visible set, and also when it is but the tenant has no such
provider in the production environment.  When the name is in the set and there
are such providers in production, the query is answered like a query of the
provider's own tenant: on the normal path (consumer of the provider's appId,
no tag, no request revision) the instances of the resolved providers, all of
them production services of the target tenant, are returned. -/
theorem FindInstances_cross_tenant (cfg : ServerConfig) (r : Registry) (ctx : Context)
    (req : FindInstancesRequest) (hcross : ctx.crossTenant = true) :
    (isGlobalVisible cfg req.ServiceName = false →
        FindInstances cfg r ctx req = QueryResult.failed Code.ErrServiceNotExists)
      ∧ ((∀ p ∈ r.services, p.Domain = ctx.TargetDomain → p.Project = ctx.TargetProject →
            p.AppId = req.AppId → p.ServiceName = req.ServiceName →
            p.Environment ≠ ENV_PROD) →
          FindInstances cfg r ctx req = QueryResult.failed Code.ErrServiceNotExists)
      ∧ (∀ consumer : MicroService,
          isGlobalVisible cfg req.ServiceName = true →
          req.ConsumerServiceId ≠ "" →
          r.findServiceIn ctx.Domain ctx.Project req.ConsumerServiceId = some consumer →
          consumer.AppId = req.AppId → req.Tags = [] → ctx.RequestRev = "" →
          resolveProviders cfg r ctx req consumer.Environment ≠ [] →
          (∀ p ∈ resolveProviders cfg r ctx req consumer.Environment,
              p.Environment = ENV_PROD ∧ p.Domain = ctx.TargetDomain
                ∧ p.Project = ctx.TargetProject ∧ p.ServiceName = req.ServiceName)
            ∧ FindInstances cfg r ctx req =
              QueryResult.updated
                (((resolveProviders cfg r ctx req consumer.Environment).map
                    (fun p => r.instancesOf p.ServiceId)).flatten.map (fun x => x.inst))
                (responseRev (resolveProviders cfg r ctx req consumer.Environment)
                  ((resolveProviders cfg r ctx req consumer.Environment).map
                    (fun p => r.instancesOf p.ServiceId)).flatten)) := by
  refine ⟨?_, ?_, ?_⟩
  · intro hglobal
    exact FindInstances_denied cfg r ctx req hcross hglobal
  · intro hnoprod
    by_cases hglobal : isGlobalVisible cfg req.ServiceName = true
    · apply FindInstances_no_provider
      intro env
      cases hres : resolveProviders cfg r ctx req env with
      | nil => rfl
      | cons p ps =>
        have hp : p ∈ resolveProviders cfg r ctx req env := by
          rw [hres]
          exact List.mem_cons_self p ps
        have hc := mem_candidates _ _ _ _ _ _ p (mem_resolveProviders cfg r ctx req env p hp)
        have henv : p.Environment = ENV_PROD := by
          rw [hc.2.2.2.1]
          simp [lookupEnv, hglobal]
        exact absurd henv (hnoprod p hc.1 hc.2.1 hc.2.2.1 hc.2.2.2.2.1 hc.2.2.2.2.2)
    · exact FindInstances_denied cfg r ctx req hcross (by simpa using hglobal)
  · intro consumer hglobal hid hcons happ htags hrev hsome
    refine ⟨?_, ?_⟩
    · intro p hp
      have hc := mem_candidates _ _ _ _ _ _ p (mem_resolveProviders cfg r ctx req _ p hp)
      refine ⟨?_, hc.2.1, hc.2.2.1, hc.2.2.2.2.2⟩
      rw [hc.2.2.2.1]
      simp [lookupEnv, hglobal]
    · exact FindInstances_normal_path cfg r ctx req consumer hid hcons (Or.inr hglobal)
        happ htags hrev hsome

theorem FindInstances_cross_tenant_witness :
    FindInstances sampleConfig queryRegistry userContext
          { ConsumerServiceId := "sid6", AppId := "default",
            ServiceName := "query_instance_shared_provider_ms", VersionRule := "1.0.0" }
        = QueryResult.failed Code.ErrServiceNotExists
      ∧ FindInstances sharedConfig queryRegistry userContext
          { ConsumerServiceId := "sid6", AppId := "default",
            ServiceName := "query_instance_shared_provider_ms", VersionRule := "1.0.0" }
        = QueryResult.updated [(testInstance "iid5" "sid5" "find:127.0.0.5:8080" 13).inst] "13" :=
  ⟨(FindInstances_cross_tenant sampleConfig queryRegistry userContext
      { ConsumerServiceId := "sid6", AppId := "default",
        ServiceName := "query_instance_shared_provider_ms", VersionRule := "1.0.0" }
      (by decide)).1 (by decide),
    ((FindInstances_cross_tenant sharedConfig queryRegistry userContext
      { ConsumerServiceId := "sid6", AppId := "default",
        ServiceName := "query_instance_shared_provider_ms", VersionRule := "1.0.0" }
      (by decide)).2.2
      { testService "sid6" "" "default" "query_instance_diff_domain_consumer_ms" "1.0.0" 6
        with Domain := "user", Project := "user" }
      (by decide) (by decide) (by decide) (by decide) (by decide) (by decide)
      (by decide)).2⟩

/-! ## Lemmas on revisions -/

theorem RevisionDriven.notModified_of_rev {query : String → QueryResult}
    (h : RevisionDriven query) (x : String) (hx : (query x).rev = some x) :
    query x = QueryResult.notModified x := by
  rcases h with ⟨c, hc⟩ | ⟨is, rev, _, hq⟩
  · rw [hc x] at hx
    cases hx
  · rw [hq x] at hx ⊢
    unfold QueryResult.answer at hx ⊢
    split at hx
    · rename_i heq
      simp [heq]
    · rename_i hne
      simp only [QueryResult.rev, Option.some.injEq] at hx
      exact absurd hx.symm hne

theorem RevisionDriven.of_updated {query : String → QueryResult}
    (h : RevisionDriven query) (x : String) (is : List MicroServiceInstance) (rev : String)
    (hx : query x = QueryResult.updated is rev) :
    rev ≠ "" ∧ query rev = QueryResult.notModified rev
      ∧ ∀ y, y ≠ rev → query y = QueryResult.updated is rev := by
  rcases h with ⟨c, hc⟩ | ⟨is', rev', hne, hq⟩
  · rw [hc x] at hx
    cases hx
  · rw [hq x] at hx
    unfold QueryResult.answer at hx
    split at hx
    · cases hx
    · obtain ⟨his, hrev⟩ := QueryResult.updated.inj hx
      subst his
      subst hrev
      refine ⟨hne, ?_, ?_⟩
      · rw [hq]
        exact answer_of_eq _ _
      · intro y hy
        rw [hq]
        exact answer_of_ne _ _ _ hy

theorem RevisionDriven.rev_eq {query : String → QueryResult}
    (h : RevisionDriven query) (x y : String) : (query x).rev = (query y).rev := by
  rcases h with ⟨c, hc⟩ | ⟨is, rev, _, hq⟩
  · rw [hc x, hc y]
  · have hrev : ∀ z, (QueryResult.answer z is rev).rev = some rev := by
      intro z
      unfold QueryResult.answer
      split <;> rfl
    rw [hq x, hq y, hrev, hrev]

theorem findProviders_revisionDriven (cfg : ServerConfig) (r : Registry) (ctx : Context)
    (req : FindInstancesRequest) (env : String) (app : Option String) :
    RevisionDriven
      (fun requestRev => findProviders cfg r { ctx with RequestRev := requestRev } req env app) := by
  have hres : ∀ y, resolveProviders cfg r { ctx with RequestRev := y } req env
      = resolveProviders cfg r ctx req env := fun _ => rfl
  have hcross : ∀ y, ({ ctx with RequestRev := y } : Context).crossTenant = ctx.crossTenant :=
    fun _ => rfl
  by_cases hgate : (ctx.crossTenant && !isGlobalVisible cfg req.ServiceName) = true
  · left
    refine ⟨Code.ErrServiceNotExists, fun y => ?_⟩
    simp only [findProviders, hcross, hgate, if_true]
  · by_cases hemp : (resolveProviders cfg r ctx req env).isEmpty = true
    · left
      refine ⟨Code.ErrServiceNotExists, fun y => ?_⟩
      simp only [findProviders, hcross, hres, hgate, hemp, if_true, if_false,
        Bool.false_eq_true]
    · right
      refine ⟨(gatherInstances r app req.Tags (resolveProviders cfg r ctx req env)).map
          (fun x => x.inst),
        responseRev (resolveProviders cfg r ctx req env)
          (gatherInstances r app req.Tags (resolveProviders cfg r ctx req env)),
        responseRev_ne_empty _ _, fun y => ?_⟩
      simp only [findProviders, hcross, hres, hgate, hemp, if_false, Bool.false_eq_true]

theorem FindInstances_revisionDriven (cfg : ServerConfig) (r : Registry) (ctx : Context)
    (req : FindInstancesRequest) :
    RevisionDriven
      (fun requestRev => FindInstances cfg r { ctx with RequestRev := requestRev } req) := by
  by_cases hid : req.ConsumerServiceId = ""
  · have hfun : (fun y => FindInstances cfg r { ctx with RequestRev := y } req) =
        (fun y => findProviders cfg r { ctx with RequestRev := y } req req.Environment none) :=
      funext (fun y => by simp [FindInstances, hid])
    rw [hfun]
    exact findProviders_revisionDriven cfg r ctx req _ _
  · cases hcons : r.findServiceIn ctx.Domain ctx.Project req.ConsumerServiceId with
    | none =>
      exact Or.inl ⟨Code.ErrServiceNotExists, fun y => by simp [FindInstances, hid, hcons]⟩
    | some consumer =>
      have hfun : (fun y => FindInstances cfg r { ctx with RequestRev := y } req) =
          (fun y => findProviders cfg r { ctx with RequestRev := y } req consumer.Environment
            (some consumer.AppId)) :=
        funext (fun y => by simp [FindInstances, hid, hcons])
      rw [hfun]
      exact findProviders_revisionDriven cfg r ctx req _ _

theorem GetInstances_revisionDriven (cfg : ServerConfig) (r : Registry) (ctx : Context)
    (req : GetInstancesRequest) :
    RevisionDriven
      (fun requestRev => GetInstances cfg r { ctx with RequestRev := requestRev } req) := by
  cases hcons : r.findServiceIn ctx.Domain ctx.Project req.ConsumerServiceId with
  | none => exact Or.inl ⟨Code.ErrServiceNotExists, fun y => by simp [GetInstances, hcons]⟩
  | some consumer =>
    cases hprov : r.findService req.ProviderServiceId with
    | none =>
      exact Or.inl ⟨Code.ErrServiceNotExists, fun y => by simp [GetInstances, hcons, hprov]⟩
    | some provider =>
      by_cases hvis : visible cfg consumer provider = true
      · right
        exact ⟨(r.instancesOf provider.ServiceId).map (fun x => x.inst),
          responseRev [provider] (r.instancesOf provider.ServiceId),
          responseRev_ne_empty _ _, fun y => by simp [GetInstances, hcons, hprov, hvis]⟩
      · left
        exact ⟨Code.ErrServiceNotExists, fun y => by simp [GetInstances, hcons, hprov, hvis]⟩

theorem GetInstance_revisionDriven (cfg : ServerConfig) (r : Registry) (ctx : Context)
    (req : GetOneInstanceRequest) :
    RevisionDriven
      (fun requestRev => GetInstance cfg r { ctx with RequestRev := requestRev } req) := by
  cases hcons : r.findServiceIn ctx.Domain ctx.Project req.ConsumerServiceId with
  | none => exact Or.inl ⟨Code.ErrServiceNotExists, fun y => by simp [GetInstance, hcons]⟩
  | some consumer =>
    cases hprov : r.findService req.ProviderServiceId with
    | none =>
      exact Or.inl ⟨Code.ErrServiceNotExists, fun y => by simp [GetInstance, hcons, hprov]⟩
    | some provider =>
      by_cases hvis : visible cfg consumer provider = true
      · cases hinst : r.findInstance provider.ServiceId req.ProviderInstanceId with
        | none =>
          exact Or.inl ⟨Code.ErrInstanceNotExists,
            fun y => by simp [GetInstance, hcons, hprov, hvis, hinst]⟩
        | some x =>
          right
          exact ⟨[x.inst], responseRev [provider] [x], responseRev_ne_empty _ _,
            fun y => by simp [GetInstance, hcons, hprov, hvis, hinst]⟩
      · by_cases hten : sameTenant consumer provider = true
        · exact Or.inl ⟨Code.ErrInstanceNotExists,
            fun y => by simp [GetInstance, hcons, hprov, hvis, hten]⟩
        · exact Or.inl ⟨Code.ErrServiceNotExists,
            fun y => by simp [GetInstance, hcons, hprov, hvis, hten]⟩

/-! ## Lemmas on the items of a batch -/

theorem classify_map_updated {α : Type} (f : α → QueryResult) (l : List α) (e : FindResult) :
    e ∈ (classify (l.map f)).Updated ↔
      ∃ a, l[e.Index]? = some a ∧ f a = QueryResult.updated e.Instances e.Rev := by
  rw [classify_updated, List.getElem?_map, Option.map_eq_some']

theorem classify_map_notModified {α : Type} (f : α → QueryResult) (l : List α) (i : Nat) :
    i ∈ (classify (l.map f)).NotModified ↔
      ∃ a rev, l[i]? = some a ∧ f a = QueryResult.notModified rev := by
  rw [classify_notModified]
  simp only [List.getElem?_map, Option.map_eq_some']
  constructor
  · rintro ⟨rev, a, ha, hf⟩
    exact ⟨a, rev, ha, hf⟩
  · rintro ⟨a, rev, ha, hf⟩
    exact ⟨rev, a, ha, hf⟩

theorem classify_map_failed {α : Type} (f : α → QueryResult) (l : List α) (i : Nat)
    (c : Code) :
    failedAt (classify (l.map f)).Failed i c ↔
      ∃ a, l[i]? = some a ∧ f a = QueryResult.failed c := by
  rw [classify_failed, List.getElem?_map, Option.map_eq_some']

theorem classify_map_indexes {α : Type} (f : α → QueryResult) (l : List α) :
    (classify (l.map f)).indexes.Perm (List.range l.length) := by
  have h := classify_indexes_perm (l.map f)
  simpa using h

theorem findServiceItem_revisionDriven (cfg : ServerConfig) (r : Registry) (ctx : Context)
    (consumerServiceId : String) (item : FindService) :
    RevisionDriven
      (fun requestRev =>
        findServiceItem cfg r ctx consumerServiceId { item with Rev := requestRev }) :=
  FindInstances_revisionDriven cfg r ctx
    { ConsumerServiceId := consumerServiceId, AppId := item.AppId,
      ServiceName := item.ServiceName, VersionRule := item.Version }

theorem findInstanceItem_revisionDriven (cfg : ServerConfig) (r : Registry) (ctx : Context)
    (consumerServiceId : String) (item : FindInstance) :
    RevisionDriven
      (fun requestRev =>
        findInstanceItem cfg r ctx consumerServiceId { item with Rev := requestRev }) :=
  GetInstance_revisionDriven cfg r ctx
    { ConsumerServiceId := consumerServiceId, ProviderServiceId := item.ServiceId,
      ProviderInstanceId := item.InstanceId }

/-! ## Revisions -/

/-- C15: a discovery query (`FindInstances`, `GetInstances`, `GetInstance`) whose
request revision equals the revision computed for its result is answered
NotModified, which carries no instance; in particular a second call that sends
the revision of a first answer is NotModified.  In `BatchFind` a services item
or an instances item whose revision equals the computed one is listed in
`NotModified` under its request index and has no entry in `Updated`. -/
theorem discovery_not_modified_on_equal_revision (cfg : ServerConfig) (r : Registry)
    (ctx : Context) :
    (∀ req, (FindInstances cfg r ctx req).rev = some ctx.RequestRev →
        FindInstances cfg r ctx req = QueryResult.notModified ctx.RequestRev)
      ∧ (∀ req, (GetInstances cfg r ctx req).rev = some ctx.RequestRev →
        GetInstances cfg r ctx req = QueryResult.notModified ctx.RequestRev)
      ∧ (∀ req, (GetInstance cfg r ctx req).rev = some ctx.RequestRev →
        GetInstance cfg r ctx req = QueryResult.notModified ctx.RequestRev)
      ∧ (∀ req is rev, FindInstances cfg r ctx req = QueryResult.updated is rev →
        FindInstances cfg r { ctx with RequestRev := rev } req = QueryResult.notModified rev)
      ∧ (∀ (b : BatchFindInstancesRequest) (i : Nat) (item : FindService),
          b.Services[i]? = some item →
          (findServiceItem cfg r ctx b.ConsumerServiceId item).rev = some item.Rev →
          i ∈ (BatchFind cfg r ctx b).Services.NotModified
            ∧ ∀ e ∈ (BatchFind cfg r ctx b).Services.Updated, e.Index ≠ i)
      ∧ (∀ (b : BatchFindInstancesRequest) (i : Nat) (item : FindInstance),
          b.Instances[i]? = some item →
          (findInstanceItem cfg r ctx b.ConsumerServiceId item).rev = some item.Rev →
          i ∈ (BatchFind cfg r ctx b).Instances.NotModified
            ∧ ∀ e ∈ (BatchFind cfg r ctx b).Instances.Updated, e.Index ≠ i) := by
  refine ⟨?_, ?_, ?_, ?_, ?_, ?_⟩
  · intro req hrev
    exact (FindInstances_revisionDriven cfg r ctx req).notModified_of_rev ctx.RequestRev hrev
  · intro req hrev
    exact (GetInstances_revisionDriven cfg r ctx req).notModified_of_rev ctx.RequestRev hrev
  · intro req hrev
    exact (GetInstance_revisionDriven cfg r ctx req).notModified_of_rev ctx.RequestRev hrev
  · intro req is rev hup
    exact ((FindInstances_revisionDriven cfg r ctx req).of_updated ctx.RequestRev is rev hup).2.1
  · intro b i item hitem hrev
    have hnm : findServiceItem cfg r ctx b.ConsumerServiceId item
        = QueryResult.notModified item.Rev :=
      (findServiceItem_revisionDriven cfg r ctx b.ConsumerServiceId item).notModified_of_rev
        item.Rev hrev
    refine ⟨?_, ?_⟩
    · unfold BatchFind
      exact (classify_map_notModified _ _ i).mpr ⟨item, item.Rev, hitem, hnm⟩
    · intro e he hei
      unfold BatchFind at he
      obtain ⟨a, ha, hfa⟩ := (classify_map_updated _ _ e).mp he
      rw [hei, hitem] at ha
      cases ha
      rw [hnm] at hfa
      cases hfa
  · intro b i item hitem hrev
    have hnm : findInstanceItem cfg r ctx b.ConsumerServiceId item
        = QueryResult.notModified item.Rev :=
      (findInstanceItem_revisionDriven cfg r ctx b.ConsumerServiceId item).notModified_of_rev
        item.Rev hrev
    refine ⟨?_, ?_⟩
    · unfold BatchFind
      exact (classify_map_notModified _ _ i).mpr ⟨item, item.Rev, hitem, hnm⟩
    · intro e he hei
      unfold BatchFind at he
      obtain ⟨a, ha, hfa⟩ := (classify_map_updated _ _ e).mp he
      rw [hei, hitem] at ha
      cases ha
      rw [hnm] at hfa
      cases hfa

theorem discovery_not_modified_on_equal_revision_witness :
    FindInstances sampleConfig queryRegistry { defaultContext with RequestRev := "14" }
        { ConsumerServiceId := "sid8", AppId := "query_instance_ms",
          ServiceName := "query_instance_with_rev_ms", VersionRule := "1.0.0" }
      = QueryResult.notModified "14" :=
  (discovery_not_modified_on_equal_revision sampleConfig queryRegistry
    { defaultContext with RequestRev := "14" }).1
    { ConsumerServiceId := "sid8", AppId := "query_instance_ms",
      ServiceName := "query_instance_with_rev_ms", VersionRule := "1.0.0" } (by decide)

/-- C16: revision determinism.  The response revision of `FindInstances` is a
function of the registry and of the query alone: it is the same whatever
request revision the caller sends and whether or not the cache is bypassed, so
two calls with no state change in between return equal revisions.  A call
whose request revision does not match the computed one returns the full
instance list together with that same revision, which is never empty.  The
same holds for the items of `BatchFind`: changing the revision an item sends
to any non-matching value leaves its `Updated` entry as it is. -/
theorem discovery_revision_deterministic (cfg : ServerConfig) (r : Registry)
    (ctx : Context) (req : FindInstancesRequest) :
    (∀ (noCache : Bool) (x : String),
        (FindInstances cfg r { ctx with NoCache := noCache, RequestRev := x } req).rev
          = (FindInstances cfg r ctx req).rev)
      ∧ (∀ is rev, FindInstances cfg r ctx req = QueryResult.updated is rev →
          rev ≠ "" ∧ ∀ x, x ≠ rev →
            FindInstances cfg r { ctx with RequestRev := x } req = QueryResult.updated is rev)
      ∧ (∀ (b : BatchFindInstancesRequest) (i : Nat) (item : FindService)
          (is : List MicroServiceInstance) (rev x : String),
          b.Services[i]? = some item →
          ({ Index := i, Rev := rev, Instances := is } : FindResult)
            ∈ (BatchFind cfg r ctx b).Services.Updated →
          rev ≠ "" ∧ (x ≠ rev →
            ({ Index := i, Rev := rev, Instances := is } : FindResult)
              ∈ (BatchFind cfg r ctx
                  { b with Services := b.Services.set i { item with Rev := x } }).Services.Updated))
      ∧ (∀ (b : BatchFindInstancesRequest) (i : Nat) (item : FindInstance)
          (is : List MicroServiceInstance) (rev x : String),
          b.Instances[i]? = some item →
          ({ Index := i, Rev := rev, Instances := is } : FindResult)
            ∈ (BatchFind cfg r ctx b).Instances.Updated →
          rev ≠ "" ∧ (x ≠ rev →
            ({ Index := i, Rev := rev, Instances := is } : FindResult)
              ∈ (BatchFind cfg r ctx
                  { b with Instances := b.Instances.set i { item with Rev := x } }).Instances.Updated)) := by
  refine ⟨?_, ?_, ?_, ?_⟩
  · intro noCache x
    have hnc : FindInstances cfg r { ctx with NoCache := noCache, RequestRev := x } req
        = FindInstances cfg r { ctx with RequestRev := x } req := rfl
    rw [hnc]
    exact (FindInstances_revisionDriven cfg r ctx req).rev_eq x ctx.RequestRev
  · intro is rev hup
    have h := (FindInstances_revisionDriven cfg r ctx req).of_updated ctx.RequestRev is rev hup
    exact ⟨h.1, h.2.2⟩
  · intro b i item is rev x hitem he
    unfold BatchFind at he
    obtain ⟨a, ha, hfa⟩ := (classify_map_updated _ _ _).mp he
    have hai : a = item := by
      have : some a = some item := by rw [← ha, ← hitem]
      exact Option.some.inj this
    subst hai
    have h := (findServiceItem_revisionDriven cfg r ctx b.ConsumerServiceId a).of_updated
      a.Rev is rev hfa
    refine ⟨h.1, fun hx => ?_⟩
    unfold BatchFind
    refine (classify_map_updated _ _ _).mpr ⟨{ a with Rev := x }, ?_, h.2.2 x hx⟩
    have hlt : i < b.Services.length := by
      rcases Nat.lt_or_ge i b.Services.length with hlt | hge
      · exact hlt
      · rw [List.getElem?_eq_none hge] at hitem
        cases hitem
    simp [hlt]
  · intro b i item is rev x hitem he
    unfold BatchFind at he
    obtain ⟨a, ha, hfa⟩ := (classify_map_updated _ _ _).mp he
    have hai : a = item := by
      have : some a = some item := by rw [← ha, ← hitem]
      exact Option.some.inj this
    subst hai
    have h := (findInstanceItem_revisionDriven cfg r ctx b.ConsumerServiceId a).of_updated
      a.Rev is rev hfa
    refine ⟨h.1, fun hx => ?_⟩
    unfold BatchFind
    refine (classify_map_updated _ _ _).mpr ⟨{ a with Rev := x }, ?_, h.2.2 x hx⟩
    have hlt : i < b.Instances.length := by
      rcases Nat.lt_or_ge i b.Instances.length with hlt | hge
      · exact hlt
      · rw [List.getElem?_eq_none hge] at hitem
        cases hitem
    simp [hlt]

theorem discovery_revision_deterministic_witness :
    ("14" : String) ≠ "" ∧
      FindInstances sampleConfig queryRegistry { defaultContext with RequestRev := "x" }
          { ConsumerServiceId := "sid8", AppId := "query_instance_ms",
            ServiceName := "query_instance_with_rev_ms", VersionRule := "1.0.0" }
        = QueryResult.updated [(testInstance "iid8" "sid8" "find:127.0.0.8:8080" 14).inst] "14" :=
  ⟨((discovery_revision_deterministic sampleConfig queryRegistry defaultContext
      { ConsumerServiceId := "sid8", AppId := "query_instance_ms",
        ServiceName := "query_instance_with_rev_ms", VersionRule := "1.0.0" }).2.1
      [(testInstance "iid8" "sid8" "find:127.0.0.8:8080" 14).inst] "14" (by decide)).1,
    ((discovery_revision_deterministic sampleConfig queryRegistry defaultContext
      { ConsumerServiceId := "sid8", AppId := "query_instance_ms",
        ServiceName := "query_instance_with_rev_ms", VersionRule := "1.0.0" }).2.1
      [(testInstance "iid8" "sid8" "find:127.0.0.8:8080" 14).inst] "14" (by decide)).2 "x"
      (by decide)⟩

/-! ## Batches -/

/-- C17: `BatchFind` answers every item on its own and the batch succeeds whatever
the items do.  Every request index of the services items, and of the instances
items, is recorded exactly once over `Updated`, `NotModified` and `Failed`; an
item is in `Updated`, with `Index` equal to its request index, exactly when its
answer carries instances, in `NotModified` exactly when its answer is not
modified, and in `Failed` under a code exactly when its answer failed with that
code.  In particular a services item that resolves to no service is in
`Failed` with its request index and `ServiceNotExists`. -/
theorem BatchFind_classifies_by_index (cfg : ServerConfig) (r : Registry) (ctx : Context)
    (b : BatchFindInstancesRequest) :
    (BatchFind cfg r ctx b).code = Code.ResponseSuccess
      ∧ (BatchFind cfg r ctx b).Services.indexes.Perm (List.range b.Services.length)
      ∧ (BatchFind cfg r ctx b).Instances.indexes.Perm (List.range b.Instances.length)
      ∧ (∀ e, e ∈ (BatchFind cfg r ctx b).Services.Updated ↔
          ∃ item, b.Services[e.Index]? = some item
            ∧ findServiceItem cfg r ctx b.ConsumerServiceId item
              = QueryResult.updated e.Instances e.Rev)
      ∧ (∀ i, i ∈ (BatchFind cfg r ctx b).Services.NotModified ↔
          ∃ item rev, b.Services[i]? = some item
            ∧ findServiceItem cfg r ctx b.ConsumerServiceId item = QueryResult.notModified rev)
      ∧ (∀ i c, failedAt (BatchFind cfg r ctx b).Services.Failed i c ↔
          ∃ item, b.Services[i]? = some item
            ∧ findServiceItem cfg r ctx b.ConsumerServiceId item = QueryResult.failed c)
      ∧ (∀ e, e ∈ (BatchFind cfg r ctx b).Instances.Updated ↔
          ∃ item, b.Instances[e.Index]? = some item
            ∧ findInstanceItem cfg r ctx b.ConsumerServiceId item
              = QueryResult.updated e.Instances e.Rev)
      ∧ (∀ i, i ∈ (BatchFind cfg r ctx b).Instances.NotModified ↔
          ∃ item rev, b.Instances[i]? = some item
            ∧ findInstanceItem cfg r ctx b.ConsumerServiceId item = QueryResult.notModified rev)
      ∧ (∀ i c, failedAt (BatchFind cfg r ctx b).Instances.Failed i c ↔
          ∃ item, b.Instances[i]? = some item
            ∧ findInstanceItem cfg r ctx b.ConsumerServiceId item = QueryResult.failed c)
      ∧ (∀ i item consumer, b.Services[i]? = some item →
          b.ConsumerServiceId ≠ "" →
          r.findServiceIn ctx.Domain ctx.Project b.ConsumerServiceId = some consumer →
          resolveProviders cfg r ctx
              { ConsumerServiceId := b.ConsumerServiceId, AppId := item.AppId,
                ServiceName := item.ServiceName, VersionRule := item.Version }
              consumer.Environment = [] →
          failedAt (BatchFind cfg r ctx b).Services.Failed i Code.ErrServiceNotExists) := by
  refine ⟨rfl, ?_, ?_, ?_, ?_, ?_, ?_, ?_, ?_, ?_⟩
  · exact classify_map_indexes _ _
  · exact classify_map_indexes _ _
  · exact fun e => classify_map_updated _ _ e
  · exact fun i => classify_map_notModified _ _ i
  · exact fun i c => classify_map_failed _ _ i c
  · exact fun e => classify_map_updated _ _ e
  · exact fun i => classify_map_notModified _ _ i
  · exact fun i c => classify_map_failed _ _ i c
  · intro i item consumer hitem hid hcons hnone
    refine (classify_map_failed _ _ i _).mpr ⟨item, hitem, ?_⟩
    unfold findServiceItem
    rw [FindInstances_of_consumer cfg r { ctx with RequestRev := item.Rev } _ consumer hid hcons]
    exact findProviders_none cfg r { ctx with RequestRev := item.Rev } _ _ _ hnone

theorem BatchFind_classifies_by_index_witness :
    failedAt
      (BatchFind sampleConfig queryRegistry defaultContext
        { ConsumerServiceId := "sid1",
          Services :=
            [{ AppId := "query_instance_ms", ServiceName := "query_instance_service_ms",
               Version := "latest" },
             { AppId := "query_instance_ms", ServiceName := "query_instance_service_ms",
               Version := "1.0.0+" },
             { AppId := "query_instance_ms", ServiceName := "query_instance_service_ms",
               Version := "0.0.0" }] }).Services.Failed
      2 Code.ErrServiceNotExists :=
  (BatchFind_classifies_by_index sampleConfig queryRegistry defaultContext
    { ConsumerServiceId := "sid1",
      Services :=
        [{ AppId := "query_instance_ms", ServiceName := "query_instance_service_ms",
           Version := "latest" },
         { AppId := "query_instance_ms", ServiceName := "query_instance_service_ms",
           Version := "1.0.0+" },
         { AppId := "query_instance_ms", ServiceName := "query_instance_service_ms",
           Version := "0.0.0" }] }).2.2.2.2.2.2.2.2.2
    2 { AppId := "query_instance_ms", ServiceName := "query_instance_service_ms",
        Version := "0.0.0" } queryService1 (by decide) (by decide) (by decide) (by decide)

/-! ## Instance ids and direct lookups -/

/-- C20, as amended: a direct lookup that the visibility rules deny never returns
`PermissionDenied`.  `GetInstances` returns `ServiceNotExists`; `GetInstance`
returns `ServiceNotExists` when the provider is in another (domain, project)
and `InstanceNotExists` when it is in the consumer's own.  The lookup is denied
in particular when the provider is not global-visible and either the appIds
differ and the provider is not marked `allowCrossApp`, or the environments
differ. -/
theorem direct_lookup_denied (cfg : ServerConfig) (r : Registry) (ctx : Context)
    (consumerId providerId instanceId : String) (consumer provider : MicroService)
    (hcons : r.findServiceIn ctx.Domain ctx.Project consumerId = some consumer)
    (hprov : r.findService providerId = some provider)
    (hvis : visible cfg consumer provider = false) :
    GetInstances cfg r ctx
        { ConsumerServiceId := consumerId, ProviderServiceId := providerId }
        = QueryResult.failed Code.ErrServiceNotExists
      ∧ (sameTenant consumer provider = false →
          GetInstance cfg r ctx
            { ConsumerServiceId := consumerId, ProviderServiceId := providerId,
              ProviderInstanceId := instanceId }
            = QueryResult.failed Code.ErrServiceNotExists)
      ∧ (sameTenant consumer provider = true →
          GetInstance cfg r ctx
            { ConsumerServiceId := consumerId, ProviderServiceId := providerId,
              ProviderInstanceId := instanceId }
            = QueryResult.failed Code.ErrInstanceNotExists)
      ∧ (GetInstances cfg r ctx
          { ConsumerServiceId := consumerId, ProviderServiceId := providerId }).code
          ≠ Code.ErrPermissionDenied
      ∧ (GetInstance cfg r ctx
          { ConsumerServiceId := consumerId, ProviderServiceId := providerId,
            ProviderInstanceId := instanceId }).code ≠ Code.ErrPermissionDenied
      ∧ (∀ c p : MicroService, isGlobalVisible cfg p.ServiceName = false →
          ((c.AppId ≠ p.AppId ∧ p.allowCrossApp = false) ∨ c.Environment ≠ p.Environment) →
          visible cfg c p = false) := by
  have hall : GetInstances cfg r ctx
      { ConsumerServiceId := consumerId, ProviderServiceId := providerId }
      = QueryResult.failed Code.ErrServiceNotExists := by
    simp [GetInstances, hcons, hprov, hvis]
  have hone : GetInstance cfg r ctx
      { ConsumerServiceId := consumerId, ProviderServiceId := providerId,
        ProviderInstanceId := instanceId }
      = (if sameTenant consumer provider then QueryResult.failed Code.ErrInstanceNotExists
        else QueryResult.failed Code.ErrServiceNotExists) := by
    simp [GetInstance, hcons, hprov, hvis]
  refine ⟨hall, ?_, ?_, ?_, ?_, ?_⟩
  · intro hten
    rw [hone]
    simp [hten]
  · intro hten
    rw [hone]
    simp [hten]
  · rw [hall]
    simp [QueryResult.code]
  · rw [hone]
    split <;> simp [QueryResult.code]
  · intro c p hglobal hdiff
    unfold visible
    rw [hglobal]
    rcases hdiff with ⟨happ, hmark⟩ | henv
    · simp [happ, hmark]
    · simp [henv]

theorem direct_lookup_denied_witness :
    GetInstances sampleConfig getOneRegistry defaultContext
        { ConsumerServiceId := "sid3", ProviderServiceId := "sid2" }
        = QueryResult.failed Code.ErrServiceNotExists :=
  (direct_lookup_denied sampleConfig getOneRegistry defaultContext "sid3" "sid2" "iid2"
    (testService "sid3" "" "get_instance_cross_ms" "get_instance_service_ms" "1.0.0" 4)
    (testService "sid2" "" "get_instance_ms" "get_instance_service_ms" "1.0.5" 2)
    (by decide) (by decide) (by decide)).1

/-- C20, counterexample: in the registry of `TestInstance_GetOne` the consumer of
app `get_instance_cross_ms` may not see the provider of app `get_instance_ms`,
which is not marked `allowCrossApp`; `GetInstance` answers this denied lookup
with `InstanceNotExists`, as the test expects, not with `ServiceNotExists`. -/
theorem GetInstance_denied_counterexample :
    visible sampleConfig
        (testService "sid3" "" "get_instance_cross_ms" "get_instance_service_ms" "1.0.0" 4)
        (testService "sid2" "" "get_instance_ms" "get_instance_service_ms" "1.0.5" 2) = false
      ∧ GetInstance sampleConfig getOneRegistry defaultContext
          { ConsumerServiceId := "sid3", ProviderServiceId := "sid2",
            ProviderInstanceId := "iid2" }
        = QueryResult.failed Code.ErrInstanceNotExists
      ∧ (GetInstance sampleConfig getOneRegistry defaultContext
          { ConsumerServiceId := "sid3", ProviderServiceId := "sid2",
            ProviderInstanceId := "iid2" }).code ≠ Code.ErrServiceNotExists := by
  decide

/-! ## The durations of `newInfo` -/

theorem newInfo_serviceClearInterval_eq (s : Source) :
    (newInfo s).Config.ServiceClearInterval =
      if GetDuration s "registry.service.clearInterval" (12 * Hour) < 30 * Second
          ∨ GetDuration s "registry.service.clearInterval" (12 * Hour) > 24 * Hour then
        12 * Hour
      else GetDuration s "registry.service.clearInterval" (12 * Hour) := rfl

theorem newInfo_serviceTTL_eq (s : Source) :
    (newInfo s).Config.ServiceTTL =
      if GetDuration s "registry.service.clearTTL" (24 * Hour) < 30 * Second
          ∨ GetDuration s "registry.service.clearTTL" (24 * Hour) > 24 * 365 * Hour then
        24 * Hour
      else GetDuration s "registry.service.clearTTL" (24 * Hour) := rfl

theorem newInfo_cacheTTL_eq (s : Source) :
    (newInfo s).Config.CacheTTL =
      if GetDuration s "registry.cache.ttl" (5 * Minute) < 5 * Minute then 5 * Minute
      else GetDuration s "registry.cache.ttl" (5 * Minute) := rfl

theorem newInfo_metricsInterval_eq (s : Source) :
    (newInfo s).Config.MetricsInterval = GetDuration s "metrics.interval" (30 * Second) := rfl

theorem GetDuration_of_configured (s : Source) (key : String) (dflt v : Duration)
    (hv : s.duration key = some v) : GetDuration s key dflt = v := by
  simp [GetDuration, hv]

/-- C23: when `registry.service.clearInterval` is configured to `v`, the
`ServiceClearInterval` that `newInfo` computes is `v` itself if
30 s ≤ v ≤ 24 h, both bounds included, and the default 12 h if `v` is out of
that range.  An out-of-range value is replaced, not clamped: below 30 s the
result is not 30 s, above 24 h it is not 24 h. -/
theorem newInfo_ServiceClearInterval_value (s : Source) (v : Duration)
    (hv : s.duration "registry.service.clearInterval" = some v) :
    (30 * Second ≤ v ∧ v ≤ 24 * Hour → (newInfo s).Config.ServiceClearInterval = v)
      ∧ (v < 30 * Second ∨ 24 * Hour < v →
          (newInfo s).Config.ServiceClearInterval = 12 * Hour)
      ∧ (v < 30 * Second → (newInfo s).Config.ServiceClearInterval ≠ 30 * Second)
      ∧ (24 * Hour < v → (newInfo s).Config.ServiceClearInterval ≠ 24 * Hour) := by
  rw [newInfo_serviceClearInterval_eq, GetDuration_of_configured s _ _ v hv]
  simp only [Hour, Minute, Second]
  revert v
  unfold Duration
  intro v _
  refine ⟨?_, ?_, ?_, ?_⟩ <;> intro h <;> split <;> omega

theorem newInfo_ServiceClearInterval_value_witness :
    (newInfo clearIntervalSource).Config.ServiceClearInterval = 12 * Hour
      ∧ (newInfo clearIntervalSource).Config.ServiceClearInterval ≠ 30 * Second :=
  ⟨(newInfo_ServiceClearInterval_value clearIntervalSource (29 * Second) rfl).2.1
      (Or.inl (by decide)),
    (newInfo_ServiceClearInterval_value clearIntervalSource (29 * Second) rfl).2.2.1
      (by decide)⟩

/-- C24: when `registry.cache.ttl` is configured to `v`, the `CacheTTL` that
`newInfo` computes is the greater of `v` and 5 minutes: a value below 5 minutes
becomes exactly 5 minutes, and a value of 5 minutes or more is kept as it is,
however large. -/
theorem newInfo_CacheTTL_value (s : Source) (v : Duration)
    (hv : s.duration "registry.cache.ttl" = some v) :
    (newInfo s).Config.CacheTTL = max v (5 * Minute)
      ∧ (v < 5 * Minute → (newInfo s).Config.CacheTTL = 5 * Minute)
      ∧ (5 * Minute ≤ v → (newInfo s).Config.CacheTTL = v) := by
  rw [newInfo_cacheTTL_eq, GetDuration_of_configured s _ _ v hv]
  simp only [Minute, Second]
  revert v
  unfold Duration
  intro v _
  refine ⟨?_, ?_, ?_⟩
  · split <;> omega
  · intro h
    split <;> omega
  · intro h
    split <;> omega

theorem newInfo_CacheTTL_value_witness :
    (newInfo cacheTTLSource).Config.CacheTTL = max (1 * Minute) (5 * Minute)
      ∧ (newInfo cacheTTLSource).Config.CacheTTL = 5 * Minute :=
  ⟨(newInfo_CacheTTL_value cacheTTLSource (1 * Minute) rfl).1,
    (newInfo_CacheTTL_value cacheTTLSource (1 * Minute) rfl).2.1 (by decide)⟩

/-- C25: when `registry.service.clearTTL` is configured to `v`, the `ServiceTTL`
that `newInfo` returns is `v` if 30 s ≤ v ≤ 8760 h and the default 24 h
otherwise; in both cases it lies between 30 s and 8760 h. -/
theorem newInfo_ServiceTTL_value (s : Source) (v : Duration)
    (hv : s.duration "registry.service.clearTTL" = some v) :
    (30 * Second ≤ v ∧ v ≤ 8760 * Hour → (newInfo s).Config.ServiceTTL = v)
      ∧ (v < 30 * Second ∨ 8760 * Hour < v → (newInfo s).Config.ServiceTTL = 24 * Hour)
      ∧ 30 * Second ≤ (newInfo s).Config.ServiceTTL
      ∧ (newInfo s).Config.ServiceTTL ≤ 8760 * Hour := by
  rw [newInfo_serviceTTL_eq, GetDuration_of_configured s _ _ v hv]
  simp only [Hour, Minute, Second]
  revert v
  unfold Duration
  intro v _
  refine ⟨?_, ?_, ?_, ?_⟩
  · intro h
    split <;> omega
  · intro h
    split <;> omega
  · split <;> omega
  · split <;> omega

theorem newInfo_ServiceTTL_value_witness :
    (newInfo serviceTTLSource).Config.ServiceTTL = 24 * Hour
      ∧ 30 * Second ≤ (newInfo serviceTTLSource).Config.ServiceTTL
      ∧ (newInfo serviceTTLSource).Config.ServiceTTL ≤ 8760 * Hour :=
  ⟨(newInfo_ServiceTTL_value serviceTTLSource (8761 * Hour) rfl).2.1 (Or.inr (by decide)),
    (newInfo_ServiceTTL_value serviceTTLSource (8761 * Hour) rfl).2.2⟩

/-! ## The metrics interval -/

/-- Every `metric.Init` call of `initMetrics` passes the guarded interval. -/
theorem initMetrics_interval (s : Source) (env : InitEnv) (o : metric.Options)
    (ho : InitEffect.metricInit o ∈ initMetrics s env) :
    o.Interval =
      if GetDuration s "metrics.interval" (30 * Second) ≤ Second then 30 * Second
      else GetDuration s "metrics.interval" (30 * Second) := by
  unfold initMetrics at ho
  simp only [defaultCollectPeriod] at ho
  split at ho
  · cases hm : env.metricInitErr <;> simp [hm] at ho <;> rw [ho]
  · split at ho
    · cases hm : env.metricInitErr <;> simp [hm] at ho <;> rw [ho]
    · simp at ho

/-- With a REST host configured (as it is when nothing is configured),
`initMetrics` calls `metric.Init` first. -/
theorem initMetrics_calls_init (s : Source) (env : InitEnv)
    (hhost : GetString s "server.host" "127.0.0.1" ≠ "") :
    ∃ o, (initMetrics s env).head? = some (InitEffect.metricInit o) := by
  have hlen : (GetString s "server.host" "127.0.0.1").length > 0 := by
    rcases h : GetString s "server.host" "127.0.0.1" with ⟨l⟩
    cases l with
    | nil => exact absurd h hhost
    | cons c cs => simp [String.length]
  unfold initMetrics
  simp only [hlen, if_true]
  exact ⟨_, rfl⟩

/-- C26: the interval that `initMetrics` passes to `metric.Init` is the
`MetricsInterval` that `newInfo` stores only when that value is more than one
second.  Both read `metrics.interval` with the default 30 s, but `initMetrics`
replaces a value of one second or less by 30 s and `newInfo` stores it as it
is: for such a value the two differ. -/
theorem initMetrics_interval_vs_MetricsInterval (s : Source) (env : InitEnv)
    (o : metric.Options) (ho : InitEffect.metricInit o ∈ initMetrics s env) :
    o.Interval =
        (if (newInfo s).Config.MetricsInterval ≤ 1 * Second then 30 * Second
         else (newInfo s).Config.MetricsInterval)
      ∧ (o.Interval = (newInfo s).Config.MetricsInterval
          ↔ 1 * Second < (newInfo s).Config.MetricsInterval) := by
  have h := initMetrics_interval s env o ho
  rw [newInfo_metricsInterval_eq]
  rw [h]
  simp only [Second]
  generalize GetDuration s "metrics.interval" _ = v
  revert v
  unfold Duration
  intro v
  constructor
  · split <;> split <;> omega
  · split <;> omega

theorem initMetrics_interval_vs_MetricsInterval_witness :
    InitEffect.metricInit
          { Interval := 30 * Second, InstanceName := "127.0.0.1:30100",
            SysMetrics :=
              ["process_resident_memory_bytes", "process_cpu_seconds_total", "go_threads",
               "go_goroutines"] }
        ∈ initMetrics metricsSource sampleInitEnv
      ∧ (newInfo metricsSource).Config.MetricsInterval = 1 * Second
      ∧ ¬ ((30 * Second : Duration) = (newInfo metricsSource).Config.MetricsInterval) :=
  ⟨by decide, by decide,
    fun h =>
      absurd
        ((initMetrics_interval_vs_MetricsInterval metricsSource sampleInitEnv
          { Interval := 30 * Second, InstanceName := "127.0.0.1:30100",
            SysMetrics :=
              ["process_resident_memory_bytes", "process_cpu_seconds_total", "go_threads",
               "go_goroutines"] } (by decide)).2.1 h)
        (by decide)⟩

/-! ## The order of start-up -/

/-- In a trace that reaches `marker` before any effect with property `P`, every
occurrence of such an effect has `marker` before it. -/
theorem marker_precedes (P : Effect → Prop) (marker : Effect) (before after : List Effect)
    (hbefore : ∀ e ∈ before, ¬ P e) (hmarker : ¬ P marker)
    (pre post : List Effect) (e : Effect)
    (h : before ++ marker :: after = pre ++ e :: post) (he : P e) : marker ∈ pre := by
  rcases List.append_eq_append_iff.mp h with ⟨a, hpre, ha⟩ | ⟨c, hbef, hc⟩
  · cases a with
    | nil =>
      simp only [List.nil_append, List.cons.injEq] at ha
      exact absurd (ha.1 ▸ he) hmarker
    | cons x a =>
      simp only [List.cons_append, List.cons.injEq] at ha
      rw [hpre, ← ha.1]
      simp
  · cases c with
    | nil =>
      simp only [List.nil_append, List.cons.injEq] at hc
      exact absurd (hc.1 ▸ he) hmarker
    | cons x c =>
      simp only [List.cons_append, List.cons.injEq] at hc
      have hmem : e ∈ before := by
        rw [hbef, ← hc.1]
        simp
      exact absurd he (hbefore e hmem)

/-- The trace of `startServices`, phase by phase. -/
theorem startServices_phases (cfg : ServerConfig) (env : StartEnv) :
    startServices cfg env =
      [Effect.notifyStart, Effect.loadPlugins, Effect.rbacInit] ++
        (if cfg.SelfRegister = true then [Effect.upgradeVersion] else []) ++
        (if cfg.SelfRegister = true ∧ env.upgradeErr = true then [Effect.exit 1]
         else
           [Effect.cacheRun, Effect.cacheReady] ++ autoCleanUp cfg ++ startAPIService env) := by
  cases hs : cfg.SelfRegister <;> cases hu : env.upgradeErr <;> simp [startServices, hs, hu]

/-- C27: the trace of `startServices` is, in this order: notify start, plugin
load, RBAC init, the version upgrade when `SelfRegister` is set, then cache
`Run`, cache `Ready`, the effects of `autoCleanUp` and those of
`startAPIService`, which end with the start of the API service (a failed
upgrade ends the process before the cache is run).  Hence in every execution a
submission of the janitor to the pool, a listener or the API start has the
cache's `Ready` signal before it, and that signal has the cache's `Run` before
it. -/
theorem startServices_order (cfg : ServerConfig) (env : StartEnv) :
    startServices cfg env =
        [Effect.notifyStart, Effect.loadPlugins, Effect.rbacInit] ++
          (if cfg.SelfRegister = true then [Effect.upgradeVersion] else []) ++
          (if cfg.SelfRegister = true ∧ env.upgradeErr = true then [Effect.exit 1]
           else
             [Effect.cacheRun, Effect.cacheReady] ++ autoCleanUp cfg ++ startAPIService env)
      ∧ (∀ pre e post, startServices cfg env = pre ++ e :: post → opensService e = true →
          Effect.cacheReady ∈ pre)
      ∧ (∀ pre post, startServices cfg env = pre ++ Effect.cacheReady :: post →
          Effect.cacheRun ∈ pre)
      ∧ (∀ e ∈ autoCleanUp cfg, e ≠ Effect.apiStart)
      ∧ (startAPIService env).getLast? = some Effect.apiStart := by
  refine ⟨startServices_phases cfg env, ?_, ?_, ?_, ?_⟩
  · intro pre e post h he
    rw [startServices_phases] at h
    by_cases hx : cfg.SelfRegister = true ∧ env.upgradeErr = true
    · have hmem : e ∈ pre ++ e :: post := by simp
      rw [← h] at hmem
      have hall : ∀ x ∈ [Effect.notifyStart, Effect.loadPlugins, Effect.rbacInit,
          Effect.upgradeVersion, Effect.exit 1], opensService x = false := by decide
      have hfalse := hall e (by simpa [hx.1, hx.2] using hmem)
      rw [hfalse] at he
      exact absurd he (by decide)
    · rw [if_neg hx] at h
      refine marker_precedes (fun e => opensService e = true) Effect.cacheReady
        ([Effect.notifyStart, Effect.loadPlugins, Effect.rbacInit] ++
          (if cfg.SelfRegister = true then [Effect.upgradeVersion] else []) ++
          [Effect.cacheRun])
        (autoCleanUp cfg ++ startAPIService env) ?_ (by simp [opensService]) pre post e ?_ he
      · cases hs : cfg.SelfRegister <;> simp [opensService]
      · rw [← h]
        simp
  · intro pre post h
    rw [startServices_phases] at h
    by_cases hx : cfg.SelfRegister = true ∧ env.upgradeErr = true
    · have hmem : Effect.cacheReady ∈ pre ++ Effect.cacheReady :: post := by simp
      rw [← h] at hmem
      simp [hx] at hmem
    · rw [if_neg hx] at h
      refine marker_precedes (fun e => e = Effect.cacheReady) Effect.cacheRun
        ([Effect.notifyStart, Effect.loadPlugins, Effect.rbacInit] ++
          (if cfg.SelfRegister = true then [Effect.upgradeVersion] else []))
        (Effect.cacheReady :: (autoCleanUp cfg ++ startAPIService env)) ?_ (by simp)
        pre post Effect.cacheReady ?_ rfl
      · cases hs : cfg.SelfRegister <;> simp
      · rw [← h]
        simp
  · intro e he hapi
    rw [hapi] at he
    cases hen : cfg.ServiceClearEnabled <;> simp [autoCleanUp, hen] at he
  · cases hh : env.hostname <;> simp [startAPIService, hh]

theorem startServices_order_witness :
    startServices { sampleConfig with ServiceClearEnabled := true } sampleStartEnvOk =
        [Effect.notifyStart, Effect.loadPlugins, Effect.rbacInit, Effect.upgradeVersion,
         Effect.cacheRun, Effect.cacheReady,
         Effect.logInfo "service clear enabled, interval: %s, service TTL: %s"] ++
          Effect.goroutineDo
              (Worker.janitor sampleConfig.ServiceClearInterval sampleConfig.ServiceTTL) ::
            [Effect.osHostname, Effect.setHostName "sc-host",
             Effect.addListener ListenerKind.REST "127.0.0.1" "30100",
             Effect.addListener ListenerKind.RPC "" "", Effect.apiStart]
      ∧ Effect.cacheReady ∈
        [Effect.notifyStart, Effect.loadPlugins, Effect.rbacInit, Effect.upgradeVersion,
         Effect.cacheRun, Effect.cacheReady,
         Effect.logInfo "service clear enabled, interval: %s, service TTL: %s"] :=
  ⟨by decide,
    (startServices_order { sampleConfig with ServiceClearEnabled := true }
      sampleStartEnvOk).2.1
      [Effect.notifyStart, Effect.loadPlugins, Effect.rbacInit, Effect.upgradeVersion,
       Effect.cacheRun, Effect.cacheReady,
       Effect.logInfo "service clear enabled, interval: %s, service TTL: %s"]
      (Effect.goroutineDo
        (Worker.janitor sampleConfig.ServiceClearInterval sampleConfig.ServiceTTL))
      [Effect.osHostname, Effect.setHostName "sc-host",
       Effect.addListener ListenerKind.REST "127.0.0.1" "30100",
       Effect.addListener ListenerKind.RPC "" "", Effect.apiStart]
      (by decide) rfl⟩

/-! ## The janitor loop and failures -/

/-- The loop has returned exactly when some scheduled pass took the `ctx.Done()`
case. -/
theorem janitor_returned_iff (interval ttl : Duration) (ps : List Pass) :
    (janitor interval ttl ps).returned = true ↔
      ∃ p ∈ ps, selectCase interval p = SelectCase.done := by
  induction ps with
  | nil => simp [janitor]
  | cons p ps ih =>
    cases hp : selectCase interval p with
    | done =>
      rw [janitor_cons_done interval ttl p ps hp]
      simp [hp]
    | timer =>
      rw [janitor_cons_timer interval ttl p ps hp]
      simp [hp, ih]

/-- A tick of the janitor does not receive from `ctx.Done()`. -/
theorem ctxDone_not_mem_janitorTick (ttl : Duration) (p : Pass) :
    Effect.ctxDone ∉ janitorTick ttl p := by
  cases ht : p.tryErr <;> cases hu : p.unlockErr <;> cases hc : p.clearErr <;>
    simp [janitorTick, ht, hu, hc]

/-- The loop has returned exactly when it received from `ctx.Done()`. -/
theorem janitor_returned_iff_ctxDone (interval ttl : Duration) (ps : List Pass) :
    (janitor interval ttl ps).returned = true ↔
      Effect.ctxDone ∈ (janitor interval ttl ps).effects := by
  induction ps with
  | nil => simp [janitor]
  | cons p ps ih =>
    cases hp : selectCase interval p with
    | done =>
      rw [janitor_cons_done interval ttl p ps hp]
      simp
    | timer =>
      rw [janitor_cons_timer interval ttl p ps hp]
      simp [ih, ctxDone_not_mem_janitorTick]

/-- A tick of the janitor starts with the attempt to take the lock. -/
theorem janitorTick_head (ttl : Duration) (p : Pass) :
    ∃ tail, janitorTick ttl p = Effect.muxTry LockName.ServiceClearLock :: tail :=
  ⟨_, rfl⟩

/-- A tick on which the lock is not acquired or the cleanup fails ends with an
error log. -/
theorem janitorTick_failure_logged (ttl : Duration) (p : Pass)
    (hfail : p.tryErr = true ∨ p.clearErr = true) :
    ∃ msg, (janitorTick ttl p).getLast? = some (Effect.logError msg) := by
  cases ht : p.tryErr
  · have hc : p.clearErr = true := by
      rcases hfail with h | h
      · rw [ht] at h
        exact absurd h (by decide)
      · exact h
    cases hu : p.unlockErr <;>
      exact ⟨"no-instance services cleanup failed", by simp [janitorTick, ht, hc, hu]⟩
  · exact ⟨"can not clear no instance services by this service center instance now",
      by simp [janitorTick, ht]⟩

/-- C28: a failure does not end the janitor loop.  After a tick on which
`mux.Try` fails or `ClearNoInstanceServices` returns an error, the failure is
logged and the loop is back at its select: it creates a timer for another
`ServiceClearInterval`, and when that fires it tries the lock again, the rest
of the run being what the remaining schedule gives.  For every schedule, the
loop has returned exactly when some pass took the `ctx.Done()` case, that is,
exactly when it received from `ctx.Done()`; the error flags play no part. -/
theorem janitor_continues_after_failure (interval ttl : Duration) (qs rest : List Pass)
    (p q : Pass)
    (hrun : (janitor interval ttl qs).returned = false)
    (hp : selectCase interval p = SelectCase.timer)
    (hfail : p.tryErr = true ∨ p.clearErr = true)
    (hq : selectCase interval q = SelectCase.timer) :
    (∃ msg, (janitorTick ttl p).getLast? = some (Effect.logError msg))
      ∧ (∃ tail,
          janitor interval ttl (qs ++ p :: q :: rest) =
            { effects :=
                (janitor interval ttl qs).effects ++
                  (Effect.timeAfter interval :: janitorTick ttl p) ++
                  (Effect.timeAfter interval :: Effect.muxTry LockName.ServiceClearLock ::
                    tail) ++
                  (janitor interval ttl rest).effects,
              returned := (janitor interval ttl rest).returned })
      ∧ (∀ ps, (janitor interval ttl ps).returned = true ↔
          ∃ x ∈ ps, selectCase interval x = SelectCase.done)
      ∧ (∀ ps, (janitor interval ttl ps).returned = true ↔
          Effect.ctxDone ∈ (janitor interval ttl ps).effects) := by
  refine ⟨janitorTick_failure_logged ttl p hfail, ?_, janitor_returned_iff interval ttl,
    janitor_returned_iff_ctxDone interval ttl⟩
  obtain ⟨tail, htail⟩ := janitorTick_head ttl q
  refine ⟨tail, ?_⟩
  rw [janitor_append interval ttl qs (p :: q :: rest) hrun,
    janitor_cons_timer interval ttl p (q :: rest) hp,
    janitor_cons_timer interval ttl q rest hq, htail]
  simp

theorem janitor_continues_after_failure_witness :
    (janitor (30 * Second) (24 * Hour)
          ([samplePassNoLock] ++ samplePassAllFail :: samplePassNoLock ::
            [samplePassCancelled])).returned = true
      ∧ (janitor (30 * Second) (24 * Hour)
          ([samplePassNoLock] ++ samplePassAllFail :: samplePassNoLock :: [])).returned
        = false
      ∧ ∃ msg, (janitorTick (24 * Hour) samplePassAllFail).getLast?
          = some (Effect.logError msg) :=
  ⟨((janitor_continues_after_failure (30 * Second) (24 * Hour) [samplePassNoLock]
        [samplePassCancelled] samplePassAllFail samplePassNoLock (by decide) (by decide)
        (Or.inr rfl) (by decide)).2.2.1 _).mpr ⟨samplePassCancelled, by simp, by decide⟩,
    by decide,
    (janitor_continues_after_failure (30 * Second) (24 * Hour) [samplePassNoLock]
        [samplePassCancelled] samplePassAllFail samplePassNoLock (by decide) (by decide)
        (Or.inr rfl) (by decide)).1⟩

/-! ## The TLS options -/

/-- The call of `tlsconf.Init` that `initSSL` makes when SSL is enabled. -/
theorem initSSL_enabled (s : Source) (cfg : ServerConfig) (env : InitEnv)
    (h : cfg.SslEnabled = true) :
    initSSL s cfg env =
      InitEffect.tlsconfInit
          { Dir := GetString s "ssl.dir" ""
            MinVersion := GetString s "ssl.minVersion" "TLSv1.2"
            ClientMinVersion :=
              if GetString s "ssl.client.minVersion" "" = "" then
                GetString s "ssl.minVersion" "TLSv1.2"
              else GetString s "ssl.client.minVersion" ""
            VerifyPeer := GetInt s "ssl.verifyClient" 1 != 0
            Ciphers := GetString s "ssl.ciphers" ""
            ClientCiphers :=
              if GetString s "ssl.client.ciphers" "" = "" then GetString s "ssl.ciphers" ""
              else GetString s "ssl.client.ciphers" "" } ::
        (if env.tlsconfInitErr = true then [InitEffect.logFatal "init ssl failed"] else []) := by
  by_cases hm : GetString s "ssl.client.minVersion" "" = "" <;>
    by_cases hc : GetString s "ssl.client.ciphers" "" = "" <;>
    simp [initSSL, h, hm, hc]

/-- C29: when `SslEnabled` is false `initSSL` does nothing, so `tlsconf.Init` is
not called.  When it is true, the first thing `initSSL` does is one call of
`tlsconf.Init`, and the options of that call have `MinVersion` and `Ciphers` as
configured (`TLSv1.2` and the empty string when not), `ClientMinVersion` equal
to the configured `ssl.client.minVersion` if that is non-empty and to
`MinVersion` otherwise, and `ClientCiphers` equal to the configured
`ssl.client.ciphers` if that is non-empty and to `Ciphers` otherwise.  The flag
is the one `newInfo` computes from `ssl.mode`. -/
theorem initSSL_client_options (s : Source) (cfg : ServerConfig) (env : InitEnv) :
    (cfg.SslEnabled = false → initSSL s cfg env = [])
      ∧ (cfg.SslEnabled = true →
          ∃ o : tlsconf.Options,
            initSSL s cfg env =
                InitEffect.tlsconfInit o ::
                  (if env.tlsconfInitErr = true then [InitEffect.logFatal "init ssl failed"]
                   else [])
              ∧ o.MinVersion = GetString s "ssl.minVersion" "TLSv1.2"
              ∧ o.Ciphers = GetString s "ssl.ciphers" ""
              ∧ o.ClientMinVersion =
                  (if GetString s "ssl.client.minVersion" "" ≠ "" then
                    GetString s "ssl.client.minVersion" ""
                   else o.MinVersion)
              ∧ o.ClientCiphers =
                  (if GetString s "ssl.client.ciphers" "" ≠ "" then
                    GetString s "ssl.client.ciphers" ""
                   else o.Ciphers))
      ∧ (newInfo s).Config.SslEnabled = (GetInt s "ssl.mode" 1 != 0) := by
  refine ⟨?_, ?_, rfl⟩
  · intro h
    simp [initSSL, h]
  · intro h
    refine ⟨_, initSSL_enabled s cfg env h, rfl, rfl, ?_, ?_⟩
    · by_cases hm : GetString s "ssl.client.minVersion" "" = "" <;> simp [hm]
    · by_cases hc : GetString s "ssl.client.ciphers" "" = "" <;> simp [hc]

theorem initSSL_client_options_witness :
    initSSL sslSource { sampleConfig with SslEnabled := false } sampleInitEnv = []
      ∧ initSSL sslSource (newInfo sslSource).Config sampleInitEnv =
          [InitEffect.tlsconfInit
            { Dir := "", MinVersion := "TLSv1.3", ClientMinVersion := "TLSv1.3",
              VerifyPeer := true, Ciphers := "TLS_AES_128_GCM_SHA256",
              ClientCiphers := "TLS_AES_128_GCM_SHA256" }]
      ∧ ∃ o : tlsconf.Options,
          initSSL sslSource (newInfo sslSource).Config sampleInitEnv =
              InitEffect.tlsconfInit o ::
                (if sampleInitEnv.tlsconfInitErr = true then
                  [InitEffect.logFatal "init ssl failed"]
                 else [])
            ∧ o.MinVersion = GetString sslSource "ssl.minVersion" "TLSv1.2"
            ∧ o.Ciphers = GetString sslSource "ssl.ciphers" ""
            ∧ o.ClientMinVersion =
                (if GetString sslSource "ssl.client.minVersion" "" ≠ "" then
                  GetString sslSource "ssl.client.minVersion" ""
                 else o.MinVersion)
            ∧ o.ClientCiphers =
                (if GetString sslSource "ssl.client.ciphers" "" ≠ "" then
                  GetString sslSource "ssl.client.ciphers" ""
                 else o.Ciphers) :=
  ⟨(initSSL_client_options sslSource { sampleConfig with SslEnabled := false }
      sampleInitEnv).1 rfl,
    by decide,
    (initSSL_client_options sslSource (newInfo sslSource).Config sampleInitEnv).2.1
      (by decide)⟩

/-! ## Reading the gRPC metadata -/

/-- C30: `FromMetadata(ctx, key)` returns for every context and key, without a
panic: its index expression is evaluated on non-empty lists only.  It returns
the empty string when the context carries no incoming metadata, when the
metadata does not hold the key and when it holds the key with an empty value
list; otherwise it returns the first value of the list stored under the key.
Only the entry of that very key is read: metadata that agrees on it gives the
same result. -/
theorem FromMetadata_total (ctx : IncomingContext) (key : String) :
    (∃ v, FromMetadata ctx key = some v)
      ∧ (ctx.incoming = none → FromMetadata ctx key = some "")
      ∧ (∀ md, ctx.incoming = some md → md key = none → FromMetadata ctx key = some "")
      ∧ (∀ md, ctx.incoming = some md → md key = some [] → FromMetadata ctx key = some "")
      ∧ (∀ md v vs, ctx.incoming = some md → md key = some (v :: vs) →
          FromMetadata ctx key = some v)
      ∧ (∀ md other, ctx.incoming = some md → other key = md key →
          FromMetadata { incoming := some other } key = FromMetadata ctx key) := by
  have hnone : ctx.incoming = none → FromMetadata ctx key = some "" := by
    intro h
    simp [FromMetadata, FromIncomingContext, h]
  have habsent : ∀ md, ctx.incoming = some md → md key = none →
      FromMetadata ctx key = some "" := by
    intro md h hk
    simp [FromMetadata, FromIncomingContext, h, hk]
  have hempty : ∀ md, ctx.incoming = some md → md key = some [] →
      FromMetadata ctx key = some "" := by
    intro md h hk
    simp [FromMetadata, FromIncomingContext, h, hk]
  have hfirst : ∀ md v vs, ctx.incoming = some md → md key = some (v :: vs) →
      FromMetadata ctx key = some v := by
    intro md v vs h hk
    simp [FromMetadata, FromIncomingContext, h, hk]
  refine ⟨?_, hnone, habsent, hempty, hfirst, ?_⟩
  · cases h : ctx.incoming with
    | none => exact ⟨_, hnone h⟩
    | some md =>
      cases hk : md key with
      | none => exact ⟨_, habsent md h hk⟩
      | some values =>
        cases values with
        | nil => exact ⟨_, hempty md h hk⟩
        | cons v vs => exact ⟨_, hfirst md v vs h hk⟩
  · intro md other h hk
    simp [FromMetadata, FromIncomingContext, h, hk]

theorem FromMetadata_total_witness :
    FromMetadata { incoming := some sampleMD } "x-domain-name" = some "default"
      ∧ FromMetadata { incoming := some sampleMD } "x-empty" = some ""
      ∧ FromMetadata { incoming := some sampleMD } "X-Domain-Name" = some ""
      ∧ FromMetadata { incoming := none } "x-domain-name" = some "" :=
  ⟨(FromMetadata_total { incoming := some sampleMD } "x-domain-name").2.2.2.2.1 sampleMD
      "default" ["other"] rfl rfl,
    (FromMetadata_total { incoming := some sampleMD } "x-empty").2.2.2.1 sampleMD rfl rfl,
    (FromMetadata_total { incoming := some sampleMD } "X-Domain-Name").2.2.1 sampleMD rfl
      (by decide),
    (FromMetadata_total { incoming := none } "x-domain-name").2.1 rfl⟩

/-! ## Direct lookups in a batch -/

/-- A consumer outside the designated default (domain, project) does not see a
provider of another (domain, project), global-visible or not. -/
theorem visible_other_tenant (cfg : ServerConfig) (consumer provider : MicroService)
    (hten : sameTenant consumer provider = false)
    (hdef : ¬ (consumer.Domain = defaultDomain ∧ consumer.Project = defaultProject)) :
    visible cfg consumer provider = false := by
  unfold sameTenant at hten
  unfold visible
  rw [Bool.or_eq_false_iff]
  constructor
  · rw [Bool.and_assoc, hten]
    rfl
  · by_cases hd : consumer.Domain = defaultDomain
    · have hp : ¬ consumer.Project = defaultProject := fun hp => hdef ⟨hd, hp⟩
      simp [hp]
    · simp [hd]

/-- A consumer of the designated default (domain, project) sees every
global-visible provider. -/
theorem visible_global (cfg : ServerConfig) (consumer provider : MicroService)
    (hglobal : isGlobalVisible cfg provider.ServiceName = true)
    (hd : consumer.Domain = defaultDomain) (hp : consumer.Project = defaultProject) :
    visible cfg consumer provider = true := by
  simp [visible, hglobal, hd, hp]

/-- The answer to an instances item whose provider is in another (domain,
project) and not visible to the consumer. -/
theorem findInstanceItem_other_tenant (cfg : ServerConfig) (r : Registry) (ctx : Context)
    (consumerId : String) (item : FindInstance) (consumer provider : MicroService)
    (hcons : r.findServiceIn ctx.Domain ctx.Project consumerId = some consumer)
    (hprov : r.findService item.ServiceId = some provider)
    (hvis : visible cfg consumer provider = false)
    (hten : sameTenant consumer provider = false) :
    findInstanceItem cfg r ctx consumerId item = QueryResult.failed Code.ErrServiceNotExists := by
  simp [findInstanceItem, GetInstance, hcons, hprov, hvis, hten]

/-- The answer to an instances item whose provider is visible to the consumer and
whose instance is registered. -/
theorem findInstanceItem_visible (cfg : ServerConfig) (r : Registry) (ctx : Context)
    (consumerId : String) (item : FindInstance) (consumer provider : MicroService)
    (x : StoredInstance)
    (hcons : r.findServiceIn ctx.Domain ctx.Project consumerId = some consumer)
    (hprov : r.findService item.ServiceId = some provider)
    (hvis : visible cfg consumer provider = true)
    (hinst : r.findInstance provider.ServiceId item.InstanceId = some x) :
    findInstanceItem cfg r ctx consumerId item =
      QueryResult.answer item.Rev [x.inst] (responseRev [provider] [x]) := by
  simp [findInstanceItem, GetInstance, hcons, hprov, hvis, hinst]

theorem findServiceIn_serviceId (r : Registry) (domain project serviceId : String)
    (svc : MicroService) (h : r.findServiceIn domain project serviceId = some svc) :
    svc ∈ r.services ∧ svc.ServiceId = serviceId ∧ svc.Domain = domain
      ∧ svc.Project = project := by
  unfold Registry.findServiceIn at h
  have hmem := List.mem_of_find?_eq_some h
  have hp := List.find?_some h
  simp only [Bool.and_eq_true, beq_iff_eq] at hp
  exact ⟨hmem, hp.1.1, hp.1.2, hp.2⟩

/-- A service without a registered instance is deleted, with or without `force`. -/
theorem UnregisterService_no_instance (r : Registry) (ctx : Context)
    (req : DeleteServiceRequest) (svc : MicroService)
    (hsvc : r.findServiceIn ctx.Domain ctx.Project req.ServiceId = some svc)
    (hnone : r.instancesOf req.ServiceId = []) :
    (UnregisterService r ctx req).2.code = Code.ResponseSuccess
      ∧ (UnregisterService r ctx req).1.findServiceIn ctx.Domain ctx.Project req.ServiceId
        = none := by
  obtain ⟨_, hid, hdom, hproj⟩ := findServiceIn_serviceId r _ _ _ svc hsvc
  have hempty : (r.instancesOf svc.ServiceId).isEmpty = true := by
    rw [hid, hnone]
    rfl
  constructor
  · simp [UnregisterService, hsvc, hempty]
  · simp only [UnregisterService, hsvc, hempty, Bool.not_true, Bool.false_and,
      Bool.false_eq_true, if_false]
    unfold Registry.findServiceIn
    rw [List.find?_eq_none]
    intro s hs
    have hs2 := (List.mem_filter.mp hs).2
    simp only [hid, hdom, hproj] at hs2
    simp only [Bool.and_eq_true, beq_iff_eq, Bool.not_eq_true', Bool.and_eq_false_iff,
      beq_eq_false_iff_ne, ne_eq] at hs2 ⊢
    tauto

/-- With `force` a service is deleted together with its instances. -/
theorem UnregisterService_force (r : Registry) (ctx : Context)
    (req : DeleteServiceRequest) (svc : MicroService)
    (hsvc : r.findServiceIn ctx.Domain ctx.Project req.ServiceId = some svc)
    (hforce : req.Force = true) :
    (UnregisterService r ctx req).2.code = Code.ResponseSuccess
      ∧ (UnregisterService r ctx req).1.instancesOf req.ServiceId = [] := by
  obtain ⟨_, hid, _, _⟩ := findServiceIn_serviceId r _ _ _ svc hsvc
  constructor
  · simp [UnregisterService, hsvc, hforce]
  · simp only [UnregisterService, hsvc, hforce, Bool.not_true, Bool.and_false,
      Bool.false_eq_true, if_false]
    unfold Registry.instancesOf
    rw [List.filter_eq_nil_iff]
    intro x hx
    have hx2 := (List.mem_filter.mp hx).2
    simp only [hid] at hx2
    simpa using hx2

/-- The two calls of "delete a service" in `TestServicesStatistics_Get` are
rejected in the model, as the test asserts, and leave the registry as it is. -/
theorem replay_TestServicesStatistics_delete :
    (UnregisterService statisticsRegistry statisticsContext1
          { ServiceId := "sid1", Force := false }).2.code ≠ Code.ResponseSuccess
      ∧ (UnregisterService statisticsRegistry statisticsContext1
          { ServiceId := "sid1", Force := false }).2.err = none
      ∧ (UnregisterService statisticsRegistry statisticsContext2
          { ServiceId := "sid2", Force := false }).2.code ≠ Code.ResponseSuccess
      ∧ (UnregisterService statisticsRegistry statisticsContext2
          { ServiceId := "sid2", Force := false }).1 = statisticsRegistry := by
  decide

/-- C22: `UnregisterService` with `force=false` on a service of the caller's
tenant that has at least one registered instance is rejected: the response code
is not `ResponseSuccess` (and no Go error is returned), and the registry is
left exactly as it was, so the service is still there and so is every instance
registered under it. -/
theorem UnregisterService_rejects_with_instances (r : Registry) (ctx : Context)
    (req : DeleteServiceRequest) (svc : MicroService) (x : StoredInstance)
    (hsvc : r.findServiceIn ctx.Domain ctx.Project req.ServiceId = some svc)
    (hinst : x ∈ r.instancesOf req.ServiceId)
    (hforce : req.Force = false) :
    (UnregisterService r ctx req).2.code ≠ Code.ResponseSuccess
      ∧ (UnregisterService r ctx req).2.err = none
      ∧ (UnregisterService r ctx req).1 = r
      ∧ (UnregisterService r ctx req).1.findServiceIn ctx.Domain ctx.Project req.ServiceId
        = some svc
      ∧ x ∈ (UnregisterService r ctx req).1.instancesOf req.ServiceId := by
  obtain ⟨_, hid, _, _⟩ := findServiceIn_serviceId r _ _ _ svc hsvc
  have hne : (r.instancesOf svc.ServiceId).isEmpty = false := by
    rw [hid]
    cases hl : r.instancesOf req.ServiceId with
    | nil => rw [hl] at hinst; simp at hinst
    | cons y ys => rfl
  have hres : UnregisterService r ctx req =
      (r, { code := Code.ErrDeployedInstance, err := none }) := by
    simp [UnregisterService, hsvc, hne, hforce]
  rw [hres]
  exact ⟨by simp, rfl, rfl, hsvc, hinst⟩

theorem UnregisterService_rejects_with_instances_witness :
    (UnregisterService statisticsRegistry statisticsContext1
          { ServiceId := "sid1", Force := false }).2.code ≠ Code.ResponseSuccess
      ∧ (UnregisterService statisticsRegistry statisticsContext1
          { ServiceId := "sid1", Force := false }).2.err = none
      ∧ (UnregisterService statisticsRegistry statisticsContext1
          { ServiceId := "sid1", Force := false }).1 = statisticsRegistry
      ∧ (UnregisterService statisticsRegistry statisticsContext1
            { ServiceId := "sid1", Force := false }).1.findServiceIn
          statisticsContext1.Domain statisticsContext1.Project "sid1"
        = some { testService "sid1" "" "query_statistics1" "service1" "1.0.0" 1
                 with Project := "Project1" }
      ∧ { testInstance "iid2" "sid1" "find:127.0.0.1:8080" 3 with
          inst :=
            { (testInstance "iid2" "sid1" "find:127.0.0.1:8080" 3).inst with
              HostName := "UT-HOST-MS2" } }
          ∈ (UnregisterService statisticsRegistry statisticsContext1
              { ServiceId := "sid1", Force := false }).1.instancesOf "sid1" :=
  UnregisterService_rejects_with_instances statisticsRegistry statisticsContext1
    { ServiceId := "sid1", Force := false }
    { testService "sid1" "" "query_statistics1" "service1" "1.0.0" 1
      with Project := "Project1" }
    { testInstance "iid2" "sid1" "find:127.0.0.1:8080" 3 with
      inst :=
        { (testInstance "iid2" "sid1" "find:127.0.0.1:8080" 3).inst with
          HostName := "UT-HOST-MS2" } }
    (by decide) (by decide) rfl

end ServiceCenter
